import Mathlib

/-!
# DS3231 real-time-clock driver: shallow embedding of `ds3231.c` / `ds3231.h`

Conventions of the embedding.

* A `uint8_t` is a `Nat`; every store into a `uint8_t` object is followed by
  an explicit `% 256`.  An `int` is an `Int` (the driver never leaves the
  range of a 32-bit `int`).
* The transport functions `handle->read` / `handle->write` are values of the
  types `ds3231_read_t σ` / `ds3231_write_t σ`, where `σ` is the state of
  whatever sits behind the bus.  A null function pointer is `none`.
* The driver's effects are threaded through a `World σ`: the bus state, the
  static scratch array `m_buffer`, and a log of the transport calls and
  alarm callbacks the driver has issued, oldest first.
* The handle is passed by value and returned updated, so the `handle == NULL`
  and `time == NULL` disjuncts of the argument checks have no counterpart.
* A call of an alarm callback is logged with the callback's address and its
  argument pointer; what the callback does is not modelled, so it changes
  neither the handle nor the bus.
* The count a transport call returns is an `ssize_t`.  Every operation
  stores it in `int byte_transferred` before it compares it, so the count
  the driver sees is `to_int` of the count returned: the value reduced
  modulo 2^32 into the range of a 32-bit `int`, equal to the count itself
  whenever the count is in that range.
* The host's `mktime` and `localtime` are parameters of the functions that
  call them, and so is the content of an uninitialised local `struct tm`;
  the samples are evaluated on a host in the UTC time zone.
-/

namespace DS3231

/-! ## Constants of `ds3231.h` and `ds3231.c` -/

def DS3231_ADDRESS : Nat := 0x68 <<< 1

def DS3231_TIME_REG_BASE_ADDRESS : Nat := 0x00
def DS3231_ALARM1_REG_BASE_ADDRESS : Nat := 0x07
def DS3231_ALARM2_REG_BASE_ADDRESS : Nat := 0x0B
def DS3231_CONTROL1_REG_ADDRESS : Nat := 0x0E
def DS3231_CONTROL2_REG_ADDRESS : Nat := 0x0F

def DS3231_DATETIME_SIZE : Nat := 7
def DS3231_CONTROL_SIZE : Nat := 2

def DS3231_CONTROL1_INTCN : Nat := 1 <<< 2
def DS3231_CONTROL1_A1IE : Nat := 1 <<< 0
def DS3231_CONTROL1_A2IE : Nat := 1 <<< 1
def DS3231_CONTROL2_A1F : Nat := 1 <<< 0
def DS3231_CONTROL2_A2F : Nat := 1 <<< 1

def A1M1 : Nat := 0
def A1M2 : Nat := 1
def A1M3 : Nat := 2
def A1M4 : Nat := 3

def A2M2 : Nat := 0
def A2M3 : Nat := 1
def A2M4 : Nat := 2

/-- The enumeration `ds3231_status_t`. -/
inductive ds3231_status_t where
  | DS3231_OK
  | DS3231_ERROR_TIMEOUT
  | DS3231_ERROR_INVALID
  | DS3231_ERROR_NULLPTR
  | DS3231_ERROR_READ_FAILED
  | DS3231_ERROR_WRITE_FAILED
  deriving DecidableEq, Repr

open ds3231_status_t

/-- The enumerators of `ds3231_alarm_type_t`; a value of the enumeration
type is any `Nat`. -/
def DS3231_ALARM_1 : Nat := 0
def DS3231_ALARM_2 : Nat := 1
def DS3231_ALARM_TOTAL : Nat := 2

/-- The mask enumerators for alarm 1. -/
def DS3231_ALARM1_MASK_PER_SECOND : Nat := 0b1111
def DS3231_ALARM1_MASK_SECOND_MATCH : Nat := 0b1110
def DS3231_ALARM1_MASK_MIN_SEC_MATCH : Nat := 0b1100
def DS3231_ALARM1_MASK_HOUR_MIN_SEC_MATCH : Nat := 0b1000

/-- The mask enumerators for alarm 2. -/
def DS3231_ALARM2_MASK_PER_MIN : Nat := 0b111
def DS3231_ALARM2_MASK_MIN_MATCH : Nat := 0b110
def DS3231_ALARM2_MASK_HOUR_MIN_MATCH : Nat := 0b100

/-! ## 8-bit helpers -/

/-- Conversion of an `int` to `uint8_t`: reduction modulo 256. -/
def u8 (x : Int) : Nat := (x % 256).toNat

/-- Conversion of an `ssize_t` to a 32-bit `int`, as the assignment
`byte_transferred = handle->read(...)` performs it: the value reduced modulo
2^32 into the range from -2^31 to 2^31 - 1. -/
def to_int (n : Int) : Int := (n + 2147483648) % 4294967296 - 2147483648

/-- The low eight bits of `~m` for a mask `m` below 256; `c & (~m)` on a
`uint8_t` operand `c` only sees these bits. -/
def not8 (m : Nat) : Nat := 255 ^^^ m

/-- The function `bcd2dec`: `(c >> 4) * 10 + (c & 0x0f)`, returned as `uint8_t`. -/
def bcd2dec (c : Nat) : Nat := ((c >>> 4) * 10 + (c &&& 0x0f)) % 256

/-- The function `dec2bcd`: `(c / 10) << 4 | (c % 10)`, returned as `uint8_t`. -/
def dec2bcd (c : Nat) : Nat := (((c / 10) <<< 4) ||| (c % 10)) % 256

/-! ## Data model -/

/-- One action of the driver that is visible outside it: a call of the
transport read function (device address, register address, length), a call
of the transport write function (device address, register address, the
`len` bytes found at the buffer pointer, length), or a call of an alarm
callback with its argument pointer. -/
inductive Event where
  | read (dev_addr reg_addr len : Nat)
  | write (dev_addr reg_addr : Nat) (buffer : List Nat) (len : Nat)
  | callback (cb args : Nat)
  deriving DecidableEq, Repr

/-- The type `ds3231_write_t`: from the bus state, device address, register
address, bytes at the buffer pointer and length to the new bus state and the
transferred count. -/
abbrev ds3231_write_t (σ : Type) := σ → Nat → Nat → List Nat → Nat → σ × Int

/-- The type `ds3231_read_t`: from the bus state, device address, register
address and length to the new bus state, the bytes stored through the buffer
pointer (from index 0 on) and the transferred count. -/
abbrev ds3231_read_t (σ : Type) := σ → Nat → Nat → Nat → σ × List Nat × Int

/-- The struct `ds3231_alarm_t`; a callback is identified by its address,
`none` being the null pointer, and `args` is the `void *`. -/
structure ds3231_alarm_t where
  enabled : Bool
  cb : Option Nat
  args : Nat
  deriving DecidableEq, Repr

/-- The struct `ds3231_datetime_t`; every field is a `uint8_t`. -/
structure ds3231_datetime_t where
  hour : Nat
  min : Nat
  sec : Nat
  day : Nat
  date : Nat
  mon : Nat
  year : Nat
  deriving DecidableEq, Repr

/-- The struct `ds3231_handle_t`; `alarms` is the array indexed by the
alarm type (only indices below `DS3231_ALARM_TOTAL` exist in C). -/
structure ds3231_handle_t (σ : Type) where
  write : Option (ds3231_write_t σ)
  read : Option (ds3231_read_t σ)
  alarms : Nat → ds3231_alarm_t

/-- The host's `struct tm`. -/
structure tm where
  tm_sec : Int
  tm_min : Int
  tm_hour : Int
  tm_mday : Int
  tm_mon : Int
  tm_year : Int
  tm_wday : Int
  tm_yday : Int
  tm_isdst : Int
  deriving DecidableEq, Repr

/-- Everything outside the handle that the driver reads or changes: the
state behind the transport, the static array `m_buffer` (indices below 16),
and the log of events issued so far, oldest first. -/
structure World (σ : Type) where
  bus : σ
  m_buffer : Nat → Nat
  log : List Event

/-- The first `len` elements of an array, as handed to a transport write. -/
def bytes (buf : Nat → Nat) (len : Nat) : List Nat := (List.range len).map buf

/-- The array `old` after a transport read of `len` bytes stored `data`
into it: index `i < len` holds `data[i]` as a `uint8_t` when the transport
stored that many bytes, every other index keeps its content. -/
def load (data : List Nat) (len : Nat) (old : Nat → Nat) : Nat → Nat :=
  fun i => if i < len then (data.getD i (old i)) % 256 else old i

/-- A local `uint8_t` array before anything is stored in it (its content is
indeterminate in C; the driver reads it only after a transport read that
reported a full transfer). -/
def fresh : Nat → Nat := fun _ => 0

/-- The call `handle->read(DS3231_ADDRESS, reg, buf, len)`: the world after
it, the bytes stored into `buf`, and the returned count. -/
def call_read {σ : Type} (rd : ds3231_read_t σ) (reg len : Nat) (w : World σ) :
    World σ × List Nat × Int :=
  let r := rd w.bus DS3231_ADDRESS reg len
  ({ w with bus := r.1, log := w.log ++ [Event.read DS3231_ADDRESS reg len] }, r.2.1,
    to_int r.2.2)

/-- The call `handle->write(DS3231_ADDRESS, reg, buf, len)`: the world after
it and the returned count. -/
def call_write {σ : Type} (wr : ds3231_write_t σ) (reg : Nat) (buf : Nat → Nat) (len : Nat)
    (w : World σ) : World σ × Int :=
  let r := wr w.bus DS3231_ADDRESS reg (bytes buf len) len
  ({ w with bus := r.1, log := w.log ++ [Event.write DS3231_ADDRESS reg (bytes buf len) len] },
    to_int r.2)

/-- The call `cb(args)` of an alarm callback. -/
def call_cb {σ : Type} (cb args : Nat) (w : World σ) : World σ :=
  { w with log := w.log ++ [Event.callback cb args] }

/-! ## The driver -/

/-- The function `ds3231_init`. -/
def ds3231_init {σ : Type} (handle : ds3231_handle_t σ) (writefn : Option (ds3231_write_t σ))
    (readfn : Option (ds3231_read_t σ)) (w : World σ) :
    ds3231_status_t × ds3231_handle_t σ × World σ :=
  match writefn, readfn with
  | some wr, some rd =>
    let handle : ds3231_handle_t σ :=
      { write := writefn
        read := readfn
        alarms :=
          (List.range' DS3231_ALARM_1 (DS3231_ALARM_TOTAL - DS3231_ALARM_1)).foldl
            (fun alarms index =>
              Function.update alarms index { alarms index with enabled := false, cb := none })
            handle.alarms }
    let r := call_read rd DS3231_CONTROL1_REG_ADDRESS DS3231_CONTROL_SIZE w
    if r.2.2 ≠ DS3231_CONTROL_SIZE then (DS3231_ERROR_READ_FAILED, handle, r.1) else
    let ctrl_reg := load r.2.1 DS3231_CONTROL_SIZE fresh
    let ctrl_reg := Function.update ctrl_reg 0 ((ctrl_reg 0 ||| DS3231_CONTROL1_INTCN) % 256)
    let ctrl_reg := Function.update ctrl_reg 0 ((ctrl_reg 0 &&& not8 DS3231_CONTROL1_A1IE) % 256)
    let ctrl_reg := Function.update ctrl_reg 0 ((ctrl_reg 0 &&& not8 DS3231_CONTROL1_A2IE) % 256)
    let ctrl_reg := Function.update ctrl_reg 1 ((ctrl_reg 1 &&& not8 DS3231_CONTROL2_A1F) % 256)
    let ctrl_reg := Function.update ctrl_reg 1 ((ctrl_reg 1 &&& not8 DS3231_CONTROL2_A2F) % 256)
    let r := call_write wr DS3231_CONTROL1_REG_ADDRESS ctrl_reg DS3231_CONTROL_SIZE r.1
    if r.2 ≠ DS3231_CONTROL_SIZE then (DS3231_ERROR_WRITE_FAILED, handle, r.1) else
    (DS3231_OK, handle, r.1)
  | _, _ => (DS3231_ERROR_NULLPTR, handle, w)

/-- The initialiser of `ts` in `ds3231_gettime` (lines 103-112): the
`struct tm` decoded from the seven bytes in `m_buffer`; the member that is
not named, `tm_yday`, is zero. -/
def gettime_tm (m_buffer : Nat → Nat) : tm :=
  { tm_sec := bcd2dec (m_buffer 0)
    tm_min := bcd2dec (m_buffer 1)
    tm_hour := bcd2dec (m_buffer 2)
    tm_mday := bcd2dec (m_buffer 4)
    tm_mon := (bcd2dec (m_buffer 5) : Int) - 1
    tm_year := (bcd2dec (m_buffer 6) : Int) + 100
    tm_wday := (bcd2dec (m_buffer 3) : Int) - 1
    tm_yday := 0
    tm_isdst := -1 }

/-- The function `ds3231_gettime`, over the host's `mktime`; the second component is
`*time` after the call. -/
def ds3231_gettime {σ : Type} (mktime : tm → Int) (handle : ds3231_handle_t σ) (time : Int)
    (w : World σ) : ds3231_status_t × Int × World σ :=
  match handle.read with
  | some rd =>
    let r := call_read rd DS3231_TIME_REG_BASE_ADDRESS DS3231_DATETIME_SIZE w
    let w := { r.1 with m_buffer := load r.2.1 DS3231_DATETIME_SIZE r.1.m_buffer }
    if r.2.2 ≠ DS3231_DATETIME_SIZE then (DS3231_ERROR_READ_FAILED, time, w) else
    let ts := gettime_tm w.m_buffer
    (DS3231_OK, mktime ts, w)
  | none => (DS3231_ERROR_NULLPTR, time, w)

/-- The seven assignments to `m_buffer` in `ds3231_settime` (lines 128-134);
each `int` argument is converted to the `uint8_t` parameter of `dec2bcd`. -/
def settime_buffer (ts : tm) (m_buffer : Nat → Nat) : Nat → Nat :=
  let m_buffer := Function.update m_buffer 0 (dec2bcd (u8 ts.tm_sec))
  let m_buffer := Function.update m_buffer 1 (dec2bcd (u8 ts.tm_min))
  let m_buffer := Function.update m_buffer 2 (dec2bcd (u8 ts.tm_hour))
  let m_buffer := Function.update m_buffer 3 (dec2bcd (u8 (ts.tm_wday + 1)))
  let m_buffer := Function.update m_buffer 4 (dec2bcd (u8 ts.tm_mday))
  let m_buffer := Function.update m_buffer 5 (dec2bcd (u8 (ts.tm_mon + 1)))
  let m_buffer := Function.update m_buffer 6 (dec2bcd (u8 (ts.tm_year - 100)))
  m_buffer

/-- The function `ds3231_settime`, over the host's `localtime`. -/
def ds3231_settime {σ : Type} (localtime : Int → tm) (handle : ds3231_handle_t σ) (time : Int)
    (w : World σ) : ds3231_status_t × World σ :=
  match handle.write with
  | some wr =>
    let ts := localtime time
    let w := { w with m_buffer := settime_buffer ts w.m_buffer }
    let r := call_write wr DS3231_TIME_REG_BASE_ADDRESS w.m_buffer DS3231_DATETIME_SIZE w
    if r.2 ≠ DS3231_DATETIME_SIZE then (DS3231_ERROR_WRITE_FAILED, r.1) else
    (DS3231_OK, r.1)
  | none => (DS3231_ERROR_NULLPTR, w)

/-- The function `ds3231_set_alarm`. -/
def ds3231_set_alarm {σ : Type} (handle : ds3231_handle_t σ) (alarm : Nat) (alarm_mask : Nat)
    (time : ds3231_datetime_t) (cb : Option Nat) (args : Nat) (w : World σ) :
    ds3231_status_t × ds3231_handle_t σ × World σ := Id.run do
  let some rd := handle.read | return (DS3231_ERROR_NULLPTR, handle, w)
  let some wr := handle.write | return (DS3231_ERROR_NULLPTR, handle, w)
  let mut handle := handle
  let mut w := w
  let mut ctrl_reg := fresh
  let mut alarm_base := 0
  let mut alarm_time_size := 0
  let mut flags := false

  let r := call_read rd DS3231_CONTROL1_REG_ADDRESS DS3231_CONTROL_SIZE w
  w := r.1
  ctrl_reg := load r.2.1 DS3231_CONTROL_SIZE ctrl_reg
  if r.2.2 ≠ DS3231_CONTROL_SIZE then
    return (DS3231_ERROR_READ_FAILED, handle, w)

  if alarm = DS3231_ALARM_1 then
    w := { w with m_buffer := (Function.update w.m_buffer 0
      ((dec2bcd time.sec ||| (((alarm_mask >>> A1M1) &&& 0x1) <<< 7)) % 256)) }
    w := { w with m_buffer := (Function.update w.m_buffer 1
      ((dec2bcd time.min ||| (((alarm_mask >>> A1M2) &&& 0x1) <<< 7)) % 256)) }
    w := { w with m_buffer := (Function.update w.m_buffer 2
      ((dec2bcd time.hour ||| (((alarm_mask >>> A1M3) &&& 0x1) <<< 7)) % 256)) }
    w := { w with m_buffer := (Function.update w.m_buffer 3
      ((dec2bcd time.date ||| (((alarm_mask >>> A1M4) &&& 0x1) <<< 7)) % 256)) }

    alarm_base := DS3231_ALARM1_REG_BASE_ADDRESS
    alarm_time_size := 4
  else if alarm = DS3231_ALARM_2 then
    w := { w with m_buffer := (Function.update w.m_buffer 0
      ((dec2bcd time.min ||| (((alarm_mask >>> A2M2) &&& 0x1) <<< 7)) % 256)) }
    w := { w with m_buffer := (Function.update w.m_buffer 1
      ((dec2bcd time.hour ||| (((alarm_mask >>> A2M3) &&& 0x1) <<< 7)) % 256)) }
    w := { w with m_buffer := (Function.update w.m_buffer 2
      ((dec2bcd time.date ||| (((alarm_mask >>> A2M4) &&& 0x1) <<< 7)) % 256)) }

    alarm_base := DS3231_ALARM2_REG_BASE_ADDRESS
    alarm_time_size := 3
  else
    return (DS3231_ERROR_INVALID, handle, w)

  if ctrl_reg 0 &&& DS3231_CONTROL1_INTCN ≠ 0 then
    ctrl_reg := Function.update ctrl_reg 0 ((ctrl_reg 0 &&& not8 DS3231_CONTROL1_INTCN) % 256)

    let r := call_write wr DS3231_CONTROL1_REG_ADDRESS ctrl_reg 1 w
    w := r.1
    if r.2 ≠ 1 then
      return (DS3231_ERROR_WRITE_FAILED, handle, w)

    flags := true

  let r := call_write wr alarm_base w.m_buffer alarm_time_size w
  w := r.1
  if r.2 ≠ alarm_time_size then
    return (DS3231_ERROR_WRITE_FAILED, handle, w)

  if flags then
    ctrl_reg := Function.update ctrl_reg 0 ((ctrl_reg 0 ||| DS3231_CONTROL1_INTCN) % 256)

    let r := call_write wr DS3231_CONTROL1_REG_ADDRESS ctrl_reg 1 w
    w := r.1
    if r.2 ≠ 1 then
      return (DS3231_ERROR_WRITE_FAILED, handle, w)

  handle := { handle with alarms := (Function.update handle.alarms alarm
    { handle.alarms alarm with cb := cb }) }
  handle := { handle with alarms := (Function.update handle.alarms alarm
    { handle.alarms alarm with args := args }) }

  return (DS3231_OK, handle, w)

/-- The function `ds3231_get_alarm`; the second component is `*time` after the call. -/
def ds3231_get_alarm {σ : Type} (handle : ds3231_handle_t σ) (alarm : Nat)
    (time : ds3231_datetime_t) (w : World σ) :
    ds3231_status_t × ds3231_datetime_t × World σ := Id.run do
  let some rd := handle.read | return (DS3231_ERROR_NULLPTR, time, w)
  let mut time := time
  let mut w := w
  let mut alarm_base := 0
  let mut alarm_time_size := 0

  if alarm = DS3231_ALARM_1 then
    alarm_base := DS3231_ALARM1_REG_BASE_ADDRESS
    alarm_time_size := 4
  else if alarm = DS3231_ALARM_2 then
    alarm_base := DS3231_ALARM2_REG_BASE_ADDRESS
    alarm_time_size := 3
  else
    return (DS3231_ERROR_INVALID, time, w)

  let r := call_read rd alarm_base alarm_time_size w
  w := { r.1 with m_buffer := load r.2.1 alarm_time_size r.1.m_buffer }
  if r.2.2 ≠ alarm_time_size then
    return (DS3231_ERROR_READ_FAILED, time, w)

  if alarm = DS3231_ALARM_1 then
    time := { time with sec := bcd2dec (w.m_buffer 0 &&& 0b01111111) }
    time := { time with min := bcd2dec (w.m_buffer 1 &&& 0b01111111) }
    time := { time with hour := bcd2dec (w.m_buffer 2 &&& 0b01111111) }
    time := { time with date := bcd2dec (w.m_buffer 3 &&& 0b01111111) }
  else if alarm = DS3231_ALARM_2 then
    time := { time with sec := 0 }
    time := { time with min := bcd2dec (w.m_buffer 0 &&& 0b01111111) }
    time := { time with hour := bcd2dec (w.m_buffer 1 &&& 0b01111111) }
    time := { time with date := bcd2dec (w.m_buffer 2 &&& 0b01111111) }

  return (DS3231_OK, time, w)

/-- The function `ds3231_allow_alarm`. -/
def ds3231_allow_alarm {σ : Type} (handle : ds3231_handle_t σ) (alarm : Nat) (enabled : Bool)
    (w : World σ) : ds3231_status_t × ds3231_handle_t σ × World σ := Id.run do
  let some rd := handle.read | return (DS3231_ERROR_NULLPTR, handle, w)
  let some wr := handle.write | return (DS3231_ERROR_NULLPTR, handle, w)
  let mut handle := handle
  let mut w := w
  let mut ctrl_reg := fresh

  let r := call_read rd DS3231_CONTROL1_REG_ADDRESS DS3231_CONTROL_SIZE w
  w := r.1
  ctrl_reg := load r.2.1 DS3231_CONTROL_SIZE ctrl_reg
  if r.2.2 ≠ DS3231_CONTROL_SIZE then
    return (DS3231_ERROR_READ_FAILED, handle, w)

  if alarm = DS3231_ALARM_1 then
    if enabled then
      ctrl_reg := Function.update ctrl_reg 0 ((ctrl_reg 0 ||| DS3231_CONTROL1_INTCN) % 256)
      ctrl_reg := Function.update ctrl_reg 0 ((ctrl_reg 0 ||| DS3231_CONTROL1_A1IE) % 256)
      handle := { handle with alarms := (Function.update handle.alarms alarm
        { handle.alarms alarm with enabled := true }) }
    else
      ctrl_reg := Function.update ctrl_reg 0 ((ctrl_reg 0 &&& not8 DS3231_CONTROL1_A1IE) % 256)
      handle := { handle with alarms := (Function.update handle.alarms alarm
        { handle.alarms alarm with enabled := false }) }
  else if alarm = DS3231_ALARM_2 then
    if enabled then
      ctrl_reg := Function.update ctrl_reg 0 ((ctrl_reg 0 ||| DS3231_CONTROL1_INTCN) % 256)
      ctrl_reg := Function.update ctrl_reg 0 ((ctrl_reg 0 ||| DS3231_CONTROL1_A2IE) % 256)
      handle := { handle with alarms := (Function.update handle.alarms alarm
        { handle.alarms alarm with enabled := true }) }
    else
      ctrl_reg := Function.update ctrl_reg 0 ((ctrl_reg 0 &&& not8 DS3231_CONTROL1_A2IE) % 256)
      handle := { handle with alarms := (Function.update handle.alarms alarm
        { handle.alarms alarm with enabled := false }) }

  let r := call_write wr DS3231_CONTROL1_REG_ADDRESS ctrl_reg DS3231_CONTROL_SIZE w
  w := r.1
  if r.2 ≠ DS3231_CONTROL_SIZE then
    return (DS3231_ERROR_WRITE_FAILED, handle, w)

  return (DS3231_OK, handle, w)

/-- The function `ds3231_alarm_callback`. -/
def ds3231_alarm_callback {σ : Type} (handle : ds3231_handle_t σ) (w : World σ) :
    ds3231_status_t × ds3231_handle_t σ × World σ := Id.run do
  let some rd := handle.read | return (DS3231_ERROR_NULLPTR, handle, w)
  let some wr := handle.write | return (DS3231_ERROR_NULLPTR, handle, w)
  let mut w := w
  let mut ctrl_reg := fresh

  let r := call_read rd DS3231_CONTROL1_REG_ADDRESS DS3231_CONTROL_SIZE w
  w := r.1
  ctrl_reg := load r.2.1 DS3231_CONTROL_SIZE ctrl_reg
  if r.2.2 ≠ DS3231_CONTROL_SIZE then
    return (DS3231_ERROR_READ_FAILED, handle, w)

  if ctrl_reg 1 &&& DS3231_CONTROL2_A1F ≠ 0 ∧ (handle.alarms 0).enabled = true then
    if let some cb := (handle.alarms 0).cb then
      w := call_cb cb (handle.alarms 0).args w
    ctrl_reg := Function.update ctrl_reg 1 ((ctrl_reg 1 &&& not8 DS3231_CONTROL2_A1F) % 256)

  if ctrl_reg 1 &&& DS3231_CONTROL2_A2F ≠ 0 ∧ (handle.alarms 1).enabled = true then
    if let some cb := (handle.alarms 1).cb then
      w := call_cb cb (handle.alarms 1).args w
    ctrl_reg := Function.update ctrl_reg 1 ((ctrl_reg 1 &&& not8 DS3231_CONTROL2_A2F) % 256)

  let r := call_write wr DS3231_CONTROL1_REG_ADDRESS ctrl_reg DS3231_CONTROL_SIZE w
  w := r.1
  if r.2 ≠ DS3231_CONTROL_SIZE then
    return (DS3231_ERROR_WRITE_FAILED, handle, w)

  return (DS3231_OK, handle, w)

/-- The seven assignments to `retval` in `ds3231_time2datetime` (lines
349-355): the driver calendar value read off a host `struct tm`, each `int`
converted to `uint8_t`. -/
def time2datetime_fields (ts : tm) : ds3231_datetime_t :=
  { sec := u8 ts.tm_sec
    min := u8 ts.tm_min
    hour := u8 ts.tm_hour
    day := u8 (ts.tm_wday + 1)
    date := u8 ts.tm_mday
    mon := u8 (ts.tm_mon + 1)
    year := u8 (ts.tm_year - 100) }

/-- The function `ds3231_time2datetime`, over the host's `localtime`. -/
def ds3231_time2datetime (localtime : Int → tm) (time : Int) : ds3231_datetime_t :=
  let ts := localtime time
  time2datetime_fields ts

/-- The six assignments to `ts` in `ds3231_datetime2time` (lines 364-369).
`ts0` is what the local `ts` holds before them; `tm_wday`, `tm_yday` and
`tm_isdst` are not assigned and keep that content. -/
def datetime2time_tm (ts0 : tm) (time : ds3231_datetime_t) : tm :=
  { ts0 with
    tm_sec := time.sec
    tm_min := time.min
    tm_hour := time.hour
    tm_mday := time.date
    tm_mon := (time.mon : Int) - 1
    tm_year := (time.year : Int) + 100 }

/-- The function `ds3231_datetime2time`, over the host's `mktime`. -/
def ds3231_datetime2time (mktime : tm → Int) (ts0 : tm) (time : ds3231_datetime_t) : Int :=
  let ts := datetime2time_tm ts0 time
  mktime ts

/-! ## A register file behind the transport

The transport the round-trip and frame properties are stated over: the bus
state is the content of the chip's registers by address; a write stores the
bytes it is given at consecutive addresses from `reg_addr`, a read returns
the bytes at consecutive addresses from `reg_addr`, and both report the
requested length. -/

/-- The register-file write function. -/
def reg_write : ds3231_write_t (Nat → Nat) :=
  fun regs _ reg_addr buffer len =>
    (fun a => if reg_addr ≤ a ∧ a < reg_addr + len then buffer.getD (a - reg_addr) (regs a)
      else regs a, (len : Int))

/-- The register-file read function. -/
def reg_read : ds3231_read_t (Nat → Nat) :=
  fun regs _ reg_addr len => (regs, (List.range len).map (fun i => regs (reg_addr + i)), (len : Int))

/-- A handle over the register file, with the given alarm bookkeeping. -/
def reg_handle (alarms : Nat → ds3231_alarm_t) : ds3231_handle_t (Nat → Nat) :=
  { write := some reg_write, read := some reg_read, alarms := alarms }

/-- Validity of the alarm-time fields: seconds and minutes 0-59, hours 0-23,
day of month 1-31. -/
def valid_alarm_time (t : ds3231_datetime_t) : Prop :=
  t.sec ≤ 59 ∧ t.min ≤ 59 ∧ t.hour ≤ 23 ∧ 1 ≤ t.date ∧ t.date ≤ 31

instance (t : ds3231_datetime_t) : Decidable (valid_alarm_time t) := by
  unfold valid_alarm_time; infer_instance

/-- Validity of a driver calendar value: seconds and minutes 0-59, hours
0-23, weekday 1-7, day of month 1-31, month 1-12, year offset 0-99. -/
def valid_datetime (t : ds3231_datetime_t) : Prop :=
  t.sec ≤ 59 ∧ t.min ≤ 59 ∧ t.hour ≤ 23 ∧ 1 ≤ t.day ∧ t.day ≤ 7 ∧ 1 ≤ t.date ∧ t.date ≤ 31 ∧
    1 ≤ t.mon ∧ t.mon ≤ 12 ∧ t.year ≤ 99

instance (t : ds3231_datetime_t) : Decidable (valid_datetime t) := by
  unfold valid_datetime; infer_instance

/-- Validity of a host broken-down time for the chip: seconds and minutes
0-59, hours 0-23, weekday 0-6, day of month 1-31, month 0-11, years since
1900 in 100-199. -/
def valid_tm (ts : tm) : Prop :=
  0 ≤ ts.tm_sec ∧ ts.tm_sec ≤ 59 ∧ 0 ≤ ts.tm_min ∧ ts.tm_min ≤ 59 ∧
    0 ≤ ts.tm_hour ∧ ts.tm_hour ≤ 23 ∧ 0 ≤ ts.tm_wday ∧ ts.tm_wday ≤ 6 ∧
    1 ≤ ts.tm_mday ∧ ts.tm_mday ≤ 31 ∧ 0 ≤ ts.tm_mon ∧ ts.tm_mon ≤ 11 ∧
    100 ≤ ts.tm_year ∧ ts.tm_year ≤ 199

instance (ts : tm) : Decidable (valid_tm ts) := by
  unfold valid_tm; infer_instance

/-! ## The phases of `ds3231_set_alarm`

The body of `ds3231_set_alarm` after the channel has been decoded, cut at its
transport calls.  These functions restate the code of the model above; the
lemma `set_alarm_eq` shows that the model is their composition. -/

/-- Lines 213-216: the bookkeeping update and the successful return. -/
def set_alarm_finish {σ : Type} (handle : ds3231_handle_t σ) (alarm : Nat) (cb : Option Nat)
    (args : Nat) (w : World σ) : ds3231_status_t × ds3231_handle_t σ × World σ :=
  let handle : ds3231_handle_t σ := { handle with alarms := (Function.update handle.alarms alarm
    { handle.alarms alarm with cb := cb }) }
  let handle : ds3231_handle_t σ := { handle with alarms := (Function.update handle.alarms alarm
    { handle.alarms alarm with args := args }) }
  (DS3231_OK, handle, w)

/-- Lines 202-211: the write that restores INTCN when `flags` is set. -/
def set_alarm_restore {σ : Type} (wr : ds3231_write_t σ) (handle : ds3231_handle_t σ)
    (alarm : Nat) (cb : Option Nat) (args : Nat) (ctrl_reg : Nat → Nat) (flags : Bool)
    (w : World σ) : ds3231_status_t × ds3231_handle_t σ × World σ :=
  if flags = true then
    if (call_write wr DS3231_CONTROL1_REG_ADDRESS
        (Function.update ctrl_reg 0 ((ctrl_reg 0 ||| DS3231_CONTROL1_INTCN) % 256)) 1 w).2 ≠ 1 then
      (DS3231_ERROR_WRITE_FAILED, handle, (call_write wr DS3231_CONTROL1_REG_ADDRESS
        (Function.update ctrl_reg 0 ((ctrl_reg 0 ||| DS3231_CONTROL1_INTCN) % 256)) 1 w).1)
    else set_alarm_finish handle alarm cb args (call_write wr DS3231_CONTROL1_REG_ADDRESS
        (Function.update ctrl_reg 0 ((ctrl_reg 0 ||| DS3231_CONTROL1_INTCN) % 256)) 1 w).1
  else set_alarm_finish handle alarm cb args w

/-- Lines 196-200: the write of the alarm bytes. -/
def set_alarm_write {σ : Type} (wr : ds3231_write_t σ) (handle : ds3231_handle_t σ)
    (alarm : Nat) (cb : Option Nat) (args : Nat) (ctrl_reg : Nat → Nat) (flags : Bool)
    (alarm_base alarm_time_size : Nat) (w : World σ) :
    ds3231_status_t × ds3231_handle_t σ × World σ :=
  if (call_write wr alarm_base w.m_buffer alarm_time_size w).2 ≠ alarm_time_size then
    (DS3231_ERROR_WRITE_FAILED, handle, (call_write wr alarm_base w.m_buffer alarm_time_size w).1)
  else set_alarm_restore wr handle alarm cb args ctrl_reg flags
    (call_write wr alarm_base w.m_buffer alarm_time_size w).1

/-- Lines 183-194: the write that clears INTCN when the control byte read
has it set. -/
def set_alarm_guard {σ : Type} (wr : ds3231_write_t σ) (handle : ds3231_handle_t σ)
    (alarm : Nat) (cb : Option Nat) (args : Nat) (ctrl_reg : Nat → Nat)
    (alarm_base alarm_time_size : Nat) (w : World σ) :
    ds3231_status_t × ds3231_handle_t σ × World σ :=
  if ctrl_reg 0 &&& DS3231_CONTROL1_INTCN ≠ 0 then
    if (call_write wr DS3231_CONTROL1_REG_ADDRESS
        (Function.update ctrl_reg 0 ((ctrl_reg 0 &&& not8 DS3231_CONTROL1_INTCN) % 256)) 1 w).2 ≠ 1 then
      (DS3231_ERROR_WRITE_FAILED, handle, (call_write wr DS3231_CONTROL1_REG_ADDRESS
        (Function.update ctrl_reg 0 ((ctrl_reg 0 &&& not8 DS3231_CONTROL1_INTCN) % 256)) 1 w).1)
    else set_alarm_write wr handle alarm cb args
      (Function.update ctrl_reg 0 ((ctrl_reg 0 &&& not8 DS3231_CONTROL1_INTCN) % 256)) true
      alarm_base alarm_time_size (call_write wr DS3231_CONTROL1_REG_ADDRESS
        (Function.update ctrl_reg 0 ((ctrl_reg 0 &&& not8 DS3231_CONTROL1_INTCN) % 256)) 1 w).1
  else set_alarm_write wr handle alarm cb args ctrl_reg false alarm_base alarm_time_size w

/-- Lines 165-168: `m_buffer` after the four assignments for alarm 1. -/
def alarm1_buffer (alarm_mask : Nat) (time : ds3231_datetime_t) (m_buffer : Nat → Nat) :
    Nat → Nat :=
  Function.update (Function.update (Function.update (Function.update m_buffer
    0 ((dec2bcd time.sec ||| (((alarm_mask >>> A1M1) &&& 0x1) <<< 7)) % 256))
    1 ((dec2bcd time.min ||| (((alarm_mask >>> A1M2) &&& 0x1) <<< 7)) % 256))
    2 ((dec2bcd time.hour ||| (((alarm_mask >>> A1M3) &&& 0x1) <<< 7)) % 256))
    3 ((dec2bcd time.date ||| (((alarm_mask >>> A1M4) &&& 0x1) <<< 7)) % 256)

/-- Lines 173-175: `m_buffer` after the three assignments for alarm 2. -/
def alarm2_buffer (alarm_mask : Nat) (time : ds3231_datetime_t) (m_buffer : Nat → Nat) :
    Nat → Nat :=
  Function.update (Function.update (Function.update m_buffer
    0 ((dec2bcd time.min ||| (((alarm_mask >>> A2M2) &&& 0x1) <<< 7)) % 256))
    1 ((dec2bcd time.hour ||| (((alarm_mask >>> A2M3) &&& 0x1) <<< 7)) % 256))
    2 ((dec2bcd time.date ||| (((alarm_mask >>> A2M4) &&& 0x1) <<< 7)) % 256)

/-! ## Vocabulary of the statements -/

/-- Bit `i` of a mask, as 0 or 1. -/
def mask_bit (mask i : Nat) : Nat := (mask.testBit i).toNat

/-- The four alarm-1 register bytes as the specification words them:
`byte[i] = decimal_to_bcd(field_i) | (mask_bit_i << 7)` for the fields
seconds, minutes, hours, day of month. -/
def encode_alarm1 (time : ds3231_datetime_t) (mask : Nat) : List Nat :=
  [dec2bcd time.sec ||| (mask_bit mask 0 <<< 7), dec2bcd time.min ||| (mask_bit mask 1 <<< 7),
    dec2bcd time.hour ||| (mask_bit mask 2 <<< 7), dec2bcd time.date ||| (mask_bit mask 3 <<< 7)]

/-- The three alarm-2 register bytes as the specification words them: the
same pattern for the fields minutes, hours, day of month. -/
def encode_alarm2 (time : ds3231_datetime_t) (mask : Nat) : List Nat :=
  [dec2bcd time.min ||| (mask_bit mask 0 <<< 7), dec2bcd time.hour ||| (mask_bit mask 1 <<< 7),
    dec2bcd time.date ||| (mask_bit mask 2 <<< 7)]

/-- The base register of an alarm channel. -/
def alarm_reg_base (alarm : Nat) : Nat :=
  if alarm = DS3231_ALARM_1 then DS3231_ALARM1_REG_BASE_ADDRESS else DS3231_ALARM2_REG_BASE_ADDRESS

/-- The number of registers of an alarm channel. -/
def alarm_reg_count (alarm : Nat) : Nat := if alarm = DS3231_ALARM_1 then 4 else 3

/-- The register bytes of an alarm channel for a time and a mask. -/
def encode_alarm (alarm : Nat) (time : ds3231_datetime_t) (mask : Nat) : List Nat :=
  if alarm = DS3231_ALARM_1 then encode_alarm1 time mask else encode_alarm2 time mask

/-- Whether an event is a transport write that starts at register `reg`. -/
def Event.writes_reg (reg : Nat) : Event → Bool
  | Event.write _ r _ _ => r == reg
  | _ => false

/-- The bytes `ds3231_set_alarm` hands to the transport in its alarm write:
the first four or three bytes of `m_buffer` after the assignments of the
channel's branch. -/
def alarm_bytes_written (alarm alarm_mask : Nat) (time : ds3231_datetime_t)
    (m_buffer : Nat → Nat) : List Nat :=
  if alarm = DS3231_ALARM_1 then bytes (alarm1_buffer alarm_mask time m_buffer) 4
  else bytes (alarm2_buffer alarm_mask time m_buffer) 3

/-- The control-1 byte a driver operation sees after its two-byte read of
the control registers in world `w`. -/
def control1_read {σ : Type} (rd : ds3231_read_t σ) (w : World σ) : Nat :=
  load (rd w.bus DS3231_ADDRESS DS3231_CONTROL1_REG_ADDRESS DS3231_CONTROL_SIZE).2.1
    DS3231_CONTROL_SIZE fresh 0

/-- The control-2 byte a driver operation sees after its two-byte read of
the control registers in world `w`. -/
def control2_read {σ : Type} (rd : ds3231_read_t σ) (w : World σ) : Nat :=
  load (rd w.bus DS3231_ADDRESS DS3231_CONTROL1_REG_ADDRESS DS3231_CONTROL_SIZE).2.1
    DS3231_CONTROL_SIZE fresh 1

/-- The outcome of `ds3231_get_alarm` run on the handle and world that
`ds3231_set_alarm` leaves behind, over the register file. -/
def set_then_get_alarm (alarms : Nat → ds3231_alarm_t) (alarm alarm_mask : Nat)
    (time : ds3231_datetime_t) (cb : Option Nat) (args : Nat) (out : ds3231_datetime_t)
    (w : World (Nat → Nat)) : ds3231_status_t × ds3231_datetime_t × World (Nat → Nat) :=
  ds3231_get_alarm (ds3231_set_alarm (reg_handle alarms) alarm alarm_mask time cb args w).2.1
    alarm out (ds3231_set_alarm (reg_handle alarms) alarm alarm_mask time cb args w).2.2

/-- The round trip `ds3231_time2datetime(ds3231_datetime2time(&time))` over
the host's `mktime` and `localtime`; `ts0` is what the local `struct tm` of
`ds3231_datetime2time` holds before its six assignments. -/
def datetime_roundtrip (mktime : tm → Int) (localtime : Int → tm) (ts0 : tm)
    (time : ds3231_datetime_t) : ds3231_datetime_t :=
  ds3231_time2datetime localtime (ds3231_datetime2time mktime ts0 time)

/-- The host keeps the calendar fields of the broken-down time `ts`:
`localtime(mktime(&ts))` has the seconds, minutes, hours, day of month,
month and year of `ts`, as a host returns them for a date and a time of day
that exist in its calendar. -/
def host_keeps (mktime : tm → Int) (localtime : Int → tm) (ts : tm) : Prop :=
  (localtime (mktime ts)).tm_sec = ts.tm_sec ∧ (localtime (mktime ts)).tm_min = ts.tm_min ∧
    (localtime (mktime ts)).tm_hour = ts.tm_hour ∧
    (localtime (mktime ts)).tm_mday = ts.tm_mday ∧
    (localtime (mktime ts)).tm_mon = ts.tm_mon ∧ (localtime (mktime ts)).tm_year = ts.tm_year

instance (mktime : tm → Int) (localtime : Int → tm) (ts : tm) :
    Decidable (host_keeps mktime localtime ts) := by
  unfold host_keeps; infer_instance

/-! ## Sample data -/

/-- A world over the register file with all registers zero, a zero scratch
buffer and an empty log. -/
def world0 : World (Nat → Nat) := { bus := fun _ => 0, m_buffer := fun _ => 0, log := [] }

/-- A world over the register file whose control registers hold `0x1C` and
`0x88` (INTCN set), all else zero. -/
def world_intcn : World (Nat → Nat) :=
  { bus := fun a => if a = 14 then 0x1C else if a = 15 then 0x88 else 0
    m_buffer := fun _ => 0
    log := [] }

/-- Alarm bookkeeping with both channels disabled and no callback. -/
def alarms0 : Nat → ds3231_alarm_t := fun _ => { enabled := false, cb := none, args := 0 }

/-- A world over the register file whose control registers hold `0x1B` and
`0x8B` (INTCN clear, both interrupt enables and both alarm flags set), all
else zero. -/
def world_flags : World (Nat → Nat) :=
  { bus := fun a => if a = 14 then 0x1B else if a = 15 then 0x8B else 0
    m_buffer := fun _ => 0
    log := [] }

/-- Alarm bookkeeping with both channels enabled and a callback registered. -/
def alarms_armed : Nat → ds3231_alarm_t := fun _ => { enabled := true, cb := some 1, args := 2 }

/-- The driver calendar value Saturday (weekday 7) 2024-06-15 14:30:45; read as
an alarm time, 14:30:45 on day 15. -/
def sample_alarm_time : ds3231_datetime_t :=
  { hour := 14, min := 30, sec := 45, day := 7, date := 15, mon := 6, year := 24 }

/-- The host broken-down time 2024-06-15 14:30:45, a Saturday. -/
def tm_20240615 : tm :=
  { tm_sec := 45, tm_min := 30, tm_hour := 14, tm_mday := 15, tm_mon := 5, tm_year := 124,
    tm_wday := 6, tm_yday := 166, tm_isdst := 0 }

/-- A `struct tm` with every member zero. -/
def tm_zero : tm :=
  { tm_sec := 0, tm_min := 0, tm_hour := 0, tm_mday := 0, tm_mon := 0, tm_year := 0,
    tm_wday := 0, tm_yday := 0, tm_isdst := 0 }

/-- The valid driver calendar value 2024-06-15 14:30:45 with weekday 3, where
the calendar has a Saturday (weekday 7). -/
def sample_weekday3 : ds3231_datetime_t := { sample_alarm_time with day := 3 }

/-- The valid driver calendar value weekday 7, day of month 31, month 2, year
offset 24, 14:30:45: a day the calendar does not have. -/
def sample_february31 : ds3231_datetime_t :=
  { hour := 14, min := 30, sec := 45, day := 7, date := 31, mon := 2, year := 24 }

/-! ## A host in the UTC time zone

The functions `mktime` and `localtime` of a host whose time zone is UTC,
without daylight saving time and leap seconds, over the proleptic Gregorian
calendar: the host the samples of the host-time mapping are evaluated on. -/

/-- The number of days from 1970-01-01 to the first day of month `m` (1-12)
of year `y`, plus `d - 1`. -/
def days_from_civil (y m d : Int) : Int :=
  let y1 := if m ≤ 2 then y - 1 else y
  let era := y1 / 400
  let yoe := y1 - era * 400
  let doy := (153 * (if 2 < m then m - 3 else m + 9) + 2) / 5 + d - 1
  let doe := yoe * 365 + yoe / 4 - yoe / 100 + doy
  era * 146097 + doe - 719468

/-- The year, month (1-12) and day of month of the day `z` days after
1970-01-01. -/
def civil_from_days (z : Int) : Int × Int × Int :=
  let z1 := z + 719468
  let era := z1 / 146097
  let doe := z1 - era * 146097
  let yoe := (doe - doe / 1460 + doe / 36524 - doe / 146096) / 365
  let doy := doe - (365 * yoe + yoe / 4 - yoe / 100)
  let mp := (5 * doy + 2) / 153
  let d := doy - (153 * mp + 2) / 5 + 1
  let m := if mp < 10 then mp + 3 else mp - 9
  (if m ≤ 2 then yoe + era * 400 + 1 else yoe + era * 400, m, d)

/-- The function `mktime` of the UTC host: the seconds since the epoch of
the broken-down time, whose members need not be in their ranges; `tm_wday`,
`tm_yday` and `tm_isdst` are not used. -/
def utc_mktime (ts : tm) : Int :=
  let months := ts.tm_year * 12 + ts.tm_mon
  (days_from_civil (1900 + months / 12) (months % 12 + 1) 1 + (ts.tm_mday - 1)) * 86400 +
    ts.tm_hour * 3600 + ts.tm_min * 60 + ts.tm_sec

/-- The function `localtime` of the UTC host. -/
def utc_localtime (t : Int) : tm :=
  let days := t / 86400
  let secs := t % 86400
  let ymd := civil_from_days days
  { tm_sec := secs % 60
    tm_min := secs % 3600 / 60
    tm_hour := secs / 3600
    tm_mday := ymd.2.2
    tm_mon := ymd.2.1 - 1
    tm_year := ymd.1 - 1900
    tm_wday := (days + 4) % 7
    tm_yday := days - days_from_civil ymd.1 1 1
    tm_isdst := 0 }

/-! ## The phases of `ds3231_allow_alarm` and `ds3231_alarm_callback`

These functions restate the channel branches of the two models above; the
lemmas `allow_alarm_eq` and `alarm_callback_eq` show that the models are
built from them. -/

/-- Lines 277-295, the control bytes: `ctrl_reg` after the branch of the
channel (unchanged for any other channel identifier). -/
def allow_alarm_ctrl (alarm : Nat) (enabled : Bool) (ctrl_reg : Nat → Nat) : Nat → Nat :=
  if alarm = DS3231_ALARM_1 then
    if enabled = true then
      let ctrl_reg := Function.update ctrl_reg 0 ((ctrl_reg 0 ||| DS3231_CONTROL1_INTCN) % 256)
      Function.update ctrl_reg 0 ((ctrl_reg 0 ||| DS3231_CONTROL1_A1IE) % 256)
    else Function.update ctrl_reg 0 ((ctrl_reg 0 &&& not8 DS3231_CONTROL1_A1IE) % 256)
  else if alarm = DS3231_ALARM_2 then
    if enabled = true then
      let ctrl_reg := Function.update ctrl_reg 0 ((ctrl_reg 0 ||| DS3231_CONTROL1_INTCN) % 256)
      Function.update ctrl_reg 0 ((ctrl_reg 0 ||| DS3231_CONTROL1_A2IE) % 256)
    else Function.update ctrl_reg 0 ((ctrl_reg 0 &&& not8 DS3231_CONTROL1_A2IE) % 256)
  else ctrl_reg

/-- Lines 277-295, the bookkeeping: the handle after the branch of the
channel (unchanged for any other channel identifier). -/
def allow_alarm_handle {σ : Type} (handle : ds3231_handle_t σ) (alarm : Nat) (enabled : Bool) :
    ds3231_handle_t σ :=
  if alarm = DS3231_ALARM_1 ∨ alarm = DS3231_ALARM_2 then
    { handle with alarms := (Function.update handle.alarms alarm
      { handle.alarms alarm with enabled := enabled }) }
  else handle

/-- Lines 321-326 and 328-333: the service of one alarm slot whose flag mask
in the control-2 byte is `flag`; the control bytes and the world after it. -/
def service_alarm {σ : Type} (a : ds3231_alarm_t) (flag : Nat) (ctrl_reg : Nat → Nat)
    (w : World σ) : (Nat → Nat) × World σ :=
  if ctrl_reg 1 &&& flag ≠ 0 ∧ a.enabled = true then
    (Function.update ctrl_reg 1 ((ctrl_reg 1 &&& not8 flag) % 256),
      match a.cb with
      | some cb => call_cb cb a.args w
      | none => w)
  else (ctrl_reg, w)

/-- Lines 315-333: the control bytes and the world of `ds3231_alarm_callback`
after its read and the service of both alarm slots. -/
def alarm_callback_serviced {σ : Type} (handle : ds3231_handle_t σ) (rd : ds3231_read_t σ)
    (w : World σ) : (Nat → Nat) × World σ :=
  service_alarm (handle.alarms 1) DS3231_CONTROL2_A2F
    (service_alarm (handle.alarms 0) DS3231_CONTROL2_A1F
      (load (call_read rd DS3231_CONTROL1_REG_ADDRESS DS3231_CONTROL_SIZE w).2.1
        DS3231_CONTROL_SIZE fresh)
      (call_read rd DS3231_CONTROL1_REG_ADDRESS DS3231_CONTROL_SIZE w).1).1
    (service_alarm (handle.alarms 0) DS3231_CONTROL2_A1F
      (load (call_read rd DS3231_CONTROL1_REG_ADDRESS DS3231_CONTROL_SIZE w).2.1
        DS3231_CONTROL_SIZE fresh)
      (call_read rd DS3231_CONTROL1_REG_ADDRESS DS3231_CONTROL_SIZE w).1).2

/-- The interrupt-enable bit of an alarm channel in the control-1 byte. -/
def alarm_enable_bit (alarm : Nat) : Nat :=
  if alarm = DS3231_ALARM_1 then DS3231_CONTROL1_A1IE else DS3231_CONTROL1_A2IE

/-- The position of the interrupt-enable bit of an alarm channel in the
control-1 byte. -/
def alarm_enable_index (alarm : Nat) : Nat := if alarm = DS3231_ALARM_1 then 0 else 1

/-- The callback events one alarm slot contributes to a service pass, in the
specification's words: when the slot's flag bit is set and its `enabled`
flag is true, the registered callback (if any) is invoked with its stored
user data. -/
def alarm_service_events (a : ds3231_alarm_t) (flag_set : Bool) : List Event :=
  if flag_set = true ∧ a.enabled = true then
    match a.cb with
    | some cb => [Event.callback cb a.args]
    | none => []
  else []

/-- A control-2 byte after the service of one alarm slot, in the
specification's words: the flag bit is cleared when it is set and the slot
is enabled, and the byte is left as it is otherwise. -/
def clear_if_serviced (c2 flag : Nat) (enabled : Bool) : Nat :=
  if c2 &&& flag ≠ 0 ∧ enabled = true then c2 &&& not8 flag else c2

/-- A control-2 byte after the service of both alarm slots. -/
def control2_serviced (c2 : Nat) (enabled1 enabled2 : Bool) : Nat :=
  clear_if_serviced (clear_if_serviced c2 DS3231_CONTROL2_A1F enabled1) DS3231_CONTROL2_A2F
    enabled2

/-- A register file that serves a fixed number of writes and then refuses:
the bus state is the register content and the number of writes still
served.  A served write stores its bytes and reports the requested length;
a refused write stores nothing and reports `short`. -/
def budget_write (short : Int) : ds3231_write_t ((Nat → Nat) × Nat) :=
  fun s dev_addr reg_addr buffer len =>
    match s.2 with
    | 0 => (s, short)
    | k + 1 => (((reg_write s.1 dev_addr reg_addr buffer len).1, k), (len : Int))

/-- The read function of the register file with a write budget: it returns
the register bytes and reports the requested length. -/
def budget_read : ds3231_read_t ((Nat → Nat) × Nat) :=
  fun s dev_addr reg_addr len => (s, (reg_read s.1 dev_addr reg_addr len).2.1, (len : Int))

/-- A handle over the register file with a write budget. -/
def budget_handle (short : Int) (alarms : Nat → ds3231_alarm_t) :
    ds3231_handle_t ((Nat → Nat) × Nat) :=
  { write := some (budget_write short), read := some budget_read, alarms := alarms }

/-- A world over the register file with a write budget, with a zero scratch
buffer and an empty log. -/
def budget_world (regs : Nat → Nat) (budget : Nat) : World ((Nat → Nat) × Nat) :=
  { bus := (regs, budget), m_buffer := fun _ => 0, log := [] }

/-- A read function of the register file that returns the register bytes and
reports the requested length plus 2^32, a count outside the range of a
32-bit `int`. -/
def wide_read : ds3231_read_t (Nat → Nat) :=
  fun regs dev_addr reg_addr len =>
    (regs, (reg_read regs dev_addr reg_addr len).2.1, (len : Int) + 4294967296)

/-- A write function of the register file that stores the bytes and reports
the requested length plus 2^32, a count outside the range of a 32-bit
`int`. -/
def wide_write : ds3231_write_t (Nat → Nat) :=
  fun regs dev_addr reg_addr buffer len =>
    ((reg_write regs dev_addr reg_addr buffer len).1, (len : Int) + 4294967296)

/-- A handle over the register file whose write function reports wide
counts. -/
def wide_write_handle (alarms : Nat → ds3231_alarm_t) : ds3231_handle_t (Nat → Nat) :=
  { write := some wide_write, read := some reg_read, alarms := alarms }

/-- Alarm bookkeeping with channel 1 enabled (callback 7, user data 9) and
channel 2 disabled (callback 8, user data 10). -/
def alarms_mixed : Nat → ds3231_alarm_t := fun i =>
  if i = 0 then { enabled := true, cb := some 7, args := 9 }
  else { enabled := false, cb := some 8, args := 10 }

/-- The handle after the bookkeeping update of `ds3231_set_alarm` (lines
213-214): the slot of the channel holds the new callback and user data. -/
def set_alarm_handle {σ : Type} (handle : ds3231_handle_t σ) (alarm : Nat) (cb : Option Nat)
    (args : Nat) : ds3231_handle_t σ :=
  { handle with alarms := (Function.update handle.alarms alarm
    { handle.alarms alarm with cb := cb, args := args }) }

/-- The count each transport call of a list of events returns when the calls
are made in order on the bus state `s`; callback events are skipped. -/
def replay {σ : Type} (rd : ds3231_read_t σ) (wr : ds3231_write_t σ) :
    σ → List Event → List (Event × Int)
  | _, [] => []
  | s, Event.read d r l :: es =>
    (Event.read d r l, (rd s d r l).2.2) :: replay rd wr (rd s d r l).1 es
  | s, Event.write d r b l :: es =>
    (Event.write d r b l, (wr s d r b l).2) :: replay rd wr (wr s d r b l).1 es
  | s, Event.callback _ _ :: es => replay rd wr s es

/-- The length a transport call asked for. -/
def Event.requested : Event → Int
  | Event.read _ _ l => l
  | Event.write _ _ _ l => l
  | Event.callback _ _ => 0

/-- The status that reports a short transfer of a transport call:
`DS3231_ERROR_READ_FAILED` for a read, `DS3231_ERROR_WRITE_FAILED` for a
write. -/
def Event.failure : Event → ds3231_status_t
  | Event.read _ _ _ => DS3231_ERROR_READ_FAILED
  | Event.write _ _ _ _ => DS3231_ERROR_WRITE_FAILED
  | Event.callback _ _ => DS3231_OK

/-- Whether a sequence of transport calls with their returned counts, and the
status of the operation that made them, abort at the first short transfer:
a call whose count, as the `int` the driver stores it in, is other than the
requested length is the last call of the sequence and the status is the one
that reports it. -/
def aborts_at_short : List (Event × Int) → ds3231_status_t → Bool
  | [], _ => true
  | (e, n) :: rest, st =>
    if to_int n = e.requested then aborts_at_short rest st
    else rest.isEmpty && decide (st = e.failure)

/-- The events an operation added to the log of the world `w` it started
from, given the log it ended with. -/
def new_events {σ : Type} (w : World σ) (log : List Event) : List Event :=
  log.drop w.log.length

/-! ## Arithmetic of the byte encodings -/

theorem to_int_of_range (n : Int) (h0 : -2147483648 ≤ n) (h1 : n < 2147483648) :
    to_int n = n := by
  unfold to_int
  omega

@[simp] theorem to_int_one : to_int 1 = 1 := by decide

@[simp] theorem to_int_two : to_int 2 = 2 := by decide

@[simp] theorem to_int_three : to_int 3 = 3 := by decide

@[simp] theorem to_int_four : to_int 4 = 4 := by decide

@[simp] theorem to_int_seven : to_int 7 = 7 := by decide

theorem to_int_natCast (n : Nat) (h : n < 2147483648) : to_int (n : Int) = (n : Int) :=
  to_int_of_range _ (by omega) (by omega)

theorem bcd_roundtrip_lt : ∀ v, v < 100 → bcd2dec (dec2bcd v) = v := by decide

theorem alarm_byte_decode : ∀ v, v < 80 → ∀ b, b < 2 →
    bcd2dec (((dec2bcd v ||| (b <<< 7)) % 256) % 256 &&& 0b01111111) = v := by decide

theorem alarm_byte_mod : ∀ v, v < 80 → ∀ b, b < 2 →
    (dec2bcd v ||| (b <<< 7)) % 256 = dec2bcd v ||| (b <<< 7) := by decide

theorem alarm_byte_bit7 : ∀ v, v < 80 → ∀ b, b < 2 →
    (dec2bcd v ||| (b <<< 7)).testBit 7 = decide (b = 1) := by decide

set_option maxRecDepth 100000 in
theorem intcn_clear_mod : ∀ c, c < 256 →
    (c &&& not8 DS3231_CONTROL1_INTCN) % 256 = c &&& not8 DS3231_CONTROL1_INTCN := by decide

set_option maxRecDepth 100000 in
theorem intcn_clear_bit : ∀ c, c < 256 →
    (c &&& not8 DS3231_CONTROL1_INTCN) &&& DS3231_CONTROL1_INTCN = 0 := by decide

set_option maxRecDepth 100000 in
theorem intcn_restore : ∀ c, c < 256 → c &&& DS3231_CONTROL1_INTCN ≠ 0 →
    ((c &&& not8 DS3231_CONTROL1_INTCN) % 256 ||| DS3231_CONTROL1_INTCN) % 256 = c := by decide

theorem shift_and_one_lt (m k : Nat) : (m >>> k) &&& 0x1 < 2 := by
  rw [Nat.and_one_is_mod]; omega

theorem shift_and_one_eq (m k : Nat) : (m >>> k) &&& 0x1 = mask_bit m k := by
  rw [mask_bit, Nat.toNat_testBit, Nat.and_one_is_mod, Nat.shiftRight_eq_div_pow]

theorem mask_bit_lt (m k : Nat) : mask_bit m k < 2 := by
  rw [← shift_and_one_eq]; exact shift_and_one_lt m k

theorem load_lt (data : List Nat) (len : Nat) (i : Nat) (h : i < len) :
    load data len fresh i < 256 := by
  simp only [load, h, if_true]; omega

/-! ## `ds3231_set_alarm` as the composition of its phases -/

theorem set_alarm_eq {σ : Type} (handle : ds3231_handle_t σ) (rd : ds3231_read_t σ)
    (wr : ds3231_write_t σ) (alarm alarm_mask : Nat)
    (time : ds3231_datetime_t) (cb : Option Nat) (args : Nat) (w : World σ)
    (hrd : handle.read = some rd) (hwr : handle.write = some wr) :
    ds3231_set_alarm handle alarm alarm_mask time cb args w =
      if (call_read rd DS3231_CONTROL1_REG_ADDRESS DS3231_CONTROL_SIZE w).2.2
          ≠ DS3231_CONTROL_SIZE then
        (DS3231_ERROR_READ_FAILED, handle,
          (call_read rd DS3231_CONTROL1_REG_ADDRESS DS3231_CONTROL_SIZE w).1)
      else if alarm = DS3231_ALARM_1 then
        set_alarm_guard wr handle alarm cb args
          (load (call_read rd DS3231_CONTROL1_REG_ADDRESS DS3231_CONTROL_SIZE w).2.1
            DS3231_CONTROL_SIZE fresh)
          DS3231_ALARM1_REG_BASE_ADDRESS 4
          { (call_read rd DS3231_CONTROL1_REG_ADDRESS DS3231_CONTROL_SIZE w).1 with
            m_buffer := alarm1_buffer alarm_mask time
              (call_read rd DS3231_CONTROL1_REG_ADDRESS DS3231_CONTROL_SIZE w).1.m_buffer }
      else if alarm = DS3231_ALARM_2 then
        set_alarm_guard wr handle alarm cb args
          (load (call_read rd DS3231_CONTROL1_REG_ADDRESS DS3231_CONTROL_SIZE w).2.1
            DS3231_CONTROL_SIZE fresh)
          DS3231_ALARM2_REG_BASE_ADDRESS 3
          { (call_read rd DS3231_CONTROL1_REG_ADDRESS DS3231_CONTROL_SIZE w).1 with
            m_buffer := alarm2_buffer alarm_mask time
              (call_read rd DS3231_CONTROL1_REG_ADDRESS DS3231_CONTROL_SIZE w).1.m_buffer }
      else
        (DS3231_ERROR_INVALID, handle,
          (call_read rd DS3231_CONTROL1_REG_ADDRESS DS3231_CONTROL_SIZE w).1) := by
  unfold ds3231_set_alarm
  simp only [Id.run, pure, bind, hrd, hwr, set_alarm_guard, set_alarm_write, set_alarm_restore,
    set_alarm_finish, alarm1_buffer, alarm2_buffer]

/-! ## Unknown channel identifiers -/

/-- C1 (as the code has it): for a channel identifier other than channel 1
and channel 2 and a handle with non-null transport functions,
`ds3231_get_alarm` returns `DS3231_ERROR_INVALID` and leaves the world as it
was (no transport call); `ds3231_set_alarm` issues exactly one transport
call, the two-byte read of the control registers, and no write, leaves the
handle as it was, and returns `DS3231_ERROR_INVALID` when the count of that
read, as the `int` the code stores it in, is 2 (so whenever the read
transfers two bytes) and `DS3231_ERROR_READ_FAILED` otherwise. -/
theorem C1_unknown_channel {σ : Type} (handle : ds3231_handle_t σ) (rd : ds3231_read_t σ)
    (wr : ds3231_write_t σ) (alarm alarm_mask : Nat) (time : ds3231_datetime_t)
    (cb : Option Nat) (args : Nat) (w : World σ)
    (hrd : handle.read = some rd) (hwr : handle.write = some wr)
    (h1 : alarm ≠ DS3231_ALARM_1) (h2 : alarm ≠ DS3231_ALARM_2) :
    ds3231_get_alarm handle alarm time w = (DS3231_ERROR_INVALID, time, w) ∧
    (ds3231_set_alarm handle alarm alarm_mask time cb args w).1 =
      (if to_int (rd w.bus DS3231_ADDRESS DS3231_CONTROL1_REG_ADDRESS
          DS3231_CONTROL_SIZE).2.2 = 2
        then DS3231_ERROR_INVALID else DS3231_ERROR_READ_FAILED) ∧
    (ds3231_set_alarm handle alarm alarm_mask time cb args w).2.1 = handle ∧
    (ds3231_set_alarm handle alarm alarm_mask time cb args w).2.2.log =
      w.log ++ [Event.read DS3231_ADDRESS DS3231_CONTROL1_REG_ADDRESS DS3231_CONTROL_SIZE] := by
  refine ⟨?_, ?_, ?_, ?_⟩
  · simp [ds3231_get_alarm, Id.run, hrd, h1, h2]
  all_goals
    rw [set_alarm_eq handle rd wr alarm alarm_mask time cb args w hrd hwr]
    simp only [call_read, DS3231_CONTROL_SIZE, h1, h2, if_false]
    by_cases hc : to_int (rd w.bus DS3231_ADDRESS DS3231_CONTROL1_REG_ADDRESS 2).2.2 = 2 <;>
      simp [hc]

/-- C1, witness: channel identifier 2 over the register file. -/
theorem C1_unknown_channel_witness :
    ds3231_get_alarm (reg_handle alarms0) DS3231_ALARM_TOTAL sample_alarm_time world0 =
      (DS3231_ERROR_INVALID, sample_alarm_time, world0) ∧
    (ds3231_set_alarm (reg_handle alarms0) DS3231_ALARM_TOTAL 0 sample_alarm_time none 0
      world0).1 =
      (if to_int (reg_read world0.bus DS3231_ADDRESS DS3231_CONTROL1_REG_ADDRESS
          DS3231_CONTROL_SIZE).2.2 = 2
        then DS3231_ERROR_INVALID else DS3231_ERROR_READ_FAILED) ∧
    (ds3231_set_alarm (reg_handle alarms0) DS3231_ALARM_TOTAL 0 sample_alarm_time none 0
      world0).2.1 = reg_handle alarms0 ∧
    (ds3231_set_alarm (reg_handle alarms0) DS3231_ALARM_TOTAL 0 sample_alarm_time none 0
      world0).2.2.log =
      world0.log ++ [Event.read DS3231_ADDRESS DS3231_CONTROL1_REG_ADDRESS DS3231_CONTROL_SIZE] :=
  C1_unknown_channel (reg_handle alarms0) reg_read reg_write DS3231_ALARM_TOTAL 0
    sample_alarm_time none 0 world0 rfl rfl (by decide) (by decide)

/-- C1, counterexample: with channel identifier 2 and working transport
functions, `ds3231_set_alarm` returns `DS3231_ERROR_INVALID` but has issued a
transport read of the control registers, so its log is not the log it
started from. -/
theorem C1_set_alarm_reads_first :
    (ds3231_set_alarm (reg_handle alarms0) DS3231_ALARM_TOTAL 0 sample_alarm_time none 0
      world0).1 = DS3231_ERROR_INVALID ∧
    (ds3231_set_alarm (reg_handle alarms0) DS3231_ALARM_TOTAL 0 sample_alarm_time none 0
      world0).2.2.log = [Event.read 0xD0 0x0E 2] ∧
    (ds3231_set_alarm (reg_handle alarms0) DS3231_ALARM_TOTAL 0 sample_alarm_time none 0
      world0).2.2.log ≠ world0.log := by
  decide

/-! ## BCD conversion -/

/-- C4: for every decimal value `v` in 0..99, `bcd2dec (dec2bcd v) = v`,
both functions computing in 8-bit unsigned arithmetic (their results are
below 256). -/
theorem C4_bcd_roundtrip (v : Nat) (hv : v ≤ 99) :
    bcd2dec (dec2bcd v) = v ∧ dec2bcd v < 256 ∧ bcd2dec (dec2bcd v) < 256 := by
  have h := bcd_roundtrip_lt v (by omega)
  refine ⟨h, ?_, ?_⟩
  · exact Nat.mod_lt _ (by decide)
  · exact Nat.mod_lt _ (by decide)

/-- C4, witness: the value 59. -/
theorem C4_bcd_roundtrip_witness :
    59 ≤ 99 ∧ bcd2dec (dec2bcd 59) = 59 ∧ dec2bcd 59 < 256 ∧ bcd2dec (dec2bcd 59) < 256 :=
  ⟨by decide, C4_bcd_roundtrip 59 (by decide)⟩

/-! ## `ds3231_set_alarm` and `ds3231_get_alarm` over the register file -/

theorem set_alarm_handle_read {σ : Type} (wr : ds3231_write_t σ) (handle : ds3231_handle_t σ)
    (alarm : Nat) (cb : Option Nat) (args : Nat) (ctrl_reg : Nat → Nat)
    (alarm_base alarm_time_size : Nat) (w : World σ) :
    (set_alarm_guard wr handle alarm cb args ctrl_reg alarm_base alarm_time_size w).2.1.read =
      handle.read := by
  simp only [set_alarm_guard, set_alarm_write, set_alarm_restore, set_alarm_finish]
  split_ifs <;> rfl

theorem reg_set_alarm1 (alarms : Nat → ds3231_alarm_t) (w : World (Nat → Nat))
    (alarm_mask : Nat) (time : ds3231_datetime_t) (cb : Option Nat) (args : Nat) :
    (ds3231_set_alarm (reg_handle alarms) DS3231_ALARM_1 alarm_mask time cb args w).1 = DS3231_OK ∧
    (ds3231_set_alarm (reg_handle alarms) DS3231_ALARM_1 alarm_mask time cb args w).2.1.read =
      some reg_read ∧
    (∀ a, (ds3231_set_alarm (reg_handle alarms) DS3231_ALARM_1 alarm_mask time cb args w).2.2.bus a =
      if 7 ≤ a ∧ a < 11 then alarm1_buffer alarm_mask time w.m_buffer (a - 7)
      else if a = 14 ∧ w.bus 14 % 256 &&& DS3231_CONTROL1_INTCN ≠ 0 then
        ((w.bus 14 % 256 &&& not8 DS3231_CONTROL1_INTCN) % 256 ||| DS3231_CONTROL1_INTCN) % 256
      else w.bus a) := by
  rw [set_alarm_eq (reg_handle alarms) reg_read reg_write _ _ _ _ _ _ rfl rfl]
  by_cases hc : w.bus 14 % 256 &&& DS3231_CONTROL1_INTCN = 0
  · simp [set_alarm_guard, set_alarm_write, set_alarm_restore, set_alarm_finish, call_read,
      call_write, reg_read, reg_write, load, bytes, List.range_succ, DS3231_CONTROL_SIZE,
      DS3231_CONTROL1_REG_ADDRESS, DS3231_ALARM1_REG_BASE_ADDRESS, DS3231_ALARM_1, hc, reg_handle]
    intro a
    by_cases ha : 7 ≤ a ∧ a < 11
    · have : a = 7 ∨ a = 8 ∨ a = 9 ∨ a = 10 := by omega
      rcases this with h | h | h | h <;> simp [h]
    · simp [ha]
  · simp [set_alarm_guard, set_alarm_write, set_alarm_restore, set_alarm_finish, call_read,
      call_write, reg_read, reg_write, load, bytes, List.range_succ, DS3231_CONTROL_SIZE,
      DS3231_CONTROL1_REG_ADDRESS, DS3231_ALARM1_REG_BASE_ADDRESS, DS3231_ALARM_1, hc, reg_handle]
    intro a
    by_cases ha : 7 ≤ a ∧ a < 11
    · have : a = 7 ∨ a = 8 ∨ a = 9 ∨ a = 10 := by omega
      rcases this with h | h | h | h <;> simp [h]
    · by_cases h14 : a = 14
      · simp [h14]
      · have : ¬ (14 ≤ a ∧ a < 15) := by omega
        simp [ha, h14, this]

theorem reg_set_alarm2 (alarms : Nat → ds3231_alarm_t) (w : World (Nat → Nat))
    (alarm_mask : Nat) (time : ds3231_datetime_t) (cb : Option Nat) (args : Nat) :
    (ds3231_set_alarm (reg_handle alarms) DS3231_ALARM_2 alarm_mask time cb args w).1 = DS3231_OK ∧
    (ds3231_set_alarm (reg_handle alarms) DS3231_ALARM_2 alarm_mask time cb args w).2.1.read =
      some reg_read ∧
    (∀ a, (ds3231_set_alarm (reg_handle alarms) DS3231_ALARM_2 alarm_mask time cb args w).2.2.bus a =
      if 11 ≤ a ∧ a < 14 then alarm2_buffer alarm_mask time w.m_buffer (a - 11)
      else if a = 14 ∧ w.bus 14 % 256 &&& DS3231_CONTROL1_INTCN ≠ 0 then
        ((w.bus 14 % 256 &&& not8 DS3231_CONTROL1_INTCN) % 256 ||| DS3231_CONTROL1_INTCN) % 256
      else w.bus a) := by
  rw [set_alarm_eq (reg_handle alarms) reg_read reg_write _ _ _ _ _ _ rfl rfl]
  by_cases hc : w.bus 14 % 256 &&& DS3231_CONTROL1_INTCN = 0
  · simp [set_alarm_guard, set_alarm_write, set_alarm_restore, set_alarm_finish, call_read,
      call_write, reg_read, reg_write, load, bytes, List.range_succ, DS3231_CONTROL_SIZE,
      DS3231_CONTROL1_REG_ADDRESS, DS3231_ALARM2_REG_BASE_ADDRESS, DS3231_ALARM_1, DS3231_ALARM_2,
      hc, reg_handle]
    intro a
    by_cases ha : 11 ≤ a ∧ a < 14
    · have : a = 11 ∨ a = 12 ∨ a = 13 := by omega
      rcases this with h | h | h <;> simp [h]
    · simp [ha]
  · simp [set_alarm_guard, set_alarm_write, set_alarm_restore, set_alarm_finish, call_read,
      call_write, reg_read, reg_write, load, bytes, List.range_succ, DS3231_CONTROL_SIZE,
      DS3231_CONTROL1_REG_ADDRESS, DS3231_ALARM2_REG_BASE_ADDRESS, DS3231_ALARM_1, DS3231_ALARM_2,
      hc, reg_handle]
    intro a
    by_cases ha : 11 ≤ a ∧ a < 14
    · have : a = 11 ∨ a = 12 ∨ a = 13 := by omega
      rcases this with h | h | h <;> simp [h]
    · by_cases h14 : a = 14
      · simp [h14]
      · have : ¬ (14 ≤ a ∧ a < 15) := by omega
        simp [ha, h14, this]

theorem reg_get_alarm1 (handle : ds3231_handle_t (Nat → Nat)) (time : ds3231_datetime_t)
    (w : World (Nat → Nat)) (hrd : handle.read = some reg_read) :
    (ds3231_get_alarm handle DS3231_ALARM_1 time w).1 = DS3231_OK ∧
    (ds3231_get_alarm handle DS3231_ALARM_1 time w).2.1 =
      { time with
        sec := bcd2dec (w.bus 7 % 256 &&& 0b01111111)
        min := bcd2dec (w.bus 8 % 256 &&& 0b01111111)
        hour := bcd2dec (w.bus 9 % 256 &&& 0b01111111)
        date := bcd2dec (w.bus 10 % 256 &&& 0b01111111) } := by
  simp [ds3231_get_alarm, Id.run, hrd, call_read, reg_read, load, DS3231_ALARM1_REG_BASE_ADDRESS,
    List.range_succ]

theorem reg_get_alarm2 (handle : ds3231_handle_t (Nat → Nat)) (time : ds3231_datetime_t)
    (w : World (Nat → Nat)) (hrd : handle.read = some reg_read) :
    (ds3231_get_alarm handle DS3231_ALARM_2 time w).1 = DS3231_OK ∧
    (ds3231_get_alarm handle DS3231_ALARM_2 time w).2.1 =
      { time with
        sec := 0
        min := bcd2dec (w.bus 11 % 256 &&& 0b01111111)
        hour := bcd2dec (w.bus 12 % 256 &&& 0b01111111)
        date := bcd2dec (w.bus 13 % 256 &&& 0b01111111) } := by
  simp [ds3231_get_alarm, Id.run, hrd, call_read, reg_read, load, DS3231_ALARM2_REG_BASE_ADDRESS,
    DS3231_ALARM_1, DS3231_ALARM_2, List.range_succ]

/-- C2: over the register file, for each channel, every mask and every alarm
time with seconds and minutes in 0-59, hours in 0-23 and day of month in
1-31, `ds3231_set_alarm` succeeds, `ds3231_get_alarm` on the same channel
succeeds, and it returns the minutes, hours and day of month that were set;
the seconds it returns are those set for channel 1 and 0 for channel 2. -/
theorem C2_alarm_roundtrip (alarms : Nat → ds3231_alarm_t) (alarm alarm_mask : Nat)
    (time : ds3231_datetime_t) (cb : Option Nat) (args : Nat) (out : ds3231_datetime_t)
    (w : World (Nat → Nat))
    (hch : alarm = DS3231_ALARM_1 ∨ alarm = DS3231_ALARM_2) (hv : valid_alarm_time time) :
    (ds3231_set_alarm (reg_handle alarms) alarm alarm_mask time cb args w).1 = DS3231_OK ∧
    (set_then_get_alarm alarms alarm alarm_mask time cb args out w).1 = DS3231_OK ∧
    (set_then_get_alarm alarms alarm alarm_mask time cb args out w).2.1.min = time.min ∧
    (set_then_get_alarm alarms alarm alarm_mask time cb args out w).2.1.hour = time.hour ∧
    (set_then_get_alarm alarms alarm alarm_mask time cb args out w).2.1.date = time.date ∧
    (set_then_get_alarm alarms alarm alarm_mask time cb args out w).2.1.sec =
      (if alarm = DS3231_ALARM_1 then time.sec else 0) := by
  obtain ⟨hs, hm, hh, _, hd⟩ := hv
  rcases hch with rfl | rfl
  · obtain ⟨hok, hread, hbus⟩ := reg_set_alarm1 alarms w alarm_mask time cb args
    obtain ⟨gok, gval⟩ := reg_get_alarm1 _ out _ hread
    have e0 := alarm_byte_decode time.sec (by omega) _ (shift_and_one_lt alarm_mask A1M1)
    have e1 := alarm_byte_decode time.min (by omega) _ (shift_and_one_lt alarm_mask A1M2)
    have e2 := alarm_byte_decode time.hour (by omega) _ (shift_and_one_lt alarm_mask A1M3)
    have e3 := alarm_byte_decode time.date (by omega) _ (shift_and_one_lt alarm_mask A1M4)
    refine ⟨hok, gok, ?_, ?_, ?_, ?_⟩
    all_goals
      simp only [set_then_get_alarm]
      rw [gval]
      simp only [hbus, alarm1_buffer]
      first | simpa using e0 | simpa using e1 | simpa using e2 | simpa using e3
  · obtain ⟨hok, hread, hbus⟩ := reg_set_alarm2 alarms w alarm_mask time cb args
    obtain ⟨gok, gval⟩ := reg_get_alarm2 _ out _ hread
    have e1 := alarm_byte_decode time.min (by omega) _ (shift_and_one_lt alarm_mask A2M2)
    have e2 := alarm_byte_decode time.hour (by omega) _ (shift_and_one_lt alarm_mask A2M3)
    have e3 := alarm_byte_decode time.date (by omega) _ (shift_and_one_lt alarm_mask A2M4)
    refine ⟨hok, gok, ?_, ?_, ?_, ?_⟩
    all_goals
      simp only [set_then_get_alarm]
      rw [gval]
      simp only [hbus, alarm2_buffer]
      first | simpa using e1 | simpa using e2 | simpa using e3 | simp [DS3231_ALARM_1, DS3231_ALARM_2]

/-- C2, witness: channel 2 with the minutes-match mask, INTCN set in the
control register. -/
theorem C2_alarm_roundtrip_witness :
    (DS3231_ALARM_2 = DS3231_ALARM_1 ∨ DS3231_ALARM_2 = DS3231_ALARM_2) ∧
    valid_alarm_time sample_alarm_time ∧
    ((ds3231_set_alarm (reg_handle alarms0) DS3231_ALARM_2 DS3231_ALARM2_MASK_MIN_MATCH
        sample_alarm_time none 0 world_intcn).1 = DS3231_OK ∧
    (set_then_get_alarm alarms0 DS3231_ALARM_2 DS3231_ALARM2_MASK_MIN_MATCH sample_alarm_time
        none 0 sample_alarm_time world_intcn).1 = DS3231_OK ∧
    (set_then_get_alarm alarms0 DS3231_ALARM_2 DS3231_ALARM2_MASK_MIN_MATCH sample_alarm_time
        none 0 sample_alarm_time world_intcn).2.1.min = sample_alarm_time.min ∧
    (set_then_get_alarm alarms0 DS3231_ALARM_2 DS3231_ALARM2_MASK_MIN_MATCH sample_alarm_time
        none 0 sample_alarm_time world_intcn).2.1.hour = sample_alarm_time.hour ∧
    (set_then_get_alarm alarms0 DS3231_ALARM_2 DS3231_ALARM2_MASK_MIN_MATCH sample_alarm_time
        none 0 sample_alarm_time world_intcn).2.1.date = sample_alarm_time.date ∧
    (set_then_get_alarm alarms0 DS3231_ALARM_2 DS3231_ALARM2_MASK_MIN_MATCH sample_alarm_time
        none 0 sample_alarm_time world_intcn).2.1.sec =
      (if DS3231_ALARM_2 = DS3231_ALARM_1 then sample_alarm_time.sec else 0)) :=
  ⟨Or.inr rfl, by decide,
    C2_alarm_roundtrip alarms0 DS3231_ALARM_2 DS3231_ALARM2_MASK_MIN_MATCH sample_alarm_time
      none 0 sample_alarm_time world_intcn (Or.inr rfl) (by decide)⟩

/-! ## The transport calls of `ds3231_set_alarm` -/

theorem bytes_alarm1_buffer (alarm_mask : Nat) (time : ds3231_datetime_t) (m : Nat → Nat) :
    bytes (alarm1_buffer alarm_mask time m) 4 =
      [(dec2bcd time.sec ||| (((alarm_mask >>> A1M1) &&& 0x1) <<< 7)) % 256,
        (dec2bcd time.min ||| (((alarm_mask >>> A1M2) &&& 0x1) <<< 7)) % 256,
        (dec2bcd time.hour ||| (((alarm_mask >>> A1M3) &&& 0x1) <<< 7)) % 256,
        (dec2bcd time.date ||| (((alarm_mask >>> A1M4) &&& 0x1) <<< 7)) % 256] := by
  simp [bytes, alarm1_buffer, List.range_succ]

theorem bytes_alarm2_buffer (alarm_mask : Nat) (time : ds3231_datetime_t) (m : Nat → Nat) :
    bytes (alarm2_buffer alarm_mask time m) 3 =
      [(dec2bcd time.min ||| (((alarm_mask >>> A2M2) &&& 0x1) <<< 7)) % 256,
        (dec2bcd time.hour ||| (((alarm_mask >>> A2M3) &&& 0x1) <<< 7)) % 256,
        (dec2bcd time.date ||| (((alarm_mask >>> A2M4) &&& 0x1) <<< 7)) % 256] := by
  simp [bytes, alarm2_buffer, List.range_succ]

theorem bytes_alarm1_encode (alarm_mask : Nat) (time : ds3231_datetime_t) (m : Nat → Nat)
    (hv : valid_alarm_time time) :
    bytes (alarm1_buffer alarm_mask time m) 4 = encode_alarm1 time alarm_mask := by
  obtain ⟨hs, hm, hh, _, hd⟩ := hv
  rw [bytes_alarm1_buffer, encode_alarm1]
  simp only [shift_and_one_eq, A1M1, A1M2, A1M3, A1M4]
  rw [alarm_byte_mod time.sec (by omega) _ (mask_bit_lt _ _),
    alarm_byte_mod time.min (by omega) _ (mask_bit_lt _ _),
    alarm_byte_mod time.hour (by omega) _ (mask_bit_lt _ _),
    alarm_byte_mod time.date (by omega) _ (mask_bit_lt _ _)]

theorem bytes_alarm2_encode (alarm_mask : Nat) (time : ds3231_datetime_t) (m : Nat → Nat)
    (hv : valid_alarm_time time) :
    bytes (alarm2_buffer alarm_mask time m) 3 = encode_alarm2 time alarm_mask := by
  obtain ⟨hs, hm, hh, _, hd⟩ := hv
  rw [bytes_alarm2_buffer, encode_alarm2]
  simp only [shift_and_one_eq, A2M2, A2M3, A2M4]
  rw [alarm_byte_mod time.min (by omega) _ (mask_bit_lt _ _),
    alarm_byte_mod time.hour (by omega) _ (mask_bit_lt _ _),
    alarm_byte_mod time.date (by omega) _ (mask_bit_lt _ _)]

theorem encoded_bit7 (v mask i : Nat) (hv : v < 80) :
    (dec2bcd v ||| (mask_bit mask i <<< 7)).testBit 7 = mask.testBit i := by
  rw [alarm_byte_bit7 v hv _ (mask_bit_lt mask i), mask_bit]
  cases mask.testBit i <;> rfl

/-- The events `set_alarm_guard` appends when every write transfers the
requested length. -/
theorem set_alarm_guard_ok {σ : Type} (wr : ds3231_write_t σ) (handle : ds3231_handle_t σ)
    (alarm : Nat) (cb : Option Nat) (args : Nat) (ctrl_reg : Nat → Nat)
    (alarm_base alarm_time_size : Nat) (w : World σ)
    (hW : ∀ s dev reg buf len, (wr s dev reg buf len).2 = (len : Int)) (hc : ctrl_reg 0 < 256)
    (hn : alarm_time_size < 2147483648) :
    (set_alarm_guard wr handle alarm cb args ctrl_reg alarm_base alarm_time_size w).1 =
      DS3231_OK ∧
    (set_alarm_guard wr handle alarm cb args ctrl_reg alarm_base alarm_time_size w).2.2.log =
      w.log ++
        (if ctrl_reg 0 &&& DS3231_CONTROL1_INTCN ≠ 0 then
          [Event.write DS3231_ADDRESS DS3231_CONTROL1_REG_ADDRESS
              [ctrl_reg 0 &&& not8 DS3231_CONTROL1_INTCN] 1,
            Event.write DS3231_ADDRESS alarm_base (bytes w.m_buffer alarm_time_size)
              alarm_time_size,
            Event.write DS3231_ADDRESS DS3231_CONTROL1_REG_ADDRESS [ctrl_reg 0] 1]
        else
          [Event.write DS3231_ADDRESS alarm_base (bytes w.m_buffer alarm_time_size)
            alarm_time_size]) := by
  have hsz := to_int_natCast alarm_time_size hn
  by_cases hI : ctrl_reg 0 &&& DS3231_CONTROL1_INTCN = 0
  · simp [set_alarm_guard, set_alarm_write, set_alarm_restore, set_alarm_finish, call_write, hW,
      hI, hsz]
  · have e1 := intcn_clear_mod _ hc
    have e2 := intcn_restore _ hc hI
    rw [e1] at e2
    simp [set_alarm_guard, set_alarm_write, set_alarm_restore, set_alarm_finish, call_write, hW,
      hI, bytes, List.range_succ, e1, e2, hsz]

/-- The outcome of `ds3231_set_alarm` on a valid channel when the control
read and every write transfer the requested length. -/
theorem set_alarm_ok_log {σ : Type} (handle : ds3231_handle_t σ) (rd : ds3231_read_t σ)
    (wr : ds3231_write_t σ) (alarm alarm_mask : Nat) (time : ds3231_datetime_t)
    (cb : Option Nat) (args : Nat) (w : World σ)
    (hrd : handle.read = some rd) (hwr : handle.write = some wr)
    (hR : ∀ s dev reg len, (rd s dev reg len).2.2 = (len : Int))
    (hW : ∀ s dev reg buf len, (wr s dev reg buf len).2 = (len : Int))
    (hch : alarm = DS3231_ALARM_1 ∨ alarm = DS3231_ALARM_2) :
    (ds3231_set_alarm handle alarm alarm_mask time cb args w).1 = DS3231_OK ∧
    (ds3231_set_alarm handle alarm alarm_mask time cb args w).2.2.log =
      w.log ++ Event.read DS3231_ADDRESS DS3231_CONTROL1_REG_ADDRESS DS3231_CONTROL_SIZE ::
        (if control1_read rd w &&& DS3231_CONTROL1_INTCN ≠ 0 then
          [Event.write DS3231_ADDRESS DS3231_CONTROL1_REG_ADDRESS
              [control1_read rd w &&& not8 DS3231_CONTROL1_INTCN] 1,
            Event.write DS3231_ADDRESS (alarm_reg_base alarm)
              (alarm_bytes_written alarm alarm_mask time w.m_buffer)
              (alarm_reg_count alarm),
            Event.write DS3231_ADDRESS DS3231_CONTROL1_REG_ADDRESS [control1_read rd w] 1]
        else
          [Event.write DS3231_ADDRESS (alarm_reg_base alarm)
            (alarm_bytes_written alarm alarm_mask time w.m_buffer)
            (alarm_reg_count alarm)]) := by
  have hc : load (call_read rd DS3231_CONTROL1_REG_ADDRESS DS3231_CONTROL_SIZE w).2.1
      DS3231_CONTROL_SIZE fresh 0 < 256 := load_lt _ _ _ (by decide)
  rw [set_alarm_eq handle rd wr alarm alarm_mask time cb args w hrd hwr]
  rcases hch with rfl | rfl
  · obtain ⟨h1, h2⟩ := set_alarm_guard_ok wr handle DS3231_ALARM_1 cb args _
      DS3231_ALARM1_REG_BASE_ADDRESS 4
      { (call_read rd DS3231_CONTROL1_REG_ADDRESS DS3231_CONTROL_SIZE w).1 with
        m_buffer := alarm1_buffer alarm_mask time
          (call_read rd DS3231_CONTROL1_REG_ADDRESS DS3231_CONTROL_SIZE w).1.m_buffer } hW hc
      (by decide)
    have hr : (call_read rd DS3231_CONTROL1_REG_ADDRESS DS3231_CONTROL_SIZE w).2.2 =
      (DS3231_CONTROL_SIZE : Int) := by simp [call_read, hR, DS3231_CONTROL_SIZE]
    simp only [hr, ne_eq, not_true_eq_false, if_false, if_true, h1, h2, true_and]
    simp [call_read, control1_read, alarm_reg_base, alarm_reg_count, alarm_bytes_written]
  · obtain ⟨h1, h2⟩ := set_alarm_guard_ok wr handle DS3231_ALARM_2 cb args _
      DS3231_ALARM2_REG_BASE_ADDRESS 3
      { (call_read rd DS3231_CONTROL1_REG_ADDRESS DS3231_CONTROL_SIZE w).1 with
        m_buffer := alarm2_buffer alarm_mask time
          (call_read rd DS3231_CONTROL1_REG_ADDRESS DS3231_CONTROL_SIZE w).1.m_buffer } hW hc
      (by decide)
    have hr : (call_read rd DS3231_CONTROL1_REG_ADDRESS DS3231_CONTROL_SIZE w).2.2 =
      (DS3231_CONTROL_SIZE : Int) := by simp [call_read, hR, DS3231_CONTROL_SIZE]
    have h21 : DS3231_ALARM_2 ≠ DS3231_ALARM_1 := by decide
    simp only [hr, ne_eq, not_true_eq_false, if_false, if_true, h1, h2, true_and, h21]
    simp [call_read, control1_read, alarm_reg_base, alarm_reg_count, alarm_bytes_written, h21]

theorem set_alarm_guard_mem {σ : Type} (wr : ds3231_write_t σ) (handle : ds3231_handle_t σ)
    (alarm : Nat) (cb : Option Nat) (args : Nat) (ctrl_reg : Nat → Nat)
    (alarm_base alarm_time_size : Nat) (w : World σ) (e : Event)
    (he : e ∈ (set_alarm_guard wr handle alarm cb args ctrl_reg alarm_base alarm_time_size
      w).2.2.log) :
    e ∈ w.log ∨ e.writes_reg DS3231_CONTROL1_REG_ADDRESS = true ∨
      e = Event.write DS3231_ADDRESS alarm_base (bytes w.m_buffer alarm_time_size)
        alarm_time_size := by
  simp only [set_alarm_guard, set_alarm_write, set_alarm_restore, set_alarm_finish,
    call_write] at he
  split_ifs at he <;>
    simp only [List.mem_append, List.mem_singleton] at he <;>
    casesm* _ ∨ _ <;>
    first
    | exact Or.inl ‹_›
    | (subst_vars; simp [Event.writes_reg])

theorem set_alarm_mem {σ : Type} (handle : ds3231_handle_t σ) (rd : ds3231_read_t σ)
    (wr : ds3231_write_t σ) (alarm alarm_mask : Nat) (time : ds3231_datetime_t)
    (cb : Option Nat) (args : Nat) (w : World σ) (e : Event)
    (hrd : handle.read = some rd) (hwr : handle.write = some wr)
    (he : e ∈ (ds3231_set_alarm handle alarm alarm_mask time cb args w).2.2.log) :
    e ∈ w.log ∨ e = Event.read DS3231_ADDRESS DS3231_CONTROL1_REG_ADDRESS DS3231_CONTROL_SIZE ∨
      e.writes_reg DS3231_CONTROL1_REG_ADDRESS = true ∨
      e = Event.write DS3231_ADDRESS (alarm_reg_base alarm)
        (alarm_bytes_written alarm alarm_mask time w.m_buffer) (alarm_reg_count alarm) := by
  rw [set_alarm_eq handle rd wr alarm alarm_mask time cb args w hrd hwr] at he
  have hread : ∀ e, e ∈ (call_read rd DS3231_CONTROL1_REG_ADDRESS DS3231_CONTROL_SIZE w).1.log →
      e ∈ w.log ∨
        e = Event.read DS3231_ADDRESS DS3231_CONTROL1_REG_ADDRESS DS3231_CONTROL_SIZE := by
    intro e h
    simpa [call_read] using h
  split_ifs at he with h0 h1 h2
  · rcases hread e he with h | h
    · exact Or.inl h
    · exact Or.inr (Or.inl h)
  · rcases set_alarm_guard_mem _ _ _ _ _ _ _ _ _ e he with h | h | h
    · rcases hread e h with h | h
      · exact Or.inl h
      · exact Or.inr (Or.inl h)
    · exact Or.inr (Or.inr (Or.inl h))
    · refine Or.inr (Or.inr (Or.inr ?_))
      rw [h]
      simp [alarm_reg_base, alarm_reg_count, alarm_bytes_written, h1, call_read]
  · rcases set_alarm_guard_mem _ _ _ _ _ _ _ _ _ e he with h | h | h
    · rcases hread e h with h | h
      · exact Or.inl h
      · exact Or.inr (Or.inl h)
    · exact Or.inr (Or.inr (Or.inl h))
    · refine Or.inr (Or.inr (Or.inr ?_))
      rw [h]
      simp [alarm_reg_base, alarm_reg_count, alarm_bytes_written, h1, call_read]
  · rcases hread e he with h | h
    · exact Or.inl h
    · exact Or.inr (Or.inl h)

theorem writes_reg_other (e : Event) (a b : Nat) (h : e.writes_reg a = true) (hab : a ≠ b) :
    e.writes_reg b = false := by
  cases e with
  | read d r l => simp [Event.writes_reg] at h
  | write d r bs l =>
    simp only [Event.writes_reg, beq_iff_eq] at h
    simp only [Event.writes_reg, beq_eq_false_iff_ne, ne_eq]
    omega
  | callback c x => simp [Event.writes_reg] at h

/-- C3: for an alarm time with fields in their valid ranges and every mask,
the alarm bytes `ds3231_set_alarm` writes are, for channel 1, 4 bytes at
register 0x07 with `byte[i] = dec2bcd(field_i) | (bit i of mask << 7)` for
the fields seconds, minutes, hours, day of month, and for channel 2, 3 bytes
at register 0x0B with the same formula for minutes, hours, day of month:
on any transport, an event of the call that is a write at the channel's base
register is this write, and on a transport whose calls transfer the
requested length the call issues exactly one such write; bit 7 of each
written byte equals the corresponding mask bit. -/
theorem C3_alarm_bytes {σ : Type} (handle : ds3231_handle_t σ) (rd : ds3231_read_t σ)
    (wr : ds3231_write_t σ) (alarm_mask : Nat) (time : ds3231_datetime_t)
    (cb : Option Nat) (args : Nat) (w : World σ)
    (hrd : handle.read = some rd) (hwr : handle.write = some wr)
    (hv : valid_alarm_time time) :
    (∀ e ∈ (ds3231_set_alarm handle DS3231_ALARM_1 alarm_mask time cb args w).2.2.log,
      e ∈ w.log ∨ e.writes_reg 0x07 = false ∨
        e = Event.write DS3231_ADDRESS 0x07 (encode_alarm1 time alarm_mask) 4) ∧
    (∀ e ∈ (ds3231_set_alarm handle DS3231_ALARM_2 alarm_mask time cb args w).2.2.log,
      e ∈ w.log ∨ e.writes_reg 0x0B = false ∨
        e = Event.write DS3231_ADDRESS 0x0B (encode_alarm2 time alarm_mask) 3) ∧
    ((∀ s dev reg len, (rd s dev reg len).2.2 = (len : Int)) →
      (∀ s dev reg buf len, (wr s dev reg buf len).2 = (len : Int)) →
      (ds3231_set_alarm handle DS3231_ALARM_1 alarm_mask time cb args w).2.2.log.filter
          (Event.writes_reg 0x07) =
        w.log.filter (Event.writes_reg 0x07) ++
          [Event.write DS3231_ADDRESS 0x07 (encode_alarm1 time alarm_mask) 4] ∧
      (ds3231_set_alarm handle DS3231_ALARM_2 alarm_mask time cb args w).2.2.log.filter
          (Event.writes_reg 0x0B) =
        w.log.filter (Event.writes_reg 0x0B) ++
          [Event.write DS3231_ADDRESS 0x0B (encode_alarm2 time alarm_mask) 3]) ∧
    (∀ i, i < 4 →
      ((encode_alarm1 time alarm_mask).getD i 0).testBit 7 = alarm_mask.testBit i) ∧
    (∀ i, i < 3 →
      ((encode_alarm2 time alarm_mask).getD i 0).testBit 7 = alarm_mask.testBit i) := by
  have hv' := hv
  obtain ⟨hs, hm, hh, _, hd⟩ := hv'
  have hb1 : alarm_bytes_written DS3231_ALARM_1 alarm_mask time w.m_buffer =
      encode_alarm1 time alarm_mask := by
    simp only [alarm_bytes_written, if_true]
    exact bytes_alarm1_encode alarm_mask time w.m_buffer hv
  have hb2 : alarm_bytes_written DS3231_ALARM_2 alarm_mask time w.m_buffer =
      encode_alarm2 time alarm_mask := by
    have h21 : DS3231_ALARM_2 ≠ DS3231_ALARM_1 := by decide
    simp only [alarm_bytes_written, h21, if_false]
    exact bytes_alarm2_encode alarm_mask time w.m_buffer hv
  refine ⟨?_, ?_, ?_, ?_, ?_⟩
  · intro e he
    rcases set_alarm_mem handle rd wr DS3231_ALARM_1 alarm_mask time cb args w e hrd hwr he
      with h | h | h | h
    · exact Or.inl h
    · exact Or.inr (Or.inl (by rw [h]; rfl))
    · exact Or.inr (Or.inl (writes_reg_other e _ _ h (by decide)))
    · rw [hb1] at h
      exact Or.inr (Or.inr h)
  · intro e he
    rcases set_alarm_mem handle rd wr DS3231_ALARM_2 alarm_mask time cb args w e hrd hwr he
      with h | h | h | h
    · exact Or.inl h
    · exact Or.inr (Or.inl (by rw [h]; rfl))
    · exact Or.inr (Or.inl (writes_reg_other e _ _ h (by decide)))
    · rw [hb2] at h
      exact Or.inr (Or.inr h)
  · intro hR hW
    refine ⟨?_, ?_⟩
    · rw [(set_alarm_ok_log handle rd wr DS3231_ALARM_1 alarm_mask time cb args w hrd hwr hR hW
        (Or.inl rfl)).2, hb1]
      split_ifs <;>
        simp [List.filter_cons, Event.writes_reg, alarm_reg_base, alarm_reg_count,
          DS3231_CONTROL1_REG_ADDRESS, DS3231_ALARM1_REG_BASE_ADDRESS]
    · rw [(set_alarm_ok_log handle rd wr DS3231_ALARM_2 alarm_mask time cb args w hrd hwr hR hW
        (Or.inr rfl)).2, hb2]
      split_ifs <;>
        simp [List.filter_cons, Event.writes_reg, alarm_reg_base, alarm_reg_count,
          DS3231_CONTROL1_REG_ADDRESS, DS3231_ALARM2_REG_BASE_ADDRESS, DS3231_ALARM_1,
          DS3231_ALARM_2]
  · intro i hi
    have : i = 0 ∨ i = 1 ∨ i = 2 ∨ i = 3 := by omega
    rcases this with rfl | rfl | rfl | rfl
    · exact encoded_bit7 time.sec alarm_mask 0 (by omega)
    · exact encoded_bit7 time.min alarm_mask 1 (by omega)
    · exact encoded_bit7 time.hour alarm_mask 2 (by omega)
    · exact encoded_bit7 time.date alarm_mask 3 (by omega)
  · intro i hi
    have : i = 0 ∨ i = 1 ∨ i = 2 := by omega
    rcases this with rfl | rfl | rfl
    · exact encoded_bit7 time.min alarm_mask 0 (by omega)
    · exact encoded_bit7 time.hour alarm_mask 1 (by omega)
    · exact encoded_bit7 time.date alarm_mask 2 (by omega)

/-- C3, witness: the seconds-match mask over the register file with INTCN
set; the alarm writes carry `[0x45, 0xB0, 0x94, 0x95]` at 0x07 and
`[0x30, 0x94, 0x95]` at 0x0B. -/
theorem C3_alarm_bytes_witness :
    valid_alarm_time sample_alarm_time ∧
    (ds3231_set_alarm (reg_handle alarms0) DS3231_ALARM_1 DS3231_ALARM1_MASK_SECOND_MATCH
        sample_alarm_time none 0 world_intcn).2.2.log.filter (Event.writes_reg 0x07) =
      [Event.write 0xD0 0x07 [0x45, 0xB0, 0x94, 0x95] 4] ∧
    (ds3231_set_alarm (reg_handle alarms0) DS3231_ALARM_2 DS3231_ALARM1_MASK_SECOND_MATCH
        sample_alarm_time none 0 world_intcn).2.2.log.filter (Event.writes_reg 0x0B) =
      [Event.write 0xD0 0x0B [0x30, 0x94, 0x95] 3] :=
  ⟨by decide,
    (C3_alarm_bytes (reg_handle alarms0) reg_read reg_write DS3231_ALARM1_MASK_SECOND_MATCH
      sample_alarm_time none 0 world_intcn rfl rfl (by decide)).2.2.1
      (fun _ _ _ _ => rfl) (fun _ _ _ _ _ => rfl)⟩

/-- C8: for a valid channel and a transport on which every call transfers
the requested length, `ds3231_set_alarm` succeeds and, after its read of the
control registers: if the control-1 byte read has INTCN set, it issues
exactly three writes, in order a 1-byte write to register 0x0E of that byte
with INTCN cleared, the write of the channel's alarm bytes (4 bytes at 0x07
for channel 1, 3 bytes at 0x0B for channel 2), and a 1-byte write to
register 0x0E of the byte as read (INTCN set); if INTCN is clear it issues
exactly one write, the alarm bytes. -/
theorem C8_set_alarm_writes {σ : Type} (handle : ds3231_handle_t σ) (rd : ds3231_read_t σ)
    (wr : ds3231_write_t σ) (alarm alarm_mask : Nat) (time : ds3231_datetime_t)
    (cb : Option Nat) (args : Nat) (w : World σ)
    (hrd : handle.read = some rd) (hwr : handle.write = some wr)
    (hR : ∀ s dev reg len, (rd s dev reg len).2.2 = (len : Int))
    (hW : ∀ s dev reg buf len, (wr s dev reg buf len).2 = (len : Int))
    (hch : alarm = DS3231_ALARM_1 ∨ alarm = DS3231_ALARM_2) :
    (ds3231_set_alarm handle alarm alarm_mask time cb args w).1 = DS3231_OK ∧
    (control1_read rd w &&& DS3231_CONTROL1_INTCN ≠ 0 →
      (ds3231_set_alarm handle alarm alarm_mask time cb args w).2.2.log =
        w.log ++
          [Event.read DS3231_ADDRESS 0x0E 2,
            Event.write DS3231_ADDRESS 0x0E [control1_read rd w &&& not8 DS3231_CONTROL1_INTCN] 1,
            Event.write DS3231_ADDRESS (if alarm = DS3231_ALARM_1 then 0x07 else 0x0B)
              (alarm_bytes_written alarm alarm_mask time w.m_buffer)
              (if alarm = DS3231_ALARM_1 then 4 else 3),
            Event.write DS3231_ADDRESS 0x0E [control1_read rd w] 1] ∧
      (control1_read rd w &&& not8 DS3231_CONTROL1_INTCN) &&& DS3231_CONTROL1_INTCN = 0) ∧
    (control1_read rd w &&& DS3231_CONTROL1_INTCN = 0 →
      (ds3231_set_alarm handle alarm alarm_mask time cb args w).2.2.log =
        w.log ++
          [Event.read DS3231_ADDRESS 0x0E 2,
            Event.write DS3231_ADDRESS (if alarm = DS3231_ALARM_1 then 0x07 else 0x0B)
              (alarm_bytes_written alarm alarm_mask time w.m_buffer)
              (if alarm = DS3231_ALARM_1 then 4 else 3)]) ∧
    (alarm_bytes_written alarm alarm_mask time w.m_buffer).length =
      (if alarm = DS3231_ALARM_1 then 4 else 3) := by
  obtain ⟨hok, hlog⟩ :=
    set_alarm_ok_log handle rd wr alarm alarm_mask time cb args w hrd hwr hR hW hch
  refine ⟨hok, ?_, ?_, ?_⟩
  · intro hI
    refine ⟨?_, intcn_clear_bit _ (load_lt _ _ _ (by decide))⟩
    rw [hlog, if_pos hI]
    rfl
  · intro hI
    rw [hlog, if_neg (not_not.mpr hI)]
    rfl
  · rcases hch with rfl | rfl
    · simp [alarm_bytes_written, bytes]
    · simp [alarm_bytes_written, bytes, DS3231_ALARM_1, DS3231_ALARM_2]

/-- C8, witness: channel 1 over the register file with INTCN set. -/
theorem C8_set_alarm_writes_witness :
    (DS3231_ALARM_1 = DS3231_ALARM_1 ∨ DS3231_ALARM_1 = DS3231_ALARM_2) ∧
    (ds3231_set_alarm (reg_handle alarms0) DS3231_ALARM_1 DS3231_ALARM1_MASK_SECOND_MATCH
      sample_alarm_time none 0 world_intcn).2.2.log =
      [Event.read 0xD0 0x0E 2, Event.write 0xD0 0x0E [0x18] 1,
        Event.write 0xD0 0x07 [0x45, 0xB0, 0x94, 0x95] 4, Event.write 0xD0 0x0E [0x1C] 1] :=
  ⟨Or.inl rfl,
    ((C8_set_alarm_writes (reg_handle alarms0) reg_read reg_write DS3231_ALARM_1
      DS3231_ALARM1_MASK_SECOND_MATCH sample_alarm_time none 0 world_intcn rfl rfl
      (fun _ _ _ _ => rfl) (fun _ _ _ _ _ => rfl) (Or.inl rfl)).2.1 (by decide)).1⟩

/-! ## The registers `ds3231_set_alarm` leaves unchanged -/

/-- C9: over the register file with byte-valued registers, for every initial
register content and a valid channel, `ds3231_set_alarm` succeeds and leaves
both control registers (0x0E and 0x0F) equal to their values before the
call, whether or not INTCN was set; every register outside the addressed
channel's alarm registers keeps its value. -/
theorem C9_set_alarm_frame (alarms : Nat → ds3231_alarm_t) (alarm alarm_mask : Nat)
    (time : ds3231_datetime_t) (cb : Option Nat) (args : Nat) (w : World (Nat → Nat))
    (hch : alarm = DS3231_ALARM_1 ∨ alarm = DS3231_ALARM_2) (hbyte : ∀ a, w.bus a < 256) :
    (ds3231_set_alarm (reg_handle alarms) alarm alarm_mask time cb args w).1 = DS3231_OK ∧
    (ds3231_set_alarm (reg_handle alarms) alarm alarm_mask time cb args w).2.2.bus 0x0E =
      w.bus 0x0E ∧
    (ds3231_set_alarm (reg_handle alarms) alarm alarm_mask time cb args w).2.2.bus 0x0F =
      w.bus 0x0F ∧
    ∀ a, ¬ (alarm_reg_base alarm ≤ a ∧ a < alarm_reg_base alarm + alarm_reg_count alarm) →
      (ds3231_set_alarm (reg_handle alarms) alarm alarm_mask time cb args w).2.2.bus a =
        w.bus a := by
  have h14 : w.bus 14 % 256 = w.bus 14 := Nat.mod_eq_of_lt (hbyte 14)
  have hrest : w.bus 14 &&& DS3231_CONTROL1_INTCN ≠ 0 →
      ((w.bus 14 &&& not8 DS3231_CONTROL1_INTCN) % 256 ||| DS3231_CONTROL1_INTCN) % 256 =
        w.bus 14 := intcn_restore _ (hbyte 14)
  rcases hch with rfl | rfl
  · obtain ⟨hok, _, hbus⟩ := reg_set_alarm1 alarms w alarm_mask time cb args
    have key : ∀ a, ¬ (7 ≤ a ∧ a < 11) →
        (ds3231_set_alarm (reg_handle alarms) DS3231_ALARM_1 alarm_mask time cb args w).2.2.bus a =
          w.bus a := by
      intro a ha
      rw [hbus a, if_neg ha, h14]
      split_ifs with h
      · rw [hrest h.2, h.1]
      · rfl
    refine ⟨hok, key 14 (by omega), key 15 (by omega), ?_⟩
    intro a ha
    exact key a (by simpa [alarm_reg_base, alarm_reg_count, DS3231_ALARM1_REG_BASE_ADDRESS] using ha)
  · obtain ⟨hok, _, hbus⟩ := reg_set_alarm2 alarms w alarm_mask time cb args
    have key : ∀ a, ¬ (11 ≤ a ∧ a < 14) →
        (ds3231_set_alarm (reg_handle alarms) DS3231_ALARM_2 alarm_mask time cb args w).2.2.bus a =
          w.bus a := by
      intro a ha
      rw [hbus a, if_neg ha, h14]
      split_ifs with h
      · rw [hrest h.2, h.1]
      · rfl
    refine ⟨hok, key 14 (by omega), key 15 (by omega), ?_⟩
    intro a ha
    exact key a (by simpa [alarm_reg_base, alarm_reg_count, DS3231_ALARM2_REG_BASE_ADDRESS,
      DS3231_ALARM_1, DS3231_ALARM_2] using ha)

theorem world_intcn_bytes : ∀ a, world_intcn.bus a < 256 := by
  intro a
  simp only [world_intcn]
  split_ifs <;> omega

/-- C9, witness: channel 2 over the register file with control registers
`0x1C`, `0x88` (INTCN set). -/
theorem C9_set_alarm_frame_witness :
    (DS3231_ALARM_2 = DS3231_ALARM_1 ∨ DS3231_ALARM_2 = DS3231_ALARM_2) ∧
    (∀ a, world_intcn.bus a < 256) ∧
    ((ds3231_set_alarm (reg_handle alarms0) DS3231_ALARM_2 DS3231_ALARM2_MASK_MIN_MATCH
        sample_alarm_time none 0 world_intcn).1 = DS3231_OK ∧
    (ds3231_set_alarm (reg_handle alarms0) DS3231_ALARM_2 DS3231_ALARM2_MASK_MIN_MATCH
        sample_alarm_time none 0 world_intcn).2.2.bus 0x0E = world_intcn.bus 0x0E ∧
    (ds3231_set_alarm (reg_handle alarms0) DS3231_ALARM_2 DS3231_ALARM2_MASK_MIN_MATCH
        sample_alarm_time none 0 world_intcn).2.2.bus 0x0F = world_intcn.bus 0x0F ∧
    ∀ a, ¬ (alarm_reg_base DS3231_ALARM_2 ≤ a ∧
        a < alarm_reg_base DS3231_ALARM_2 + alarm_reg_count DS3231_ALARM_2) →
      (ds3231_set_alarm (reg_handle alarms0) DS3231_ALARM_2 DS3231_ALARM2_MASK_MIN_MATCH
        sample_alarm_time none 0 world_intcn).2.2.bus a = world_intcn.bus a) :=
  ⟨Or.inr rfl, world_intcn_bytes,
    C9_set_alarm_frame alarms0 DS3231_ALARM_2 DS3231_ALARM2_MASK_MIN_MATCH sample_alarm_time
      none 0 world_intcn (Or.inr rfl) world_intcn_bytes⟩

/-! ## The time registers -/

theorem u8_of_byte (x : Int) (h0 : 0 ≤ x) (h1 : x ≤ 255) : ((u8 x : Nat) : Int) = x := by
  unfold u8
  omega

theorem bcd_int_roundtrip (x : Int) (h0 : 0 ≤ x) (h1 : x ≤ 99) :
    ((bcd2dec (dec2bcd (u8 x) % 256) : Nat) : Int) = x := by
  have hx := u8_of_byte x h0 (by omega)
  have hlt : u8 x < 100 := by omega
  have hmod : dec2bcd (u8 x) % 256 = dec2bcd (u8 x) := by
    unfold dec2bcd
    exact Nat.mod_mod _ _
  rw [hmod, bcd_roundtrip_lt _ hlt, hx]

theorem bytes_settime_buffer (ts : tm) (m : Nat → Nat) :
    bytes (settime_buffer ts m) 7 =
      [dec2bcd (u8 ts.tm_sec), dec2bcd (u8 ts.tm_min), dec2bcd (u8 ts.tm_hour),
        dec2bcd (u8 (ts.tm_wday + 1)), dec2bcd (u8 ts.tm_mday), dec2bcd (u8 (ts.tm_mon + 1)),
        dec2bcd (u8 (ts.tm_year - 100))] := by
  simp [bytes, settime_buffer, List.range_succ]

theorem gettime_tm_load (b0 b1 b2 b3 b4 b5 b6 : Nat) (buf0 : Nat → Nat) :
    gettime_tm (load [b0, b1, b2, b3, b4, b5, b6] 7 buf0) =
      { tm_sec := bcd2dec (b0 % 256)
        tm_min := bcd2dec (b1 % 256)
        tm_hour := bcd2dec (b2 % 256)
        tm_mday := bcd2dec (b4 % 256)
        tm_mon := (bcd2dec (b5 % 256) : Int) - 1
        tm_year := (bcd2dec (b6 % 256) : Int) + 100
        tm_wday := (bcd2dec (b3 % 256) : Int) - 1
        tm_yday := 0
        tm_isdst := -1 } := by
  simp [gettime_tm, load]

theorem settime_log {σ : Type} (localtime : Int → tm) (handle : ds3231_handle_t σ)
    (wr : ds3231_write_t σ) (time : Int) (w : World σ) (hwr : handle.write = some wr) :
    (ds3231_settime localtime handle time w).2.log =
      w.log ++ [Event.write DS3231_ADDRESS 0x00
        (bytes (settime_buffer (localtime time) w.m_buffer) 7) 7] := by
  simp only [ds3231_settime, hwr, call_write, DS3231_DATETIME_SIZE, DS3231_TIME_REG_BASE_ADDRESS]
  split_ifs <;> rfl

theorem gettime_tm_settime (ts : tm) (m buf0 : Nat → Nat) (hv : valid_tm ts) :
    gettime_tm (load (bytes (settime_buffer ts m) 7) 7 buf0) =
      { ts with tm_yday := 0, tm_isdst := -1 } := by
  obtain ⟨s0, s1, m0, m1, h0, h1, w0, w1, d0, d1, o0, o1, y0, y1⟩ := hv
  rw [bytes_settime_buffer, gettime_tm_load]
  have e0 := bcd_int_roundtrip ts.tm_sec s0 (by omega)
  have e1 := bcd_int_roundtrip ts.tm_min m0 (by omega)
  have e2 := bcd_int_roundtrip ts.tm_hour h0 (by omega)
  have e3 := bcd_int_roundtrip (ts.tm_wday + 1) (by omega) (by omega)
  have e4 := bcd_int_roundtrip ts.tm_mday (by omega) (by omega)
  have e5 := bcd_int_roundtrip (ts.tm_mon + 1) (by omega) (by omega)
  have e6 := bcd_int_roundtrip (ts.tm_year - 100) (by omega) (by omega)
  rw [e0, e1, e2, e3, e4, e5, e6]
  cases ts
  simp

theorem reg_settime_gettime (localtime : Int → tm) (mktime : tm → Int)
    (alarms : Nat → ds3231_alarm_t) (time out : Int) (w : World (Nat → Nat)) :
    (ds3231_gettime mktime (reg_handle alarms) out
      (ds3231_settime localtime (reg_handle alarms) time w).2).1 = DS3231_OK ∧
    (ds3231_gettime mktime (reg_handle alarms) out
      (ds3231_settime localtime (reg_handle alarms) time w).2).2.1 =
      mktime (gettime_tm (load (bytes (settime_buffer (localtime time) w.m_buffer) 7) 7
        (settime_buffer (localtime time) w.m_buffer))) := by
  simp [ds3231_gettime, ds3231_settime, reg_handle, call_read, call_write, reg_read, reg_write,
    DS3231_DATETIME_SIZE, DS3231_TIME_REG_BASE_ADDRESS, bytes, List.range_succ, load, gettime_tm]

/-- C5: for every broken-down time with seconds and minutes in 0-59, hours
in 0-23, 0-based weekday in 0-6, day of month in 1-31, 0-based month in 0-11
and years since 1900 in 100-199, `ds3231_settime` writes seven bytes at
register 0x00, and the `struct tm` that `ds3231_gettime` builds from those
seven bytes before it calls `mktime` has the same seconds, minutes, hours,
weekday, day of month, month and year (its `tm_yday` is 0 and its `tm_isdst`
is -1); over the register file, `ds3231_gettime` after `ds3231_settime`
succeeds and returns `mktime` of that `struct tm`. -/
theorem C5_time_roundtrip {σ : Type} (localtime : Int → tm) (mktime : tm → Int)
    (handle : ds3231_handle_t σ) (wr : ds3231_write_t σ) (time : Int) (w : World σ)
    (buf0 : Nat → Nat) (alarms : Nat → ds3231_alarm_t) (out : Int) (wreg : World (Nat → Nat))
    (hwr : handle.write = some wr) (hv : valid_tm (localtime time)) :
    (ds3231_settime localtime handle time w).2.log =
      w.log ++ [Event.write DS3231_ADDRESS 0x00
        (bytes (settime_buffer (localtime time) w.m_buffer) 7) 7] ∧
    gettime_tm (load (bytes (settime_buffer (localtime time) w.m_buffer) 7) 7 buf0) =
      { localtime time with tm_yday := 0, tm_isdst := -1 } ∧
    (ds3231_gettime mktime (reg_handle alarms) out
      (ds3231_settime localtime (reg_handle alarms) time wreg).2).1 = DS3231_OK ∧
    (ds3231_gettime mktime (reg_handle alarms) out
      (ds3231_settime localtime (reg_handle alarms) time wreg).2).2.1 =
      mktime { localtime time with tm_yday := 0, tm_isdst := -1 } := by
  obtain ⟨g1, g2⟩ := reg_settime_gettime localtime mktime alarms time out wreg
  rw [gettime_tm_settime _ _ _ hv] at g2
  exact ⟨settime_log localtime handle wr time w hwr, gettime_tm_settime _ _ _ hv, g1, g2⟩

/-- C5, witness: 2024-06-15 14:30:45 over the register file, with a host
`mktime` that returns the day of the month. -/
theorem C5_time_roundtrip_witness :
    valid_tm ((fun _ => tm_20240615) (0 : Int)) ∧
    gettime_tm (load (bytes (settime_buffer tm_20240615 world0.m_buffer) 7) 7 fresh) =
      { tm_20240615 with tm_yday := 0, tm_isdst := -1 } ∧
    (ds3231_gettime (fun ts => ts.tm_mday) (reg_handle alarms0) 0
      (ds3231_settime (fun _ => tm_20240615) (reg_handle alarms0) 0 world0).2).2.1 = 15 :=
  ⟨by decide,
    (C5_time_roundtrip (fun _ => tm_20240615) (fun ts => ts.tm_mday) (reg_handle alarms0)
      reg_write 0 world0 fresh alarms0 0 world0 rfl (by decide)).2.1,
    (C5_time_roundtrip (fun _ => tm_20240615) (fun ts => ts.tm_mday) (reg_handle alarms0)
      reg_write 0 world0 fresh alarms0 0 world0 rfl (by decide)).2.2.2⟩

/-- C6: `ds3231_settime` issues one transport call, a write of exactly 7
bytes at register 0x00, in the order seconds, minutes, hours, weekday + 1,
day of month, month + 1, year - 100, each passed through `dec2bcd`; when the
host's local broken-down time is 2024-06-15 14:30:45, a Saturday
(`tm_wday = 6`, `tm_mon = 5`, `tm_year = 124`), the bytes are
`[0x45, 0x30, 0x14, 0x07, 0x15, 0x06, 0x24]`, and the `struct tm` that
`ds3231_gettime` builds from those bytes has the same seconds, minutes,
hours, weekday, day of month, month and year. -/
theorem C6_settime_bytes {σ : Type} (localtime : Int → tm) (handle : ds3231_handle_t σ)
    (wr : ds3231_write_t σ) (time : Int) (w : World σ) (buf0 : Nat → Nat)
    (hwr : handle.write = some wr) :
    (ds3231_settime localtime handle time w).2.log =
      w.log ++ [Event.write DS3231_ADDRESS 0x00
        [dec2bcd (u8 (localtime time).tm_sec), dec2bcd (u8 (localtime time).tm_min),
          dec2bcd (u8 (localtime time).tm_hour), dec2bcd (u8 ((localtime time).tm_wday + 1)),
          dec2bcd (u8 (localtime time).tm_mday), dec2bcd (u8 ((localtime time).tm_mon + 1)),
          dec2bcd (u8 ((localtime time).tm_year - 100))] 7] ∧
    (localtime time = tm_20240615 →
      (ds3231_settime localtime handle time w).2.log =
        w.log ++ [Event.write DS3231_ADDRESS 0x00 [0x45, 0x30, 0x14, 0x07, 0x15, 0x06, 0x24] 7] ∧
      gettime_tm (load [0x45, 0x30, 0x14, 0x07, 0x15, 0x06, 0x24] 7 buf0) =
        { tm_20240615 with tm_yday := 0, tm_isdst := -1 }) := by
  have hlog := settime_log localtime handle wr time w hwr
  rw [bytes_settime_buffer] at hlog
  refine ⟨hlog, ?_⟩
  intro hlt
  refine ⟨?_, ?_⟩
  · rw [hlog, hlt]
    rfl
  · rw [gettime_tm_load]
    decide

/-- C6, witness: the register file and a host whose local time is
2024-06-15 14:30:45. -/
theorem C6_settime_bytes_witness :
    (ds3231_settime (fun _ => tm_20240615) (reg_handle alarms0) 0 world0).2.log =
      [Event.write 0xD0 0x00 [0x45, 0x30, 0x14, 0x07, 0x15, 0x06, 0x24] 7] ∧
    gettime_tm (load [0x45, 0x30, 0x14, 0x07, 0x15, 0x06, 0x24] 7 fresh) =
      { tm_20240615 with tm_yday := 0, tm_isdst := -1 } :=
  (C6_settime_bytes (fun _ => tm_20240615) (reg_handle alarms0) reg_write 0 world0 fresh rfl).2
    rfl

/-! ## The host-time mapping -/

/-- C7 (as the code has it): for every valid driver calendar value and any
host whose `localtime(mktime(...))` keeps the seconds, minutes, hours, day of
month, month and year that `ds3231_datetime2time` hands it, the round trip
through `ds3231_datetime2time` and `ds3231_time2datetime` yields the original
seconds, minutes, hours, day of month, month and year offset (the month
offsets +1 and -1 and the year offsets +100 and -100 invert each other).
The weekday is not carried: `ds3231_datetime2time` assigns no `tm_wday`, the
weekday that comes back is the `tm_wday` the host computes plus one, the
result is the same for every original weekday, and the round trip yields the
original value in every field exactly when the original weekday is that
one. -/
theorem C7_datetime_roundtrip (mktime : tm → Int) (localtime : Int → tm) (ts0 : tm)
    (time : ds3231_datetime_t) (hv : valid_datetime time)
    (hk : host_keeps mktime localtime (datetime2time_tm ts0 time)) :
    datetime_roundtrip mktime localtime ts0 time =
      { time with day := u8 ((localtime (mktime (datetime2time_tm ts0 time))).tm_wday + 1) } ∧
    (∀ day, datetime_roundtrip mktime localtime ts0 { time with day := day } =
      datetime_roundtrip mktime localtime ts0 time) ∧
    (datetime_roundtrip mktime localtime ts0 time = time ↔
      u8 ((localtime (mktime (datetime2time_tm ts0 time))).tm_wday + 1) = time.day) := by
  obtain ⟨hs, hm, hh, _, _, _, hd, _, ho, hy⟩ := hv
  obtain ⟨k1, k2, k3, k4, k5, k6⟩ := hk
  have e : datetime_roundtrip mktime localtime ts0 time =
      { time with
        day := u8 ((localtime (mktime (datetime2time_tm ts0 time))).tm_wday + 1) } := by
    simp only [datetime_roundtrip, ds3231_time2datetime, ds3231_datetime2time,
      time2datetime_fields, k1, k2, k3, k4, k5, k6]
    simp only [datetime2time_tm, u8]
    have e1 : ((time.sec : Int) % 256).toNat = time.sec := by omega
    have e2 : ((time.min : Int) % 256).toNat = time.min := by omega
    have e3 : ((time.hour : Int) % 256).toNat = time.hour := by omega
    have e4 : ((time.date : Int) % 256).toNat = time.date := by omega
    have e5 : (((time.mon : Int) - 1 + 1) % 256).toNat = time.mon := by omega
    have e6 : (((time.year : Int) + 100 - 100) % 256).toNat = time.year := by omega
    rw [e1, e2, e3, e4, e5, e6]
  refine ⟨e, fun day => rfl, ?_⟩
  rw [e]
  constructor
  · intro h
    exact congrArg ds3231_datetime_t.day h
  · intro h
    rw [h]

/-- C7, witness: Saturday 2024-06-15 14:30:45, entered with weekday 7, on the
UTC host through a zeroed `struct tm`: the host keeps the six calendar
fields, computes `tm_wday` 6, and the value comes back as it was. -/
theorem C7_datetime_roundtrip_witness :
    valid_datetime sample_alarm_time ∧
    host_keeps utc_mktime utc_localtime (datetime2time_tm tm_zero sample_alarm_time) ∧
    utc_mktime (datetime2time_tm tm_zero sample_alarm_time) = 1718461845 ∧
    (utc_localtime (utc_mktime (datetime2time_tm tm_zero sample_alarm_time))).tm_wday = 6 ∧
    datetime_roundtrip utc_mktime utc_localtime tm_zero sample_alarm_time =
      sample_alarm_time :=
  ⟨by decide, by decide, by decide, by decide,
    (C7_datetime_roundtrip utc_mktime utc_localtime tm_zero sample_alarm_time (by decide)
      (by decide)).2.2.mpr (by decide)⟩

/-- C7, counterexample: on the UTC host, through a zeroed `struct tm`, the
valid calendar value 2024-06-15 14:30:45 with weekday 3 comes back with
weekday 7, the Saturday the host computes for that date; and the valid
calendar value with day of month 31 in month 2 of year offset 24 comes back
as day of month 2 in month 3. -/
theorem C7_weekday_not_restored :
    valid_datetime sample_weekday3 ∧
    datetime_roundtrip utc_mktime utc_localtime tm_zero sample_weekday3 =
      { sample_weekday3 with day := 7 } ∧
    datetime_roundtrip utc_mktime utc_localtime tm_zero sample_weekday3 ≠ sample_weekday3 ∧
    valid_datetime sample_february31 ∧
    datetime_roundtrip utc_mktime utc_localtime tm_zero sample_february31 =
      { sample_february31 with date := 2, mon := 3 } ∧
    datetime_roundtrip utc_mktime utc_localtime tm_zero sample_february31 ≠
      sample_february31 := by
  refine ⟨by decide, by decide, by decide, by decide, by decide, by decide⟩

/-! ## Initialisation -/

set_option maxRecDepth 100000 in
theorem init_control1_byte : ∀ c, c < 256 →
    ((((c ||| DS3231_CONTROL1_INTCN) % 256 &&& not8 DS3231_CONTROL1_A1IE) % 256) &&&
      not8 DS3231_CONTROL1_A2IE) % 256 = (c ||| 0x04) &&& not8 0x03 := by decide

set_option maxRecDepth 100000 in
theorem init_control2_byte : ∀ c, c < 256 →
    ((c &&& not8 DS3231_CONTROL2_A1F) % 256 &&& not8 DS3231_CONTROL2_A2F) % 256 =
      c &&& not8 0x03 := by decide

set_option maxRecDepth 100000 in
theorem init_control1_bits : ∀ c, c < 256 → ∀ i, i < 8 →
    ((c ||| 0x04) &&& not8 0x03).testBit i =
      (if i = 2 then true else if i < 2 then false else c.testBit i) := by decide

set_option maxRecDepth 100000 in
theorem init_control2_bits : ∀ c, c < 256 → ∀ i, i < 8 →
    (c &&& not8 0x03).testBit i = (if i < 2 then false else c.testBit i) := by decide

theorem init_alarms {σ : Type} (handle : ds3231_handle_t σ) (wr : ds3231_write_t σ)
    (rd : ds3231_read_t σ) (w : World σ) (i : Nat) (hi : i < 2) :
    ((ds3231_init handle (some wr) (some rd) w).2.1.alarms i).enabled = false ∧
    ((ds3231_init handle (some wr) (some rd) w).2.1.alarms i).cb = none := by
  have : i = 0 ∨ i = 1 := by omega
  simp only [ds3231_init]
  rcases this with rfl | rfl <;> split_ifs <;>
    simp [DS3231_ALARM_1, DS3231_ALARM_TOTAL, List.range', Function.update]

theorem init_log {σ : Type} (handle : ds3231_handle_t σ) (wr : ds3231_write_t σ)
    (rd : ds3231_read_t σ) (w : World σ)
    (hok : (ds3231_init handle (some wr) (some rd) w).1 = DS3231_OK) :
    (ds3231_init handle (some wr) (some rd) w).2.2.log =
      w.log ++
        [Event.read DS3231_ADDRESS 0x0E 2,
          Event.write DS3231_ADDRESS 0x0E
            [(control1_read rd w ||| 0x04) &&& not8 0x03, control2_read rd w &&& not8 0x03] 2] := by
  have h1 := init_control1_byte (control1_read rd w) (load_lt _ _ _ (by decide))
  have h2 := init_control2_byte (control2_read rd w) (load_lt _ _ _ (by decide))
  simp only [control1_read, control2_read, DS3231_CONTROL_SIZE, DS3231_CONTROL1_REG_ADDRESS]
    at h1 h2
  simp only [ds3231_init, call_read, call_write, DS3231_CONTROL_SIZE,
    DS3231_CONTROL1_REG_ADDRESS] at hok ⊢
  split_ifs at hok ⊢ with hr hw
  simp [bytes, List.range_succ, h1, h2, control1_read, control2_read, DS3231_CONTROL_SIZE,
    DS3231_CONTROL1_REG_ADDRESS]

/-- C10: for every control-register content `c1`, `c2` that the read of
`ds3231_init` returns and non-null transport functions, a successful
`ds3231_init` issues that read and then one write of 2 bytes at register
0x0E equal to `((c1 | 0x04) & ~0x03, c2 & ~0x03)`: in the first byte bit 2
(INTCN) is set and bits 0 and 1 (the alarm interrupt enables) are clear, in
the second bits 0 and 1 (the alarm flags) are clear, and every other bit of
either byte is as read; afterwards both alarm slots of the handle have
`enabled = false` and no callback. -/
theorem C10_init {σ : Type} (handle : ds3231_handle_t σ) (wr : ds3231_write_t σ)
    (rd : ds3231_read_t σ) (w : World σ)
    (hok : (ds3231_init handle (some wr) (some rd) w).1 = DS3231_OK) :
    (ds3231_init handle (some wr) (some rd) w).2.2.log =
      w.log ++
        [Event.read DS3231_ADDRESS 0x0E 2,
          Event.write DS3231_ADDRESS 0x0E
            [(control1_read rd w ||| 0x04) &&& not8 0x03, control2_read rd w &&& not8 0x03] 2] ∧
    (∀ i, i < 8 → ((control1_read rd w ||| 0x04) &&& not8 0x03).testBit i =
      (if i = 2 then true else if i < 2 then false else (control1_read rd w).testBit i)) ∧
    (∀ i, i < 8 → (control2_read rd w &&& not8 0x03).testBit i =
      (if i < 2 then false else (control2_read rd w).testBit i)) ∧
    ((ds3231_init handle (some wr) (some rd) w).2.1.alarms DS3231_ALARM_1).enabled = false ∧
    ((ds3231_init handle (some wr) (some rd) w).2.1.alarms DS3231_ALARM_1).cb = none ∧
    ((ds3231_init handle (some wr) (some rd) w).2.1.alarms DS3231_ALARM_2).enabled = false ∧
    ((ds3231_init handle (some wr) (some rd) w).2.1.alarms DS3231_ALARM_2).cb = none := by
  obtain ⟨a1, a2⟩ := init_alarms handle wr rd w 0 (by decide)
  obtain ⟨b1, b2⟩ := init_alarms handle wr rd w 1 (by decide)
  exact ⟨init_log handle wr rd w hok,
    init_control1_bits _ (load_lt _ _ _ (by decide)),
    init_control2_bits _ (load_lt _ _ _ (by decide)), a1, a2, b1, b2⟩

/-- C10, witness: control registers `0x1B`, `0x8B` and a handle with both
alarms enabled, over the register file. -/
theorem C10_init_witness :
    (ds3231_init (reg_handle alarms_armed) (some reg_write) (some reg_read) world_flags).1 =
      DS3231_OK ∧
    (ds3231_init (reg_handle alarms_armed) (some reg_write) (some reg_read) world_flags).2.2.log =
      [Event.read 0xD0 0x0E 2, Event.write 0xD0 0x0E [0x1C, 0x88] 2] ∧
    ((ds3231_init (reg_handle alarms_armed) (some reg_write) (some reg_read)
      world_flags).2.1.alarms DS3231_ALARM_1).enabled = false :=
  ⟨by decide,
    (C10_init (reg_handle alarms_armed) reg_write reg_read world_flags (by decide)).1,
    (C10_init (reg_handle alarms_armed) reg_write reg_read world_flags (by decide)).2.2.2.1⟩

theorem allow_alarm_eq {σ : Type} (handle : ds3231_handle_t σ) (rd : ds3231_read_t σ)
    (wr : ds3231_write_t σ) (alarm : Nat) (enabled : Bool) (w : World σ)
    (hrd : handle.read = some rd) (hwr : handle.write = some wr) :
    ds3231_allow_alarm handle alarm enabled w =
      if (call_read rd DS3231_CONTROL1_REG_ADDRESS DS3231_CONTROL_SIZE w).2.2
          ≠ DS3231_CONTROL_SIZE then
        (DS3231_ERROR_READ_FAILED, handle,
          (call_read rd DS3231_CONTROL1_REG_ADDRESS DS3231_CONTROL_SIZE w).1)
      else if (call_write wr DS3231_CONTROL1_REG_ADDRESS
          (allow_alarm_ctrl alarm enabled
            (load (call_read rd DS3231_CONTROL1_REG_ADDRESS DS3231_CONTROL_SIZE w).2.1
              DS3231_CONTROL_SIZE fresh))
          DS3231_CONTROL_SIZE
          (call_read rd DS3231_CONTROL1_REG_ADDRESS DS3231_CONTROL_SIZE w).1).2
          ≠ DS3231_CONTROL_SIZE then
        (DS3231_ERROR_WRITE_FAILED, allow_alarm_handle handle alarm enabled,
          (call_write wr DS3231_CONTROL1_REG_ADDRESS
            (allow_alarm_ctrl alarm enabled
              (load (call_read rd DS3231_CONTROL1_REG_ADDRESS DS3231_CONTROL_SIZE w).2.1
                DS3231_CONTROL_SIZE fresh))
            DS3231_CONTROL_SIZE
            (call_read rd DS3231_CONTROL1_REG_ADDRESS DS3231_CONTROL_SIZE w).1).1)
      else
        (DS3231_OK, allow_alarm_handle handle alarm enabled,
          (call_write wr DS3231_CONTROL1_REG_ADDRESS
            (allow_alarm_ctrl alarm enabled
              (load (call_read rd DS3231_CONTROL1_REG_ADDRESS DS3231_CONTROL_SIZE w).2.1
                DS3231_CONTROL_SIZE fresh))
            DS3231_CONTROL_SIZE
            (call_read rd DS3231_CONTROL1_REG_ADDRESS DS3231_CONTROL_SIZE w).1).1) := by
  unfold ds3231_allow_alarm
  by_cases h1 : alarm = DS3231_ALARM_1
  · cases enabled <;>
      simp only [Id.run, pure, bind, hrd, hwr, allow_alarm_ctrl, allow_alarm_handle, h1, true_or,
        if_true, if_false, Bool.false_eq_true]
  · by_cases h2 : alarm = DS3231_ALARM_2
    · have h21 : DS3231_ALARM_2 ≠ DS3231_ALARM_1 := by decide
      cases enabled <;>
        simp only [Id.run, pure, bind, hrd, hwr, allow_alarm_ctrl, allow_alarm_handle, h2, h21,
          or_true, if_true, if_false, Bool.false_eq_true]
    · simp only [Id.run, pure, bind, hrd, hwr, allow_alarm_ctrl, allow_alarm_handle, h1, h2,
        or_self, if_false]

theorem alarm_callback_eq {σ : Type} (handle : ds3231_handle_t σ) (rd : ds3231_read_t σ)
    (wr : ds3231_write_t σ) (w : World σ)
    (hrd : handle.read = some rd) (hwr : handle.write = some wr) :
    ds3231_alarm_callback handle w =
      if (call_read rd DS3231_CONTROL1_REG_ADDRESS DS3231_CONTROL_SIZE w).2.2
          ≠ DS3231_CONTROL_SIZE then
        (DS3231_ERROR_READ_FAILED, handle,
          (call_read rd DS3231_CONTROL1_REG_ADDRESS DS3231_CONTROL_SIZE w).1)
      else if (call_write wr DS3231_CONTROL1_REG_ADDRESS (alarm_callback_serviced handle rd w).1
          DS3231_CONTROL_SIZE (alarm_callback_serviced handle rd w).2).2
          ≠ DS3231_CONTROL_SIZE then
        (DS3231_ERROR_WRITE_FAILED, handle,
          (call_write wr DS3231_CONTROL1_REG_ADDRESS (alarm_callback_serviced handle rd w).1
            DS3231_CONTROL_SIZE (alarm_callback_serviced handle rd w).2).1)
      else
        (DS3231_OK, handle,
          (call_write wr DS3231_CONTROL1_REG_ADDRESS (alarm_callback_serviced handle rd w).1
            DS3231_CONTROL_SIZE (alarm_callback_serviced handle rd w).2).1) := by
  unfold ds3231_alarm_callback
  cases h0 : (handle.alarms 0).cb <;> cases h1 : (handle.alarms 1).cb <;>
    simp only [Id.run, pure, bind, hrd, hwr, alarm_callback_serviced, service_alarm, h0, h1] <;>
    split_ifs <;> rfl

/-! ## `ds3231_allow_alarm` -/

set_option maxRecDepth 100000 in
theorem allow_enable_byte : ∀ c, c < 256 → ∀ m, m < 3 →
    ((c ||| DS3231_CONTROL1_INTCN) % 256 ||| m) % 256 = c ||| DS3231_CONTROL1_INTCN ||| m := by
  decide

set_option maxRecDepth 100000 in
theorem allow_disable_byte : ∀ c, c < 256 → ∀ m, m < 3 → (c &&& not8 m) % 256 = c &&& not8 m := by
  decide

set_option maxRecDepth 100000 in
theorem allow_enable_bits : ∀ c, c < 256 → ∀ k, k < 2 → ∀ i, i < 8 →
    (c ||| DS3231_CONTROL1_INTCN ||| (1 <<< k)).testBit i =
      (decide (i = 2) || decide (i = k) || c.testBit i) := by
  decide

set_option maxRecDepth 100000 in
theorem allow_disable_bits : ∀ c, c < 256 → ∀ k, k < 2 → ∀ i, i < 8 →
    (c &&& not8 (1 <<< k)).testBit i = (!decide (i = k) && c.testBit i) := by
  decide

theorem allow_alarm_ctrl_valid (alarm : Nat) (enabled : Bool) (ctrl_reg : Nat → Nat)
    (hch : alarm = DS3231_ALARM_1 ∨ alarm = DS3231_ALARM_2) (hc : ctrl_reg 0 < 256) :
    allow_alarm_ctrl alarm enabled ctrl_reg 0 =
      (if enabled = true then ctrl_reg 0 ||| DS3231_CONTROL1_INTCN ||| alarm_enable_bit alarm
        else ctrl_reg 0 &&& not8 (alarm_enable_bit alarm)) ∧
    allow_alarm_ctrl alarm enabled ctrl_reg 1 = ctrl_reg 1 := by
  have e1 := allow_enable_byte _ hc 1 (by decide)
  have e2 := allow_enable_byte _ hc 2 (by decide)
  have d1 := allow_disable_byte _ hc 1 (by decide)
  have d2 := allow_disable_byte _ hc 2 (by decide)
  rcases hch with rfl | rfl <;> cases enabled <;>
    simp [allow_alarm_ctrl, alarm_enable_bit, DS3231_ALARM_1, DS3231_ALARM_2,
      DS3231_CONTROL1_A1IE, DS3231_CONTROL1_A2IE] <;>
    first
    | assumption
    | exact Nat.lt_of_le_of_lt Nat.and_le_left hc

theorem reg_allow_alarm (alarms : Nat → ds3231_alarm_t) (alarm : Nat) (enabled : Bool)
    (w : World (Nat → Nat)) :
    (ds3231_allow_alarm (reg_handle alarms) alarm enabled w).1 = DS3231_OK ∧
    (ds3231_allow_alarm (reg_handle alarms) alarm enabled w).2.1 =
      allow_alarm_handle (reg_handle alarms) alarm enabled ∧
    ∀ a, (ds3231_allow_alarm (reg_handle alarms) alarm enabled w).2.2.bus a =
      if a = 14 then allow_alarm_ctrl alarm enabled (load [w.bus 14, w.bus 15] 2 fresh) 0
      else if a = 15 then allow_alarm_ctrl alarm enabled (load [w.bus 14, w.bus 15] 2 fresh) 1
      else w.bus a := by
  rw [allow_alarm_eq (reg_handle alarms) reg_read reg_write alarm enabled w rfl rfl]
  simp only [call_read, call_write, reg_read, reg_write, DS3231_CONTROL_SIZE,
    DS3231_CONTROL1_REG_ADDRESS, Nat.cast_ofNat, to_int_two, ne_eq, not_true_eq_false, if_false,
    true_and]
  intro a
  by_cases h14 : a = 14
  · simp [h14, bytes, List.range_succ]
  · by_cases h15 : a = 15
    · simp [h15, bytes, List.range_succ]
    · have : ¬ (14 ≤ a ∧ a < 14 + 2) := by omega
      simp [h14, h15, this]

theorem world_flags_bytes : ∀ a, world_flags.bus a < 256 := by
  intro a
  simp only [world_flags]
  split_ifs <;> omega

/-- C11: over the register file with byte-valued registers, for each channel
`ch` in {1, 2} and every initial control content, `ds3231_allow_alarm`
succeeds; with `enabled = true` control-1 becomes its old value with INTCN
(bit 2) and the channel's interrupt-enable bit set, with `enabled = false`
control-1 becomes its old value with the channel's interrupt-enable bit
cleared (INTCN keeps the value it had); every other control-1 bit and
control-2 are unchanged, the handle's enabled flag for `ch` equals the
requested value, and every other alarm slot of the handle is unchanged. -/
theorem C11_allow_alarm (alarms : Nat → ds3231_alarm_t) (alarm : Nat) (enabled : Bool)
    (w : World (Nat → Nat))
    (hch : alarm = DS3231_ALARM_1 ∨ alarm = DS3231_ALARM_2) (hbyte : ∀ a, w.bus a < 256) :
    (ds3231_allow_alarm (reg_handle alarms) alarm enabled w).1 = DS3231_OK ∧
    (ds3231_allow_alarm (reg_handle alarms) alarm enabled w).2.2.bus 0x0E =
      (if enabled = true then w.bus 0x0E ||| DS3231_CONTROL1_INTCN ||| alarm_enable_bit alarm
        else w.bus 0x0E &&& not8 (alarm_enable_bit alarm)) ∧
    (∀ i, i < 8 →
      ((ds3231_allow_alarm (reg_handle alarms) alarm enabled w).2.2.bus 0x0E).testBit i =
        (if enabled = true then
          (decide (i = 2) || decide (i = alarm_enable_index alarm) || (w.bus 0x0E).testBit i)
        else (!decide (i = alarm_enable_index alarm) && (w.bus 0x0E).testBit i))) ∧
    (ds3231_allow_alarm (reg_handle alarms) alarm enabled w).2.2.bus 0x0F = w.bus 0x0F ∧
    ((ds3231_allow_alarm (reg_handle alarms) alarm enabled w).2.1.alarms alarm).enabled =
      enabled ∧
    (∀ j, j ≠ alarm →
      (ds3231_allow_alarm (reg_handle alarms) alarm enabled w).2.1.alarms j = alarms j) := by
  obtain ⟨hok, hh, hbus⟩ := reg_allow_alarm alarms alarm enabled w
  have h14 : w.bus 14 % 256 = w.bus 14 := Nat.mod_eq_of_lt (hbyte 14)
  have h15 : w.bus 15 % 256 = w.bus 15 := Nat.mod_eq_of_lt (hbyte 15)
  have hl0 : load [w.bus 14, w.bus 15] 2 fresh 0 = w.bus 14 := by simp [load, h14]
  have hl1 : load [w.bus 14, w.bus 15] 2 fresh 1 = w.bus 15 := by simp [load, h15]
  obtain ⟨hc0, hc1⟩ := allow_alarm_ctrl_valid alarm enabled (load [w.bus 14, w.bus 15] 2 fresh)
    hch (by rw [hl0]; exact hbyte 14)
  rw [hl0] at hc0
  rw [hl1] at hc1
  have hv14 : (ds3231_allow_alarm (reg_handle alarms) alarm enabled w).2.2.bus 14 =
      (if enabled = true then w.bus 14 ||| DS3231_CONTROL1_INTCN ||| alarm_enable_bit alarm
        else w.bus 14 &&& not8 (alarm_enable_bit alarm)) := by
    rw [hbus 14, if_pos rfl, hc0]
  have hbit : alarm_enable_bit alarm = 1 <<< alarm_enable_index alarm ∧
      alarm_enable_index alarm < 2 := by
    rcases hch with rfl | rfl <;> decide
  refine ⟨hok, hv14, ?_, ?_, ?_, ?_⟩
  · intro i hi
    rw [hv14, hbit.1]
    cases enabled
    · simpa using allow_disable_bits _ (hbyte 14) _ hbit.2 i hi
    · simpa using allow_enable_bits _ (hbyte 14) _ hbit.2 i hi
  · rw [hbus 15]
    simp [hc1]
  · rw [hh]
    simp [allow_alarm_handle, hch]
  · intro j hj
    rw [hh]
    simp [allow_alarm_handle, hch, reg_handle, Function.update, hj]

/-- C11, witness: enabling channel 2 over the register file with control
registers `0x1B`, `0x8B`. -/
theorem C11_allow_alarm_witness :
    (DS3231_ALARM_2 = DS3231_ALARM_1 ∨ DS3231_ALARM_2 = DS3231_ALARM_2) ∧
    (∀ a, world_flags.bus a < 256) ∧
    (ds3231_allow_alarm (reg_handle alarms0) DS3231_ALARM_2 true world_flags).1 = DS3231_OK ∧
    (ds3231_allow_alarm (reg_handle alarms0) DS3231_ALARM_2 true world_flags).2.2.bus 0x0E =
      (if true = true then
        world_flags.bus 0x0E ||| DS3231_CONTROL1_INTCN ||| alarm_enable_bit DS3231_ALARM_2
        else world_flags.bus 0x0E &&& not8 (alarm_enable_bit DS3231_ALARM_2)) ∧
    ((ds3231_allow_alarm (reg_handle alarms0) DS3231_ALARM_2 true world_flags).2.1.alarms
      DS3231_ALARM_2).enabled = true :=
  ⟨Or.inr rfl, world_flags_bytes,
    (C11_allow_alarm alarms0 DS3231_ALARM_2 true world_flags (Or.inr rfl) world_flags_bytes).1,
    (C11_allow_alarm alarms0 DS3231_ALARM_2 true world_flags (Or.inr rfl)
      world_flags_bytes).2.1,
    (C11_allow_alarm alarms0 DS3231_ALARM_2 true world_flags (Or.inr rfl)
      world_flags_bytes).2.2.2.2.1⟩

theorem bytes_load_two (data : List Nat) :
    bytes (load data 2 fresh) 2 = [load data 2 fresh 0, load data 2 fresh 1] := by
  simp [bytes, List.range_succ]

/-- C15: for each channel `ch` in {1, 2} and each requested value `e`, when
the control-register read of `ds3231_allow_alarm` transfers 2 bytes and its
write returns a count that the driver's `int` holds as a value other than 2
(every count other than 2 in the range of `int` is one), the call returns
`DS3231_ERROR_WRITE_FAILED` and the handle's enabled flag for `ch` equals
`e` all the same. -/
theorem C15_allow_alarm_write_failed {σ : Type} (handle : ds3231_handle_t σ)
    (rd : ds3231_read_t σ) (wr : ds3231_write_t σ) (alarm : Nat) (enabled : Bool) (w : World σ)
    (hrd : handle.read = some rd) (hwr : handle.write = some wr)
    (hch : alarm = DS3231_ALARM_1 ∨ alarm = DS3231_ALARM_2)
    (hR : (rd w.bus DS3231_ADDRESS DS3231_CONTROL1_REG_ADDRESS DS3231_CONTROL_SIZE).2.2 = 2)
    (hW : ∀ buffer, to_int (wr (rd w.bus DS3231_ADDRESS DS3231_CONTROL1_REG_ADDRESS
      DS3231_CONTROL_SIZE).1 DS3231_ADDRESS DS3231_CONTROL1_REG_ADDRESS buffer 2).2 ≠ 2) :
    (ds3231_allow_alarm handle alarm enabled w).1 = DS3231_ERROR_WRITE_FAILED ∧
    ((ds3231_allow_alarm handle alarm enabled w).2.1.alarms alarm).enabled = enabled := by
  rw [allow_alarm_eq handle rd wr alarm enabled w hrd hwr]
  simp only [call_read, call_write, DS3231_CONTROL_SIZE] at hR hW ⊢
  simp [hR, hW, allow_alarm_handle, hch]

/-- C20: for a channel identifier other than channel 1 and channel 2 and a
transport on which every call transfers the requested length,
`ds3231_allow_alarm` returns `DS3231_OK`, its transport calls are the read
of the two control bytes and one write of the same two bytes at register
0x0E, and it returns the handle as it was. -/
theorem C20_allow_alarm_unknown_channel {σ : Type} (handle : ds3231_handle_t σ)
    (rd : ds3231_read_t σ) (wr : ds3231_write_t σ) (alarm : Nat) (enabled : Bool) (w : World σ)
    (hrd : handle.read = some rd) (hwr : handle.write = some wr)
    (h1 : alarm ≠ DS3231_ALARM_1) (h2 : alarm ≠ DS3231_ALARM_2)
    (hR : ∀ s dev reg len, (rd s dev reg len).2.2 = (len : Int))
    (hW : ∀ s dev reg buf len, (wr s dev reg buf len).2 = (len : Int)) :
    (ds3231_allow_alarm handle alarm enabled w).1 = DS3231_OK ∧
    (ds3231_allow_alarm handle alarm enabled w).2.2.log =
      w.log ++ [Event.read DS3231_ADDRESS 0x0E 2,
        Event.write DS3231_ADDRESS 0x0E [control1_read rd w, control2_read rd w] 2] ∧
    (ds3231_allow_alarm handle alarm enabled w).2.1 = handle := by
  rw [allow_alarm_eq handle rd wr alarm enabled w hrd hwr]
  simp [call_read, call_write, hR, hW, allow_alarm_handle, allow_alarm_ctrl, h1, h2,
    DS3231_CONTROL_SIZE, DS3231_CONTROL1_REG_ADDRESS, control1_read, control2_read,
    bytes_load_two]

/-- C15, witness: enabling channel 1 over a register file that refuses every
write. -/
theorem C15_allow_alarm_write_failed_witness :
    (ds3231_allow_alarm (budget_handle 0 alarms0) DS3231_ALARM_1 true
      (budget_world world_flags.bus 0)).1 = DS3231_ERROR_WRITE_FAILED ∧
    ((ds3231_allow_alarm (budget_handle 0 alarms0) DS3231_ALARM_1 true
      (budget_world world_flags.bus 0)).2.1.alarms DS3231_ALARM_1).enabled = true :=
  C15_allow_alarm_write_failed (budget_handle 0 alarms0) budget_read (budget_write 0)
    DS3231_ALARM_1 true (budget_world world_flags.bus 0) rfl rfl (Or.inl rfl) rfl
    (fun _ => by simp [budget_write, budget_read, budget_world, to_int])

/-- C15, counterexample: enabling channel 1 over a register file whose write
function stores the bytes and reports the count 2^32 + 2: the control read
transfers 2 bytes, the write returns a count other than 2, yet the driver's
`int` holds 2 and the call returns `DS3231_OK`. -/
theorem C15_wide_write_count_accepted :
    (reg_read world_flags.bus DS3231_ADDRESS DS3231_CONTROL1_REG_ADDRESS
      DS3231_CONTROL_SIZE).2.2 = 2 ∧
    (∀ buffer, (wide_write world_flags.bus DS3231_ADDRESS DS3231_CONTROL1_REG_ADDRESS buffer
      2).2 = 4294967298) ∧
    (∀ buffer, (wide_write world_flags.bus DS3231_ADDRESS DS3231_CONTROL1_REG_ADDRESS buffer
      2).2 ≠ 2) ∧
    (ds3231_allow_alarm (wide_write_handle alarms0) DS3231_ALARM_1 true world_flags).1 =
      DS3231_OK ∧
    (ds3231_allow_alarm (wide_write_handle alarms0) DS3231_ALARM_1 true world_flags).1 ≠
      DS3231_ERROR_WRITE_FAILED := by
  refine ⟨by decide, fun _ => by simp [wide_write], fun _ => by simp [wide_write], by decide,
    by decide⟩

/-- C20, witness: channel identifier 2 over the register file with control
registers `0x1B`, `0x8B`. -/
theorem C20_allow_alarm_unknown_channel_witness :
    DS3231_ALARM_TOTAL ≠ DS3231_ALARM_1 ∧ DS3231_ALARM_TOTAL ≠ DS3231_ALARM_2 ∧
    (ds3231_allow_alarm (reg_handle alarms0) DS3231_ALARM_TOTAL true world_flags).1 =
      DS3231_OK ∧
    (ds3231_allow_alarm (reg_handle alarms0) DS3231_ALARM_TOTAL true world_flags).2.2.log =
      [Event.read 0xD0 0x0E 2, Event.write 0xD0 0x0E [0x1B, 0x8B] 2] ∧
    (ds3231_allow_alarm (reg_handle alarms0) DS3231_ALARM_TOTAL true world_flags).2.1 =
      reg_handle alarms0 :=
  ⟨by decide, by decide,
    C20_allow_alarm_unknown_channel (reg_handle alarms0) reg_read reg_write DS3231_ALARM_TOTAL
      true world_flags rfl rfl (by decide) (by decide) (fun _ _ _ _ => rfl)
      (fun _ _ _ _ _ => rfl)⟩

/-! ## `ds3231_alarm_callback` -/

theorem alarm_callback_handle {σ : Type} (handle : ds3231_handle_t σ) (w : World σ) :
    (ds3231_alarm_callback handle w).2.1 = handle := by
  cases hrd : handle.read with
  | none => simp [ds3231_alarm_callback, Id.run, hrd]
  | some rd =>
    cases hwr : handle.write with
    | none => simp [ds3231_alarm_callback, Id.run, hrd, hwr]
    | some wr =>
      rw [alarm_callback_eq handle rd wr w hrd hwr]
      split_ifs <;> rfl

theorem service_alarm_eq {σ : Type} (a : ds3231_alarm_t) (flag : Nat) (ctrl_reg : Nat → Nat)
    (w : World σ) (hc : ctrl_reg 1 < 256) :
    service_alarm a flag ctrl_reg w =
      (Function.update ctrl_reg 1 (clear_if_serviced (ctrl_reg 1) flag a.enabled),
        { w with log := w.log ++ alarm_service_events a (decide (ctrl_reg 1 &&& flag ≠ 0)) }) := by
  have hm : (ctrl_reg 1 &&& not8 flag) % 256 = ctrl_reg 1 &&& not8 flag :=
    Nat.mod_eq_of_lt (Nat.lt_of_le_of_lt Nat.and_le_left hc)
  unfold service_alarm clear_if_serviced alarm_service_events
  by_cases h : ctrl_reg 1 &&& flag ≠ 0 ∧ a.enabled = true
  · rw [if_pos h, if_pos h, hm]
    cases hcb : a.cb <;> simp [h.1, h.2, call_cb]
  · rw [if_neg h, if_neg h]
    have h' : ¬ (decide (ctrl_reg 1 &&& flag ≠ 0) = true ∧ a.enabled = true) := by
      simpa using h
    rw [if_neg h']
    simp

set_option maxRecDepth 100000 in
theorem clear_first_keeps_second : ∀ c, c < 256 → ∀ e : Bool,
    clear_if_serviced c DS3231_CONTROL2_A1F e &&& DS3231_CONTROL2_A2F =
      c &&& DS3231_CONTROL2_A2F := by
  decide

theorem clear_if_serviced_lt (c flag : Nat) (e : Bool) (hc : c < 256) :
    clear_if_serviced c flag e < 256 := by
  unfold clear_if_serviced
  split_ifs
  · exact Nat.lt_of_le_of_lt Nat.and_le_left hc
  · exact hc

theorem alarm_callback_serviced_eq {σ : Type} (handle : ds3231_handle_t σ)
    (rd : ds3231_read_t σ) (w : World σ) :
    bytes (alarm_callback_serviced handle rd w).1 2 =
      [control1_read rd w,
        control2_serviced (control2_read rd w) (handle.alarms 0).enabled
          (handle.alarms 1).enabled] ∧
    (alarm_callback_serviced handle rd w).2.log =
      w.log ++ [Event.read DS3231_ADDRESS 0x0E 2] ++
        alarm_service_events (handle.alarms 0)
          (decide (control2_read rd w &&& DS3231_CONTROL2_A1F ≠ 0)) ++
        alarm_service_events (handle.alarms 1)
          (decide (control2_read rd w &&& DS3231_CONTROL2_A2F ≠ 0)) ∧
    (alarm_callback_serviced handle rd w).2.bus =
      (rd w.bus DS3231_ADDRESS DS3231_CONTROL1_REG_ADDRESS DS3231_CONTROL_SIZE).1 := by
  have hc : load (call_read rd DS3231_CONTROL1_REG_ADDRESS DS3231_CONTROL_SIZE w).2.1
      DS3231_CONTROL_SIZE fresh 1 < 256 := load_lt _ _ _ (by decide)
  have hk := clear_first_keeps_second _ hc (handle.alarms 0).enabled
  unfold alarm_callback_serviced
  rw [service_alarm_eq (handle.alarms 0) DS3231_CONTROL2_A1F _ _ hc]
  rw [service_alarm_eq (handle.alarms 1) DS3231_CONTROL2_A2F _ _
    (by simpa using clear_if_serviced_lt _ _ _ hc)]
  simp only [Function.update_same] at hk ⊢
  rw [hk]
  refine ⟨?_, ?_, ?_⟩
  · simp [bytes, List.range_succ, control1_read, control2_read, control2_serviced, call_read]
  · simp [call_read, control2_read, DS3231_CONTROL1_REG_ADDRESS, DS3231_CONTROL_SIZE]
  · simp [call_read]

theorem alarm_callback_log {σ : Type} (handle : ds3231_handle_t σ) (rd : ds3231_read_t σ)
    (wr : ds3231_write_t σ) (w : World σ)
    (hrd : handle.read = some rd) (hwr : handle.write = some wr)
    (hR : (rd w.bus DS3231_ADDRESS DS3231_CONTROL1_REG_ADDRESS DS3231_CONTROL_SIZE).2.2 = 2) :
    (ds3231_alarm_callback handle w).2.2.log =
      w.log ++ [Event.read DS3231_ADDRESS 0x0E 2] ++
        alarm_service_events (handle.alarms 0)
          (decide (control2_read rd w &&& DS3231_CONTROL2_A1F ≠ 0)) ++
        alarm_service_events (handle.alarms 1)
          (decide (control2_read rd w &&& DS3231_CONTROL2_A2F ≠ 0)) ++
        [Event.write DS3231_ADDRESS 0x0E
          [control1_read rd w,
            control2_serviced (control2_read rd w) (handle.alarms 0).enabled
              (handle.alarms 1).enabled] 2] := by
  obtain ⟨hb, hl, _⟩ := alarm_callback_serviced_eq handle rd w
  rw [alarm_callback_eq handle rd wr w hrd hwr]
  have hr : (call_read rd DS3231_CONTROL1_REG_ADDRESS DS3231_CONTROL_SIZE w).2.2 =
      (DS3231_CONTROL_SIZE : Int) := by
    simp only [DS3231_CONTROL_SIZE] at hR
    simp [call_read, hR, DS3231_CONTROL_SIZE]
  simp only [hr, ne_eq, not_true_eq_false, if_false]
  split_ifs <;> simp [call_write, hb, hl, DS3231_CONTROL_SIZE, DS3231_CONTROL1_REG_ADDRESS]

set_option maxRecDepth 100000 in
theorem serviced_flag1_clear : ∀ c, c < 256 → ∀ e2 : Bool, c &&& DS3231_CONTROL2_A1F ≠ 0 →
    control2_serviced c true e2 &&& DS3231_CONTROL2_A1F = 0 := by
  decide

set_option maxRecDepth 100000 in
theorem serviced_flag1_kept : ∀ c, c < 256 → ∀ e2 : Bool, c &&& DS3231_CONTROL2_A1F ≠ 0 →
    control2_serviced c false e2 &&& DS3231_CONTROL2_A1F ≠ 0 := by
  decide

set_option maxRecDepth 100000 in
theorem serviced_flag2_clear : ∀ c, c < 256 → ∀ e1 : Bool, c &&& DS3231_CONTROL2_A2F ≠ 0 →
    control2_serviced c e1 true &&& DS3231_CONTROL2_A2F = 0 := by
  decide

set_option maxRecDepth 100000 in
theorem serviced_flag2_kept : ∀ c, c < 256 → ∀ e1 : Bool, c &&& DS3231_CONTROL2_A2F ≠ 0 →
    control2_serviced c e1 false &&& DS3231_CONTROL2_A2F ≠ 0 := by
  decide

set_option maxRecDepth 100000 in
theorem serviced_bits : ∀ c, c < 256 → ∀ e1 e2 : Bool, ∀ i, i < 8 →
    (control2_serviced c e1 e2).testBit i =
      (c.testBit i && !(decide (i = 0) && e1) && !(decide (i = 1) && e2)) := by
  decide

theorem service_events_fired (a : ds3231_alarm_t) (cb : Nat) (he : a.enabled = true)
    (hcb : a.cb = some cb) : alarm_service_events a true = [Event.callback cb a.args] := by
  simp [alarm_service_events, he, hcb]

theorem service_events_disabled (a : ds3231_alarm_t) (f : Bool) (he : a.enabled = false) :
    alarm_service_events a f = [] := by
  simp [alarm_service_events, he]

/-- C12: on a transport on which every call transfers the requested length,
`ds3231_alarm_callback` succeeds and its events are, in order: the read of
the two control bytes, the callback events of channel 1, the callback events
of channel 2, and exactly one 2-byte write at register 0x0E.  For each
channel whose flag bit is set in the control-2 byte read: if the handle's
enabled flag for the channel is true, a registered callback is invoked
exactly once with the stored user data and the flag bit is 0 in the written
control-2 byte; if the enabled flag is false, the callback is not invoked and
the flag bit is still 1 in the written byte. -/
theorem C12_alarm_callback {σ : Type} (handle : ds3231_handle_t σ) (rd : ds3231_read_t σ)
    (wr : ds3231_write_t σ) (w : World σ)
    (hrd : handle.read = some rd) (hwr : handle.write = some wr)
    (hR : ∀ s dev reg len, (rd s dev reg len).2.2 = (len : Int))
    (hW : ∀ s dev reg buf len, (wr s dev reg buf len).2 = (len : Int)) :
    (ds3231_alarm_callback handle w).1 = DS3231_OK ∧
    (ds3231_alarm_callback handle w).2.2.log =
      w.log ++ [Event.read DS3231_ADDRESS 0x0E 2] ++
        alarm_service_events (handle.alarms 0)
          (decide (control2_read rd w &&& DS3231_CONTROL2_A1F ≠ 0)) ++
        alarm_service_events (handle.alarms 1)
          (decide (control2_read rd w &&& DS3231_CONTROL2_A2F ≠ 0)) ++
        [Event.write DS3231_ADDRESS 0x0E
          [control1_read rd w,
            control2_serviced (control2_read rd w) (handle.alarms 0).enabled
              (handle.alarms 1).enabled] 2] ∧
    (control2_read rd w &&& DS3231_CONTROL2_A1F ≠ 0 →
      ((handle.alarms 0).enabled = true →
        (∀ cb, (handle.alarms 0).cb = some cb →
          alarm_service_events (handle.alarms 0)
            (decide (control2_read rd w &&& DS3231_CONTROL2_A1F ≠ 0)) =
              [Event.callback cb (handle.alarms 0).args]) ∧
        control2_serviced (control2_read rd w) (handle.alarms 0).enabled
          (handle.alarms 1).enabled &&& DS3231_CONTROL2_A1F = 0) ∧
      ((handle.alarms 0).enabled = false →
        alarm_service_events (handle.alarms 0)
          (decide (control2_read rd w &&& DS3231_CONTROL2_A1F ≠ 0)) = [] ∧
        control2_serviced (control2_read rd w) (handle.alarms 0).enabled
          (handle.alarms 1).enabled &&& DS3231_CONTROL2_A1F ≠ 0)) ∧
    (control2_read rd w &&& DS3231_CONTROL2_A2F ≠ 0 →
      ((handle.alarms 1).enabled = true →
        (∀ cb, (handle.alarms 1).cb = some cb →
          alarm_service_events (handle.alarms 1)
            (decide (control2_read rd w &&& DS3231_CONTROL2_A2F ≠ 0)) =
              [Event.callback cb (handle.alarms 1).args]) ∧
        control2_serviced (control2_read rd w) (handle.alarms 0).enabled
          (handle.alarms 1).enabled &&& DS3231_CONTROL2_A2F = 0) ∧
      ((handle.alarms 1).enabled = false →
        alarm_service_events (handle.alarms 1)
          (decide (control2_read rd w &&& DS3231_CONTROL2_A2F ≠ 0)) = [] ∧
        control2_serviced (control2_read rd w) (handle.alarms 0).enabled
          (handle.alarms 1).enabled &&& DS3231_CONTROL2_A2F ≠ 0)) := by
  have hc : control2_read rd w < 256 := load_lt _ _ _ (by decide)
  have f1 : control2_read rd w &&& DS3231_CONTROL2_A1F ≠ 0 → (handle.alarms 0).enabled = true →
      control2_serviced (control2_read rd w) (handle.alarms 0).enabled
        (handle.alarms 1).enabled &&& DS3231_CONTROL2_A1F = 0 := by
    intro hf he
    rw [he]
    exact serviced_flag1_clear _ hc _ hf
  have f2 : control2_read rd w &&& DS3231_CONTROL2_A1F ≠ 0 → (handle.alarms 0).enabled = false →
      control2_serviced (control2_read rd w) (handle.alarms 0).enabled
        (handle.alarms 1).enabled &&& DS3231_CONTROL2_A1F ≠ 0 := by
    intro hf he
    rw [he]
    exact serviced_flag1_kept _ hc _ hf
  have f3 : control2_read rd w &&& DS3231_CONTROL2_A2F ≠ 0 → (handle.alarms 1).enabled = true →
      control2_serviced (control2_read rd w) (handle.alarms 0).enabled
        (handle.alarms 1).enabled &&& DS3231_CONTROL2_A2F = 0 := by
    intro hf he
    rw [he]
    exact serviced_flag2_clear _ hc _ hf
  have f4 : control2_read rd w &&& DS3231_CONTROL2_A2F ≠ 0 → (handle.alarms 1).enabled = false →
      control2_serviced (control2_read rd w) (handle.alarms 0).enabled
        (handle.alarms 1).enabled &&& DS3231_CONTROL2_A2F ≠ 0 := by
    intro hf he
    rw [he]
    exact serviced_flag2_kept _ hc _ hf
  refine ⟨?_, alarm_callback_log handle rd wr w hrd hwr (hR _ _ _ _), ?_, ?_⟩
  · rw [alarm_callback_eq handle rd wr w hrd hwr]
    simp [call_read, call_write, hR, hW, DS3231_CONTROL_SIZE]
  · intro hf
    refine ⟨fun he => ⟨fun cb hcb => ?_, f1 hf he⟩,
      fun he => ⟨service_events_disabled _ _ he, f2 hf he⟩⟩
    rw [decide_eq_true hf]
    exact service_events_fired _ cb he hcb
  · intro hf
    refine ⟨fun he => ⟨fun cb hcb => ?_, f3 hf he⟩,
      fun he => ⟨service_events_disabled _ _ he, f4 hf he⟩⟩
    rw [decide_eq_true hf]
    exact service_events_fired _ cb he hcb

/-- C18: for every control content `(c1, c2)` that the read of
`ds3231_alarm_callback` returns and every handle state, the last event of
the call is the write at register 0x0E of the 2 bytes `c1`, unchanged, and
`c2` with bit 0 cleared when it is set and channel 1 is enabled and bit 1
cleared when it is set and channel 2 is enabled: every other control-2 bit
is as read; and the handle that the call returns is the handle it was
given. -/
theorem C18_alarm_callback_frame {σ : Type} (handle : ds3231_handle_t σ)
    (rd : ds3231_read_t σ) (wr : ds3231_write_t σ) (w : World σ)
    (hrd : handle.read = some rd) (hwr : handle.write = some wr)
    (hR : (rd w.bus DS3231_ADDRESS DS3231_CONTROL1_REG_ADDRESS DS3231_CONTROL_SIZE).2.2 = 2) :
    (ds3231_alarm_callback handle w).2.2.log.getLast? =
      some (Event.write DS3231_ADDRESS 0x0E
        [control1_read rd w,
          control2_serviced (control2_read rd w) (handle.alarms 0).enabled
            (handle.alarms 1).enabled] 2) ∧
    (∀ i, i < 8 →
      (control2_serviced (control2_read rd w) (handle.alarms 0).enabled
          (handle.alarms 1).enabled).testBit i =
        ((control2_read rd w).testBit i && !(decide (i = 0) && (handle.alarms 0).enabled) &&
          !(decide (i = 1) && (handle.alarms 1).enabled))) ∧
    (ds3231_alarm_callback handle w).2.1 = handle := by
  refine ⟨?_, serviced_bits _ (load_lt _ _ _ (by decide)) _ _, alarm_callback_handle handle w⟩
  rw [alarm_callback_log handle rd wr w hrd hwr hR]
  exact List.getLast?_concat _

/-- C12, witness: control-2 reads `0x8B` (both flags set), channel 1 is
enabled with callback 7 and user data 9, channel 2 is disabled: the callback
of channel 1 fires once and the byte written back is `0x8A`. -/
theorem C12_alarm_callback_witness :
    (ds3231_alarm_callback (reg_handle alarms_mixed) world_flags).1 = DS3231_OK ∧
    (ds3231_alarm_callback (reg_handle alarms_mixed) world_flags).2.2.log =
      [Event.read 0xD0 0x0E 2, Event.callback 7 9, Event.write 0xD0 0x0E [0x1B, 0x8A] 2] :=
  ⟨(C12_alarm_callback (reg_handle alarms_mixed) reg_read reg_write world_flags rfl rfl
      (fun _ _ _ _ => rfl) (fun _ _ _ _ _ => rfl)).1,
    (C12_alarm_callback (reg_handle alarms_mixed) reg_read reg_write world_flags rfl rfl
      (fun _ _ _ _ => rfl) (fun _ _ _ _ _ => rfl)).2.1⟩

/-- C18, witness: control registers `0x1B`, `0x8B`, channel 1 enabled and
channel 2 disabled, over the register file. -/
theorem C18_alarm_callback_frame_witness :
    (ds3231_alarm_callback (reg_handle alarms_mixed) world_flags).2.2.log.getLast? =
      some (Event.write 0xD0 0x0E [0x1B, 0x8A] 2) ∧
    (ds3231_alarm_callback (reg_handle alarms_mixed) world_flags).2.1 =
      reg_handle alarms_mixed :=
  ⟨(C18_alarm_callback_frame (reg_handle alarms_mixed) reg_read reg_write world_flags rfl rfl
      rfl).1,
    (C18_alarm_callback_frame (reg_handle alarms_mixed) reg_read reg_write world_flags rfl rfl
      rfl).2.2⟩

/-! ## The handle after `ds3231_set_alarm` -/

theorem set_alarm_finish_handle {σ : Type} (handle : ds3231_handle_t σ) (alarm : Nat)
    (cb : Option Nat) (args : Nat) (w : World σ) :
    set_alarm_finish handle alarm cb args w = (DS3231_OK, set_alarm_handle handle alarm cb args, w) := by
  simp [set_alarm_finish, set_alarm_handle]

theorem set_alarm_guard_handle {σ : Type} (wr : ds3231_write_t σ) (handle : ds3231_handle_t σ)
    (alarm : Nat) (cb : Option Nat) (args : Nat) (ctrl_reg : Nat → Nat)
    (alarm_base alarm_time_size : Nat) (w : World σ) :
    (set_alarm_guard wr handle alarm cb args ctrl_reg alarm_base alarm_time_size w).2.1 =
      if (set_alarm_guard wr handle alarm cb args ctrl_reg alarm_base alarm_time_size w).1 =
          DS3231_OK then set_alarm_handle handle alarm cb args
      else handle := by
  simp only [set_alarm_guard, set_alarm_write, set_alarm_restore, set_alarm_finish_handle]
  split_ifs <;> simp_all

theorem set_alarm_result_handle {σ : Type} (handle : ds3231_handle_t σ) (alarm alarm_mask : Nat)
    (time : ds3231_datetime_t) (cb : Option Nat) (args : Nat) (w : World σ) :
    (ds3231_set_alarm handle alarm alarm_mask time cb args w).2.1 =
      if (ds3231_set_alarm handle alarm alarm_mask time cb args w).1 = DS3231_OK then
        set_alarm_handle handle alarm cb args
      else handle := by
  cases hrd : handle.read with
  | none => simp [ds3231_set_alarm, Id.run, hrd]
  | some rd =>
    cases hwr : handle.write with
    | none => simp [ds3231_set_alarm, Id.run, hrd, hwr]
    | some wr =>
      rw [set_alarm_eq handle rd wr alarm alarm_mask time cb args w hrd hwr]
      split_ifs with h0 h1 h2 h3 h4 h5 h6
      all_goals first
        | rfl
        | exact absurd ‹_› (by decide)
        | (rw [set_alarm_guard_handle]; simp_all)

/-- C14: for every handle state, a `ds3231_set_alarm` that returns
`DS3231_OK` (which it does on both the INTCN-set and the INTCN-clear path)
sets the callback and user data of the channel's slot to `cb` and `args`,
keeps the enabled flag of that slot, and leaves every other slot, so the
enabled flag, callback and user data of the other channel, as they were. -/
theorem C14_set_alarm_bookkeeping {σ : Type} (handle : ds3231_handle_t σ)
    (alarm alarm_mask : Nat) (time : ds3231_datetime_t) (cb : Option Nat) (args : Nat)
    (w : World σ)
    (hok : (ds3231_set_alarm handle alarm alarm_mask time cb args w).1 = DS3231_OK) :
    ((ds3231_set_alarm handle alarm alarm_mask time cb args w).2.1.alarms alarm).cb = cb ∧
    ((ds3231_set_alarm handle alarm alarm_mask time cb args w).2.1.alarms alarm).args = args ∧
    ((ds3231_set_alarm handle alarm alarm_mask time cb args w).2.1.alarms alarm).enabled =
      (handle.alarms alarm).enabled ∧
    (∀ j, j ≠ alarm →
      (ds3231_set_alarm handle alarm alarm_mask time cb args w).2.1.alarms j =
        handle.alarms j) := by
  rw [set_alarm_result_handle, if_pos hok]
  refine ⟨?_, ?_, ?_, ?_⟩
  · simp [set_alarm_handle]
  · simp [set_alarm_handle]
  · simp [set_alarm_handle]
  · intro j hj
    simp [set_alarm_handle, Function.update, hj]

/-- C14, witness: channel 2 over the register file with INTCN set, on a
handle whose two channels are enabled with callback 1. -/
theorem C14_set_alarm_bookkeeping_witness :
    (ds3231_set_alarm (reg_handle alarms_armed) DS3231_ALARM_2 DS3231_ALARM2_MASK_MIN_MATCH
      sample_alarm_time (some 5) 6 world_intcn).1 = DS3231_OK ∧
    ((ds3231_set_alarm (reg_handle alarms_armed) DS3231_ALARM_2 DS3231_ALARM2_MASK_MIN_MATCH
      sample_alarm_time (some 5) 6 world_intcn).2.1.alarms DS3231_ALARM_2).cb = some 5 ∧
    ((ds3231_set_alarm (reg_handle alarms_armed) DS3231_ALARM_2 DS3231_ALARM2_MASK_MIN_MATCH
      sample_alarm_time (some 5) 6 world_intcn).2.1.alarms DS3231_ALARM_2).args = 6 :=
  ⟨by decide,
    (C14_set_alarm_bookkeeping (reg_handle alarms_armed) DS3231_ALARM_2
      DS3231_ALARM2_MASK_MIN_MATCH sample_alarm_time (some 5) 6 world_intcn (by decide)).1,
    (C14_set_alarm_bookkeeping (reg_handle alarms_armed) DS3231_ALARM_2
      DS3231_ALARM2_MASK_MIN_MATCH sample_alarm_time (some 5) 6 world_intcn (by decide)).2.1⟩

/-- C19: whenever `ds3231_set_alarm` returns a status other than `DS3231_OK`
(null transport function, failed control read, unknown channel, or a failed
write at any of its write positions), the handle it returns is the handle it
was given: no callback, user data or enabled flag of either channel is
changed. -/
theorem C19_set_alarm_failure_keeps_handle {σ : Type} (handle : ds3231_handle_t σ)
    (alarm alarm_mask : Nat) (time : ds3231_datetime_t) (cb : Option Nat) (args : Nat)
    (w : World σ)
    (hne : (ds3231_set_alarm handle alarm alarm_mask time cb args w).1 ≠ DS3231_OK) :
    (ds3231_set_alarm handle alarm alarm_mask time cb args w).2.1 = handle := by
  rw [set_alarm_result_handle, if_neg hne]

/-- C19, witness: channel 1 over a register file with INTCN set that serves
two writes and refuses the third, the write that restores INTCN. -/
theorem C19_set_alarm_failure_keeps_handle_witness :
    (ds3231_set_alarm (budget_handle 0 alarms_armed) DS3231_ALARM_1
      DS3231_ALARM1_MASK_SECOND_MATCH sample_alarm_time (some 5) 6
      (budget_world world_intcn.bus 2)).1 = DS3231_ERROR_WRITE_FAILED ∧
    (ds3231_set_alarm (budget_handle 0 alarms_armed) DS3231_ALARM_1
      DS3231_ALARM1_MASK_SECOND_MATCH sample_alarm_time (some 5) 6
      (budget_world world_intcn.bus 2)).2.1 = budget_handle 0 alarms_armed :=
  ⟨by decide,
    C19_set_alarm_failure_keeps_handle (budget_handle 0 alarms_armed) DS3231_ALARM_1
      DS3231_ALARM1_MASK_SECOND_MATCH sample_alarm_time (some 5) 6
      (budget_world world_intcn.bus 2) (by decide)⟩

/-! ## A failed restore of INTCN -/

theorem budget_set_alarm_guard (short : Int) (handle : ds3231_handle_t ((Nat → Nat) × Nat))
    (alarm : Nat) (cb : Option Nat) (args : Nat) (ctrl_reg : Nat → Nat)
    (alarm_base alarm_time_size : Nat) (regs m_buffer : Nat → Nat) (log : List Event)
    (hn : alarm_time_size < 2147483648) (hshort : to_int short ≠ 1) (hc : ctrl_reg 0 < 256)
    (hI : ctrl_reg 0 &&& DS3231_CONTROL1_INTCN ≠ 0) :
    (set_alarm_guard (budget_write short) handle alarm cb args ctrl_reg alarm_base
      alarm_time_size { bus := (regs, 2), m_buffer := m_buffer, log := log }) =
      (DS3231_ERROR_WRITE_FAILED, handle,
        { bus := ((reg_write (reg_write regs DS3231_ADDRESS DS3231_CONTROL1_REG_ADDRESS
              [ctrl_reg 0 &&& not8 DS3231_CONTROL1_INTCN] 1).1 DS3231_ADDRESS alarm_base
              (bytes m_buffer alarm_time_size) alarm_time_size).1, 0)
          m_buffer := m_buffer
          log := log ++
            [Event.write DS3231_ADDRESS DS3231_CONTROL1_REG_ADDRESS
                [ctrl_reg 0 &&& not8 DS3231_CONTROL1_INTCN] 1,
              Event.write DS3231_ADDRESS alarm_base (bytes m_buffer alarm_time_size)
                alarm_time_size,
              Event.write DS3231_ADDRESS DS3231_CONTROL1_REG_ADDRESS [ctrl_reg 0] 1] }) := by
  have e1 := intcn_clear_mod _ hc
  have e2 := intcn_restore _ hc hI
  rw [e1] at e2
  have hsz := to_int_natCast alarm_time_size hn
  simp [set_alarm_guard, set_alarm_write, set_alarm_restore, call_write, budget_write, hI,
    hshort, hsz, bytes, List.range_succ, e1, e2]

/-- C16: over a register file that stores written bytes, with INTCN set in
control-1, when the first two writes of `ds3231_set_alarm` are served and
the third, the write that restores INTCN, fails, that is, returns a count
that the driver's `int` holds as a value other than 1, and stores nothing, `ds3231_set_alarm` returns `DS3231_ERROR_WRITE_FAILED`, the
channel's alarm registers hold the alarm bytes of the call, and control-1 on
the device holds the byte read with INTCN cleared; the failed write is the
last event of the call. -/
theorem C16_restore_write_fails (short : Int) (alarms : Nat → ds3231_alarm_t)
    (alarm alarm_mask : Nat) (time : ds3231_datetime_t) (cb : Option Nat) (args : Nat)
    (w : World ((Nat → Nat) × Nat))
    (hch : alarm = DS3231_ALARM_1 ∨ alarm = DS3231_ALARM_2) (hshort : to_int short ≠ 1)
    (hb : w.bus.2 = 2) (hI : w.bus.1 0x0E % 256 &&& DS3231_CONTROL1_INTCN ≠ 0) :
    (ds3231_set_alarm (budget_handle short alarms) alarm alarm_mask time cb args w).1 =
      DS3231_ERROR_WRITE_FAILED ∧
    (∀ i, i < alarm_reg_count alarm →
      (ds3231_set_alarm (budget_handle short alarms) alarm alarm_mask time cb args w).2.2.bus.1
          (alarm_reg_base alarm + i) =
        (alarm_bytes_written alarm alarm_mask time w.m_buffer).getD i 0) ∧
    (ds3231_set_alarm (budget_handle short alarms) alarm alarm_mask time cb args w).2.2.bus.1
        0x0E = w.bus.1 0x0E % 256 &&& not8 DS3231_CONTROL1_INTCN ∧
    (ds3231_set_alarm (budget_handle short alarms) alarm alarm_mask time cb args w).2.2.bus.1
        0x0E &&& DS3231_CONTROL1_INTCN = 0 ∧
    (ds3231_set_alarm (budget_handle short alarms) alarm alarm_mask time cb args w).2.2.log =
      w.log ++
        [Event.read DS3231_ADDRESS 0x0E 2,
          Event.write DS3231_ADDRESS 0x0E
            [w.bus.1 0x0E % 256 &&& not8 DS3231_CONTROL1_INTCN] 1,
          Event.write DS3231_ADDRESS (alarm_reg_base alarm)
            (alarm_bytes_written alarm alarm_mask time w.m_buffer) (alarm_reg_count alarm),
          Event.write DS3231_ADDRESS 0x0E [w.bus.1 0x0E % 256] 1] := by
  obtain ⟨⟨regs, k⟩, m_buffer, log⟩ := w
  simp only at hb hI
  subst hb
  have hc : regs 14 % 256 < 256 := Nat.mod_lt _ (by decide)
  have hbit := intcn_clear_bit _ hc
  have hl0 : load [regs 14, regs 15] 2 fresh 0 = regs 14 % 256 := by simp [load]
  rw [set_alarm_eq (budget_handle short alarms) budget_read (budget_write short) _ _ _ _ _ _
    rfl rfl]
  simp only [call_read, budget_read, reg_read, DS3231_CONTROL_SIZE, DS3231_CONTROL1_REG_ADDRESS,
    ne_eq, not_true_eq_false, if_false]
  have hdata : List.map (fun i => regs (14 + i)) (List.range 2) = [regs 14, regs 15] := by
    simp [List.range_succ]
  rw [hdata]
  rcases hch with rfl | rfl
  · rw [if_pos rfl, budget_set_alarm_guard short _ _ _ _ _ _ _ _ _ _ (by decide) hshort
      (by rw [hl0]; exact hc) (by rw [hl0]; exact hI), hl0]
    refine ⟨rfl, ?_, ?_, ?_, ?_⟩
    · intro i hi
      have : i = 0 ∨ i = 1 ∨ i = 2 ∨ i = 3 := by
        simp [alarm_reg_count] at hi; omega
      rcases this with rfl | rfl | rfl | rfl <;>
        simp [reg_write, alarm_reg_base, alarm_bytes_written, DS3231_ALARM1_REG_BASE_ADDRESS,
          DS3231_CONTROL1_REG_ADDRESS, bytes, List.range_succ]
    · simp [reg_write, DS3231_ALARM1_REG_BASE_ADDRESS, DS3231_CONTROL1_REG_ADDRESS]
    · simp [reg_write, DS3231_ALARM1_REG_BASE_ADDRESS, DS3231_CONTROL1_REG_ADDRESS]
      exact hbit
    · simp [alarm_reg_base, alarm_reg_count, alarm_bytes_written, DS3231_CONTROL1_REG_ADDRESS]
  · have h21 : DS3231_ALARM_2 ≠ DS3231_ALARM_1 := by decide
    rw [if_neg h21, if_pos rfl, budget_set_alarm_guard short _ _ _ _ _ _ _ _ _ _ (by decide) hshort
      (by rw [hl0]; exact hc) (by rw [hl0]; exact hI), hl0]
    refine ⟨rfl, ?_, ?_, ?_, ?_⟩
    · intro i hi
      have : i = 0 ∨ i = 1 ∨ i = 2 := by
        simp [alarm_reg_count, h21] at hi; omega
      rcases this with rfl | rfl | rfl <;>
        simp [reg_write, alarm_reg_base, alarm_bytes_written, DS3231_ALARM2_REG_BASE_ADDRESS,
          DS3231_CONTROL1_REG_ADDRESS, bytes, List.range_succ, h21]
    · simp [reg_write, DS3231_ALARM2_REG_BASE_ADDRESS, DS3231_CONTROL1_REG_ADDRESS]
    · simp [reg_write, DS3231_ALARM2_REG_BASE_ADDRESS, DS3231_CONTROL1_REG_ADDRESS]
      exact hbit
    · simp [alarm_reg_base, alarm_reg_count, alarm_bytes_written, DS3231_CONTROL1_REG_ADDRESS,
        h21]

/-- C16, witness: channel 1 with the seconds-match mask over a register file
whose control-1 holds `0x1C` and that serves two writes: the alarm registers
hold `0x45, 0xB0, 0x94, 0x95` and control-1 is left at `0x18`. -/
theorem C16_restore_write_fails_witness :
    (DS3231_ALARM_1 = DS3231_ALARM_1 ∨ DS3231_ALARM_1 = DS3231_ALARM_2) ∧
    (ds3231_set_alarm (budget_handle 0 alarms0) DS3231_ALARM_1 DS3231_ALARM1_MASK_SECOND_MATCH
      sample_alarm_time none 0 (budget_world world_intcn.bus 2)).1 =
      DS3231_ERROR_WRITE_FAILED ∧
    (ds3231_set_alarm (budget_handle 0 alarms0) DS3231_ALARM_1 DS3231_ALARM1_MASK_SECOND_MATCH
      sample_alarm_time none 0 (budget_world world_intcn.bus 2)).2.2.bus.1 0x0E =
      (budget_world world_intcn.bus 2).bus.1 0x0E % 256 &&& not8 DS3231_CONTROL1_INTCN ∧
    (ds3231_set_alarm (budget_handle 0 alarms0) DS3231_ALARM_1 DS3231_ALARM1_MASK_SECOND_MATCH
      sample_alarm_time none 0 (budget_world world_intcn.bus 2)).2.2.log =
      [Event.read 0xD0 0x0E 2, Event.write 0xD0 0x0E [0x18] 1,
        Event.write 0xD0 0x07 [0x45, 0xB0, 0x94, 0x95] 4, Event.write 0xD0 0x0E [0x1C] 1] :=
  ⟨Or.inl rfl,
    (C16_restore_write_fails 0 alarms0 DS3231_ALARM_1 DS3231_ALARM1_MASK_SECOND_MATCH
      sample_alarm_time none 0 (budget_world world_intcn.bus 2) (Or.inl rfl) (by decide) rfl
      (by decide)).1,
    (C16_restore_write_fails 0 alarms0 DS3231_ALARM_1 DS3231_ALARM1_MASK_SECOND_MATCH
      sample_alarm_time none 0 (budget_world world_intcn.bus 2) (Or.inl rfl) (by decide) rfl
      (by decide)).2.2.1,
    (C16_restore_write_fails 0 alarms0 DS3231_ALARM_1 DS3231_ALARM1_MASK_SECOND_MATCH
      sample_alarm_time none 0 (budget_world world_intcn.bus 2) (Or.inl rfl) (by decide) rfl
      (by decide)).2.2.2.2⟩

/-! ## Short transfers -/

theorem replay_service_events {σ : Type} (rd : ds3231_read_t σ) (wr : ds3231_write_t σ) (s : σ)
    (a : ds3231_alarm_t) (f : Bool) (es : List Event) :
    replay rd wr s (alarm_service_events a f ++ es) = replay rd wr s es := by
  unfold alarm_service_events
  split_ifs
  · cases a.cb <;> simp [replay]
  · simp

theorem set_alarm_guard_aborts {σ : Type} (rd : ds3231_read_t σ) (wr : ds3231_write_t σ)
    (handle : ds3231_handle_t σ) (alarm : Nat) (cb : Option Nat) (args : Nat)
    (ctrl_reg : Nat → Nat) (alarm_base alarm_time_size : Nat) (w : World σ) :
    (set_alarm_guard wr handle alarm cb args ctrl_reg alarm_base alarm_time_size w).2.2.log =
      w.log ++ new_events w
        (set_alarm_guard wr handle alarm cb args ctrl_reg alarm_base alarm_time_size w).2.2.log ∧
    aborts_at_short (replay rd wr w.bus (new_events w
        (set_alarm_guard wr handle alarm cb args ctrl_reg alarm_base alarm_time_size w).2.2.log))
      (set_alarm_guard wr handle alarm cb args ctrl_reg alarm_base alarm_time_size w).1 = true := by
  simp only [set_alarm_guard, set_alarm_write, set_alarm_restore, set_alarm_finish, call_write,
    new_events]
  split_ifs <;>
    simp_all [replay, aborts_at_short, Event.requested, Event.failure]

theorem set_alarm_aborts {σ : Type} (handle : ds3231_handle_t σ) (rd : ds3231_read_t σ)
    (wr : ds3231_write_t σ) (alarm alarm_mask : Nat) (time : ds3231_datetime_t)
    (cb : Option Nat) (args : Nat) (w : World σ)
    (hrd : handle.read = some rd) (hwr : handle.write = some wr) :
    aborts_at_short (replay rd wr w.bus (new_events w
        (ds3231_set_alarm handle alarm alarm_mask time cb args w).2.2.log))
      (ds3231_set_alarm handle alarm alarm_mask time cb args w).1 = true := by
  rw [set_alarm_eq handle rd wr alarm alarm_mask time cb args w hrd hwr]
  split_ifs with h0 h1 h2
  · simp only [call_read, DS3231_CONTROL_SIZE] at h0
    simp [call_read, new_events, replay, aborts_at_short, Event.requested, Event.failure, h0,
      DS3231_CONTROL_SIZE]
  · obtain ⟨hl, ha⟩ := set_alarm_guard_aborts rd wr handle alarm cb args
      (load (call_read rd DS3231_CONTROL1_REG_ADDRESS DS3231_CONTROL_SIZE w).2.1
        DS3231_CONTROL_SIZE fresh)
      DS3231_ALARM1_REG_BASE_ADDRESS 4
      { (call_read rd DS3231_CONTROL1_REG_ADDRESS DS3231_CONTROL_SIZE w).1 with
        m_buffer := alarm1_buffer alarm_mask time
          (call_read rd DS3231_CONTROL1_REG_ADDRESS DS3231_CONTROL_SIZE w).1.m_buffer }
    rw [hl]
    simp only [call_read, DS3231_CONTROL_SIZE, ne_eq, not_not] at h0 ha ⊢
    simp only [new_events, List.append_assoc, List.drop_left, List.singleton_append, replay,
      aborts_at_short, Event.requested, h0, Nat.cast_ofNat, if_true]
    exact ha
  · obtain ⟨hl, ha⟩ := set_alarm_guard_aborts rd wr handle alarm cb args
      (load (call_read rd DS3231_CONTROL1_REG_ADDRESS DS3231_CONTROL_SIZE w).2.1
        DS3231_CONTROL_SIZE fresh)
      DS3231_ALARM2_REG_BASE_ADDRESS 3
      { (call_read rd DS3231_CONTROL1_REG_ADDRESS DS3231_CONTROL_SIZE w).1 with
        m_buffer := alarm2_buffer alarm_mask time
          (call_read rd DS3231_CONTROL1_REG_ADDRESS DS3231_CONTROL_SIZE w).1.m_buffer }
    rw [hl]
    simp only [call_read, DS3231_CONTROL_SIZE, ne_eq, not_not] at h0 ha ⊢
    simp only [new_events, List.append_assoc, List.drop_left, List.singleton_append, replay,
      aborts_at_short, Event.requested, h0, Nat.cast_ofNat, if_true]
    exact ha
  · simp only [call_read, DS3231_CONTROL_SIZE, ne_eq, not_not] at h0
    simp [call_read, new_events, replay, aborts_at_short, Event.requested, h0,
      DS3231_CONTROL_SIZE]

theorem init_aborts {σ : Type} (handle : ds3231_handle_t σ) (rd : ds3231_read_t σ)
    (wr : ds3231_write_t σ) (w : World σ) :
    aborts_at_short (replay rd wr w.bus (new_events w
        (ds3231_init handle (some wr) (some rd) w).2.2.log))
      (ds3231_init handle (some wr) (some rd) w).1 = true := by
  simp only [ds3231_init, call_read, call_write, DS3231_CONTROL_SIZE]
  split_ifs <;>
    simp_all [new_events, replay, aborts_at_short, Event.requested, Event.failure]

theorem gettime_aborts {σ : Type} (mktime : tm → Int) (handle : ds3231_handle_t σ)
    (rd : ds3231_read_t σ) (wr : ds3231_write_t σ) (time : Int) (w : World σ)
    (hrd : handle.read = some rd) :
    aborts_at_short (replay rd wr w.bus (new_events w
        (ds3231_gettime mktime handle time w).2.2.log))
      (ds3231_gettime mktime handle time w).1 = true := by
  simp only [ds3231_gettime, hrd, call_read, DS3231_DATETIME_SIZE]
  split_ifs <;>
    simp_all [new_events, replay, aborts_at_short, Event.requested, Event.failure]

theorem settime_aborts {σ : Type} (localtime : Int → tm) (handle : ds3231_handle_t σ)
    (rd : ds3231_read_t σ) (wr : ds3231_write_t σ) (time : Int) (w : World σ)
    (hwr : handle.write = some wr) :
    aborts_at_short (replay rd wr w.bus (new_events w
        (ds3231_settime localtime handle time w).2.log))
      (ds3231_settime localtime handle time w).1 = true := by
  simp only [ds3231_settime, hwr, call_write, DS3231_DATETIME_SIZE]
  split_ifs <;>
    simp_all [new_events, replay, aborts_at_short, Event.requested, Event.failure]

theorem get_alarm_aborts {σ : Type} (handle : ds3231_handle_t σ) (rd : ds3231_read_t σ)
    (wr : ds3231_write_t σ) (alarm : Nat) (time : ds3231_datetime_t) (w : World σ)
    (hrd : handle.read = some rd) :
    aborts_at_short (replay rd wr w.bus (new_events w
        (ds3231_get_alarm handle alarm time w).2.2.log))
      (ds3231_get_alarm handle alarm time w).1 = true := by
  simp only [ds3231_get_alarm, Id.run, pure, bind, hrd, call_read]
  split_ifs <;>
    simp_all [new_events, replay, aborts_at_short, Event.requested, Event.failure]

theorem allow_alarm_aborts {σ : Type} (handle : ds3231_handle_t σ) (rd : ds3231_read_t σ)
    (wr : ds3231_write_t σ) (alarm : Nat) (enabled : Bool) (w : World σ)
    (hrd : handle.read = some rd) (hwr : handle.write = some wr) :
    aborts_at_short (replay rd wr w.bus (new_events w
        (ds3231_allow_alarm handle alarm enabled w).2.2.log))
      (ds3231_allow_alarm handle alarm enabled w).1 = true := by
  rw [allow_alarm_eq handle rd wr alarm enabled w hrd hwr]
  simp only [call_read, call_write, DS3231_CONTROL_SIZE]
  split_ifs <;>
    simp_all [new_events, replay, aborts_at_short, Event.requested, Event.failure]

theorem alarm_callback_aborts {σ : Type} (handle : ds3231_handle_t σ) (rd : ds3231_read_t σ)
    (wr : ds3231_write_t σ) (w : World σ)
    (hrd : handle.read = some rd) (hwr : handle.write = some wr) :
    aborts_at_short (replay rd wr w.bus (new_events w
        (ds3231_alarm_callback handle w).2.2.log))
      (ds3231_alarm_callback handle w).1 = true := by
  obtain ⟨_, hl, hbus⟩ := alarm_callback_serviced_eq handle rd w
  rw [alarm_callback_eq handle rd wr w hrd hwr]
  simp only [call_write, hl, hbus]
  simp only [call_read, DS3231_CONTROL_SIZE]
  split_ifs <;>
    simp_all [new_events, replay, replay_service_events, aborts_at_short, Event.requested,
      Event.failure, DS3231_CONTROL1_REG_ADDRESS]

/-- C13 (as the code has it): every operation aborts at the first transfer
it sees as short.  For `ds3231_init`, `ds3231_gettime`, `ds3231_settime`,
`ds3231_set_alarm`, `ds3231_get_alarm`, `ds3231_allow_alarm` and
`ds3231_alarm_callback`, on any transport and at every position of the
sequence of transport calls the operation issues: a call that returns a
count which, converted to the 32-bit `int` the driver stores it in, is other
than the requested length (every count in the range of `int` other than the
length is one) is the last transport call of the operation, and the
operation returns `DS3231_ERROR_READ_FAILED` when that call was a read and
`DS3231_ERROR_WRITE_FAILED` when it was a write. -/
theorem C13_abort_at_short_transfer {σ : Type} (handle : ds3231_handle_t σ)
    (rd : ds3231_read_t σ) (wr : ds3231_write_t σ) (mktime : tm → Int) (localtime : Int → tm)
    (alarm alarm_mask : Nat) (time : ds3231_datetime_t) (cb : Option Nat) (args : Nat)
    (enabled : Bool) (epoch : Int) (w : World σ)
    (hrd : handle.read = some rd) (hwr : handle.write = some wr) :
    aborts_at_short (replay rd wr w.bus (new_events w
        (ds3231_init handle (some wr) (some rd) w).2.2.log))
      (ds3231_init handle (some wr) (some rd) w).1 = true ∧
    aborts_at_short (replay rd wr w.bus (new_events w
        (ds3231_gettime mktime handle epoch w).2.2.log))
      (ds3231_gettime mktime handle epoch w).1 = true ∧
    aborts_at_short (replay rd wr w.bus (new_events w
        (ds3231_settime localtime handle epoch w).2.log))
      (ds3231_settime localtime handle epoch w).1 = true ∧
    aborts_at_short (replay rd wr w.bus (new_events w
        (ds3231_set_alarm handle alarm alarm_mask time cb args w).2.2.log))
      (ds3231_set_alarm handle alarm alarm_mask time cb args w).1 = true ∧
    aborts_at_short (replay rd wr w.bus (new_events w
        (ds3231_get_alarm handle alarm time w).2.2.log))
      (ds3231_get_alarm handle alarm time w).1 = true ∧
    aborts_at_short (replay rd wr w.bus (new_events w
        (ds3231_allow_alarm handle alarm enabled w).2.2.log))
      (ds3231_allow_alarm handle alarm enabled w).1 = true ∧
    aborts_at_short (replay rd wr w.bus (new_events w
        (ds3231_alarm_callback handle w).2.2.log))
      (ds3231_alarm_callback handle w).1 = true :=
  ⟨init_aborts handle rd wr w, gettime_aborts mktime handle rd wr epoch w hrd,
    settime_aborts localtime handle rd wr epoch w hwr,
    set_alarm_aborts handle rd wr alarm alarm_mask time cb args w hrd hwr,
    get_alarm_aborts handle rd wr alarm time w hrd,
    allow_alarm_aborts handle rd wr alarm enabled w hrd hwr,
    alarm_callback_aborts handle rd wr w hrd hwr⟩

/-- C13, witness: `ds3231_set_alarm` on channel 1 over a register file with
INTCN set that serves one write and refuses the second, the alarm write: the
calls are the control read, the write that clears INTCN and the refused
alarm write, nothing follows it, and the status is
`DS3231_ERROR_WRITE_FAILED`. -/
theorem C13_abort_at_short_transfer_witness :
    replay budget_read (budget_write 0) (budget_world world_intcn.bus 1).bus
      (new_events (budget_world world_intcn.bus 1)
        (ds3231_set_alarm (budget_handle 0 alarms0) DS3231_ALARM_1
          DS3231_ALARM1_MASK_SECOND_MATCH sample_alarm_time none 0
          (budget_world world_intcn.bus 1)).2.2.log) =
      [(Event.read 0xD0 0x0E 2, 2), (Event.write 0xD0 0x0E [0x18] 1, 1),
        (Event.write 0xD0 0x07 [0x45, 0xB0, 0x94, 0x95] 4, 0)] ∧
    (ds3231_set_alarm (budget_handle 0 alarms0) DS3231_ALARM_1
      DS3231_ALARM1_MASK_SECOND_MATCH sample_alarm_time none 0
      (budget_world world_intcn.bus 1)).1 = DS3231_ERROR_WRITE_FAILED ∧
    aborts_at_short (replay budget_read (budget_write 0) (budget_world world_intcn.bus 1).bus
        (new_events (budget_world world_intcn.bus 1)
          (ds3231_set_alarm (budget_handle 0 alarms0) DS3231_ALARM_1
            DS3231_ALARM1_MASK_SECOND_MATCH sample_alarm_time none 0
            (budget_world world_intcn.bus 1)).2.2.log))
      (ds3231_set_alarm (budget_handle 0 alarms0) DS3231_ALARM_1
        DS3231_ALARM1_MASK_SECOND_MATCH sample_alarm_time none 0
        (budget_world world_intcn.bus 1)).1 = true :=
  ⟨by decide, by decide,
    (C13_abort_at_short_transfer (budget_handle 0 alarms0) budget_read (budget_write 0)
      (fun ts => ts.tm_mday) (fun _ => tm_20240615) DS3231_ALARM_1
      DS3231_ALARM1_MASK_SECOND_MATCH sample_alarm_time none 0 true 0
      (budget_world world_intcn.bus 1) rfl rfl).2.2.2.1⟩

/-- C13, counterexample: `ds3231_init` over a register file whose read
function reports the count 2^32 + 2 for the 2 bytes requested: the count
differs from the requested length, yet the driver's `int` holds 2, the
operation goes on to write the control registers and returns `DS3231_OK`. -/
theorem C13_wide_count_not_aborted :
    (wide_read world_intcn.bus DS3231_ADDRESS DS3231_CONTROL1_REG_ADDRESS
      DS3231_CONTROL_SIZE).2.2 = 4294967298 ∧
    (wide_read world_intcn.bus DS3231_ADDRESS DS3231_CONTROL1_REG_ADDRESS
      DS3231_CONTROL_SIZE).2.2 ≠ (DS3231_CONTROL_SIZE : Int) ∧
    (ds3231_init (reg_handle alarms0) (some reg_write) (some wide_read) world_intcn).1 =
      DS3231_OK ∧
    (ds3231_init (reg_handle alarms0) (some reg_write) (some wide_read) world_intcn).2.2.log =
      [Event.read 0xD0 0x0E 2, Event.write 0xD0 0x0E [0x1C, 0x88] 2] := by
  refine ⟨by decide, by decide, by decide, by decide⟩

/-! ## The predefined masks -/

theorem set_alarm1_write_event {σ : Type} (handle : ds3231_handle_t σ) (rd : ds3231_read_t σ)
    (wr : ds3231_write_t σ) (alarm_mask : Nat) (time : ds3231_datetime_t)
    (cb : Option Nat) (args : Nat) (w : World σ)
    (hrd : handle.read = some rd) (hwr : handle.write = some wr)
    (hR : ∀ s dev reg len, (rd s dev reg len).2.2 = (len : Int))
    (hW : ∀ s dev reg buf len, (wr s dev reg buf len).2 = (len : Int))
    (hv : valid_alarm_time time) :
    (ds3231_set_alarm handle DS3231_ALARM_1 alarm_mask time cb args w).2.2.log.filter
        (Event.writes_reg 0x07) =
      w.log.filter (Event.writes_reg 0x07) ++
        [Event.write DS3231_ADDRESS 0x07 (encode_alarm1 time alarm_mask) 4] := by
  have hb : alarm_bytes_written DS3231_ALARM_1 alarm_mask time w.m_buffer =
      encode_alarm1 time alarm_mask := by
    simp only [alarm_bytes_written, if_true]
    exact bytes_alarm1_encode alarm_mask time w.m_buffer hv
  rw [(set_alarm_ok_log handle rd wr DS3231_ALARM_1 alarm_mask time cb args w hrd hwr hR hW
    (Or.inl rfl)).2, hb]
  split_ifs <;>
    simp [List.filter_cons, Event.writes_reg, alarm_reg_base, alarm_reg_count,
      DS3231_CONTROL1_REG_ADDRESS, DS3231_ALARM1_REG_BASE_ADDRESS]

theorem set_alarm2_write_event {σ : Type} (handle : ds3231_handle_t σ) (rd : ds3231_read_t σ)
    (wr : ds3231_write_t σ) (alarm_mask : Nat) (time : ds3231_datetime_t)
    (cb : Option Nat) (args : Nat) (w : World σ)
    (hrd : handle.read = some rd) (hwr : handle.write = some wr)
    (hR : ∀ s dev reg len, (rd s dev reg len).2.2 = (len : Int))
    (hW : ∀ s dev reg buf len, (wr s dev reg buf len).2 = (len : Int))
    (hv : valid_alarm_time time) :
    (ds3231_set_alarm handle DS3231_ALARM_2 alarm_mask time cb args w).2.2.log.filter
        (Event.writes_reg 0x0B) =
      w.log.filter (Event.writes_reg 0x0B) ++
        [Event.write DS3231_ADDRESS 0x0B (encode_alarm2 time alarm_mask) 3] := by
  have hb : alarm_bytes_written DS3231_ALARM_2 alarm_mask time w.m_buffer =
      encode_alarm2 time alarm_mask := by
    have h21 : DS3231_ALARM_2 ≠ DS3231_ALARM_1 := by decide
    simp only [alarm_bytes_written, h21, if_false]
    exact bytes_alarm2_encode alarm_mask time w.m_buffer hv
  rw [(set_alarm_ok_log handle rd wr DS3231_ALARM_2 alarm_mask time cb args w hrd hwr hR hW
    (Or.inr rfl)).2, hb]
  split_ifs <;>
    simp [List.filter_cons, Event.writes_reg, alarm_reg_base, alarm_reg_count,
      DS3231_CONTROL1_REG_ADDRESS, DS3231_ALARM2_REG_BASE_ADDRESS, DS3231_ALARM_1,
      DS3231_ALARM_2]

theorem encode_alarm1_bit7 (time : ds3231_datetime_t) (mask : Nat)
    (hv : valid_alarm_time time) :
    (encode_alarm1 time mask).map (fun b => b.testBit 7) =
      [mask.testBit 0, mask.testBit 1, mask.testBit 2, mask.testBit 3] := by
  obtain ⟨hs, hm, hh, _, hd⟩ := hv
  simp only [encode_alarm1, List.map_cons, List.map_nil]
  rw [encoded_bit7 time.sec mask 0 (by omega), encoded_bit7 time.min mask 1 (by omega),
    encoded_bit7 time.hour mask 2 (by omega), encoded_bit7 time.date mask 3 (by omega)]

theorem encode_alarm2_bit7 (time : ds3231_datetime_t) (mask : Nat)
    (hv : valid_alarm_time time) :
    (encode_alarm2 time mask).map (fun b => b.testBit 7) =
      [mask.testBit 0, mask.testBit 1, mask.testBit 2] := by
  obtain ⟨hs, hm, hh, _, hd⟩ := hv
  simp only [encode_alarm2, List.map_cons, List.map_nil]
  rw [encoded_bit7 time.min mask 0 (by omega), encoded_bit7 time.hour mask 1 (by omega),
    encoded_bit7 time.date mask 2 (by omega)]

/-- C17: each predefined mask constant, passed to `ds3231_set_alarm` with a
valid alarm time on a transport whose calls transfer the requested length,
sets bit 7 exactly in the written register bytes of the fields to be
ignored.  Channel 1, bytes seconds, minutes, hours, day of month:
`PER_SECOND` sets bit 7 in all four, `SECOND_MATCH` in all but seconds,
`MIN_SEC_MATCH` in hours and day of month only, `HOUR_MIN_SEC_MATCH` in day
of month only.  Channel 2, bytes minutes, hours, day of month: `PER_MIN`
sets bit 7 in all three, `MIN_MATCH` in hours and day of month only,
`HOUR_MIN_MATCH` in day of month only. -/
theorem C17_mask_constants {σ : Type} (handle : ds3231_handle_t σ) (rd : ds3231_read_t σ)
    (wr : ds3231_write_t σ) (time : ds3231_datetime_t) (cb : Option Nat) (args : Nat)
    (w : World σ)
    (hrd : handle.read = some rd) (hwr : handle.write = some wr)
    (hR : ∀ s dev reg len, (rd s dev reg len).2.2 = (len : Int))
    (hW : ∀ s dev reg buf len, (wr s dev reg buf len).2 = (len : Int))
    (hv : valid_alarm_time time) :
    (∀ p ∈ [(DS3231_ALARM1_MASK_PER_SECOND, [true, true, true, true]),
        (DS3231_ALARM1_MASK_SECOND_MATCH, [false, true, true, true]),
        (DS3231_ALARM1_MASK_MIN_SEC_MATCH, [false, false, true, true]),
        (DS3231_ALARM1_MASK_HOUR_MIN_SEC_MATCH, [false, false, false, true])],
      ∃ written : List Nat,
        (ds3231_set_alarm handle DS3231_ALARM_1 p.1 time cb args w).2.2.log.filter
            (Event.writes_reg 0x07) =
          w.log.filter (Event.writes_reg 0x07) ++ [Event.write DS3231_ADDRESS 0x07 written 4] ∧
        written.map (fun b => b.testBit 7) = p.2) ∧
    (∀ p ∈ [(DS3231_ALARM2_MASK_PER_MIN, [true, true, true]),
        (DS3231_ALARM2_MASK_MIN_MATCH, [false, true, true]),
        (DS3231_ALARM2_MASK_HOUR_MIN_MATCH, [false, false, true])],
      ∃ written : List Nat,
        (ds3231_set_alarm handle DS3231_ALARM_2 p.1 time cb args w).2.2.log.filter
            (Event.writes_reg 0x0B) =
          w.log.filter (Event.writes_reg 0x0B) ++ [Event.write DS3231_ADDRESS 0x0B written 3] ∧
        written.map (fun b => b.testBit 7) = p.2) := by
  refine ⟨?_, ?_⟩
  · intro p hp
    refine ⟨encode_alarm1 time p.1,
      set_alarm1_write_event handle rd wr p.1 time cb args w hrd hwr hR hW hv, ?_⟩
    rw [encode_alarm1_bit7 time p.1 hv]
    simp only [List.mem_cons, List.mem_singleton, List.mem_nil_iff, or_false] at hp
    rcases hp with rfl | rfl | rfl | rfl <;> decide
  · intro p hp
    refine ⟨encode_alarm2 time p.1,
      set_alarm2_write_event handle rd wr p.1 time cb args w hrd hwr hR hW hv, ?_⟩
    rw [encode_alarm2_bit7 time p.1 hv]
    simp only [List.mem_cons, List.mem_singleton, List.mem_nil_iff, or_false] at hp
    rcases hp with rfl | rfl | rfl <;> decide

/-- C17, witness: the alarm time 14:30:45 on day 15 over the register file;
with `MIN_SEC_MATCH` the bytes written at 0x07 are `0x45, 0x30, 0x94, 0x95`
and with `HOUR_MIN_MATCH` the bytes written at 0x0B are `0x30, 0x14, 0x95`. -/
theorem C17_mask_constants_witness :
    valid_alarm_time sample_alarm_time ∧
    (ds3231_set_alarm (reg_handle alarms0) DS3231_ALARM_1 DS3231_ALARM1_MASK_MIN_SEC_MATCH
      sample_alarm_time none 0 world0).2.2.log.filter (Event.writes_reg 0x07) =
      [Event.write 0xD0 0x07 [0x45, 0x30, 0x94, 0x95] 4] ∧
    (ds3231_set_alarm (reg_handle alarms0) DS3231_ALARM_2 DS3231_ALARM2_MASK_HOUR_MIN_MATCH
      sample_alarm_time none 0 world0).2.2.log.filter (Event.writes_reg 0x0B) =
      [Event.write 0xD0 0x0B [0x30, 0x14, 0x95] 3] ∧
    ((∀ p ∈ [(DS3231_ALARM1_MASK_PER_SECOND, [true, true, true, true]),
        (DS3231_ALARM1_MASK_SECOND_MATCH, [false, true, true, true]),
        (DS3231_ALARM1_MASK_MIN_SEC_MATCH, [false, false, true, true]),
        (DS3231_ALARM1_MASK_HOUR_MIN_SEC_MATCH, [false, false, false, true])],
      ∃ written : List Nat,
        (ds3231_set_alarm (reg_handle alarms0) DS3231_ALARM_1 p.1 sample_alarm_time none 0
            world0).2.2.log.filter (Event.writes_reg 0x07) =
          world0.log.filter (Event.writes_reg 0x07) ++
            [Event.write DS3231_ADDRESS 0x07 written 4] ∧
        written.map (fun b => b.testBit 7) = p.2)) :=
  ⟨by decide, by decide, by decide,
    (C17_mask_constants (reg_handle alarms0) reg_read reg_write sample_alarm_time none 0 world0
      rfl rfl (fun _ _ _ _ => rfl) (fun _ _ _ _ _ => rfl) (by decide)).1⟩

end DS3231
